import Mathlib

/-!
# WebCAM video recorder: capture sessions as call traces

A shallow embedding of the Media Foundation recording programs of the repository.
The operating system, the capture devices and the sink writer are the environment:
every result they hand back (an `HRESULT`, a stream flag word, whether a sample
pointer is non-null, a clock reading) is an input of the model, and a run of the
program is the list of calls it makes, in order.

* `MultiDevice` embeds `10_Multiple_Device_Support/11_Video_Audio_Recording_WMF/VideoCapture.cpp`.
* `VideoAudio8` embeds `8_Video_Audio_Recording_WMF/VideoCapture.cpp`.
* `VideoOnly8` embeds the media type configuration, the sink writer configuration and
  the capture loop of `8_Video_Recording_using_WMF/VideoCapture.cpp`.
* `Record` embeds the recording switch and the key loop of
  `6_Proper_tested_code/Record.cpp`.
* `Youtube` embeds the media type configuration, the encoder command line and the
  capture loop of `12_Youtube_livestream_first_code/VideoCapture.cpp`.
-/

namespace WebCam

set_option maxRecDepth 8192

/-! ## Shared vocabulary -/

/-- A Windows `HRESULT`: negative values are failures. -/
abbrev HRESULT := Int

def S_OK : HRESULT := 0

/-- The generic failure code `0x80004005`, read as a signed 32-bit value. -/
def E_FAIL : HRESULT := -2147467259

/-- The `SUCCEEDED(hr)` test: `hr >= 0`. -/
def SUCCEEDED (hr : HRESULT) : Bool := decide (0 ≤ hr)

/-- The `FAILED(hr)` test: `hr < 0`. -/
def FAILED (hr : HRESULT) : Bool := decide (hr < 0)

/-- The statement `if (SUCCEEDED(hr)) hr = next;` for a call that touches neither a
device nor the sink writer (attribute setters on a local media type). -/
def thenCall (hr next : HRESULT) : HRESULT := if SUCCEEDED hr then next else hr

/-- Which of the two streams a call concerns. -/
inductive StreamKind
  | video
  | audio
  deriving DecidableEq

/-- Conversion of a value to `LONGLONG` (two's complement, 64 bits). -/
def toLONGLONG (x : Int) : Int :=
  (x + 9223372036854775808) % 18446744073709551616 - 9223372036854775808

/-- Conversion `static_cast<int>` of a size (two's complement, 32 bits). -/
def static_cast_int (n : Nat) : Int := ((n : Int) + 2147483648) % 4294967296 - 2147483648

/-- The `MF_SOURCE_READERF_ENDOFSTREAM` bit of the stream flags. -/
def MF_SOURCE_READERF_ENDOFSTREAM : Nat := 2

/-- The calls a session makes on its environment. Each call carries the result the
environment gave. `WriteSample` carries the sample time the program set and the
duration it set (`none` when the program left the duration alone). `CaptureFrames`
marks the entry into that function, `sleep_for` carries the requested wait written in
nanoseconds (a rational number: the multi-device program asks for a double-valued
number of microseconds), and `nullDereference` stands for a method call made through a
null `ComPtr`, at which the run stops. -/
inductive Event
  | MFEnumDeviceSources (k : StreamKind) (hr : HRESULT)
  | ActivateObject (k : StreamKind) (index : Nat) (hr : HRESULT)
  | MFCreateSourceReaderFromMediaSource (k : StreamKind) (hr : HRESULT)
  | SetCurrentMediaType (k : StreamKind) (hr : HRESULT)
  | MFCreateSinkWriterFromURL (hr : HRESULT)
  | AddStream (k : StreamKind) (hr : HRESULT)
  | SetInputMediaType (k : StreamKind) (hr : HRESULT)
  | BeginWriting (hr : HRESULT)
  | CaptureFrames
  | MFGetSystemTime (t : Int)
  | ReadSample (k : StreamKind) (hr : HRESULT) (flags : Nat) (sample : Bool)
  | WriteSample (k : StreamKind) (time : Int) (duration : Option Int) (hr : HRESULT)
  | sleep_for (nanos : ℚ)
  | Finalize (hr : HRESULT)
  | nullDereference
  deriving DecidableEq

/-- A device activation object: its identity and what `ActivateObject` answers. -/
structure IMFActivate where
  id : Nat
  ActivateObject : HRESULT
  deriving DecidableEq

/-- The `DeviceInfo` structure of the source. -/
structure DeviceInfo where
  device : IMFActivate
  name : String
  deriving DecidableEq

/-- One entry of the array filled by `MFEnumDeviceSources`, with the answer of its
friendly-name query. -/
structure EnumeratedDevice where
  device : IMFActivate
  GetAllocatedString : HRESULT
  deviceName : String

/-- What the environment answers during one device enumeration. -/
structure EnumEnv where
  MFCreateAttributes : HRESULT
  SetGUID : HRESULT
  MFEnumDeviceSources : HRESULT
  ppDevices : List EnumeratedDevice

/-- What `ReadSample` hands back: the result, the stream flags, and whether the
sample pointer is non-null. -/
structure ReadResult where
  hr : HRESULT
  flags : Nat
  sample : Bool

/-- What the environment answers during one iteration of a capture loop. A component
is consulted only if the iteration makes the corresponding call. `frameTime` is the
steady-clock time between `frameStart` and `frameEnd`, in nanoseconds. -/
structure FrameEnv where
  videoRead : ReadResult
  videoWrite : HRESULT
  audioRead : ReadResult
  audioWrite : HRESULT
  frameTime : Nat

/-- Answers to the calls that build the requested video capture type. -/
structure VideoTypeEnv where
  MFCreateMediaType : HRESULT
  MAJOR_TYPE : HRESULT
  SUBTYPE : HRESULT
  FRAME_SIZE : HRESULT
  FRAME_RATE : HRESULT
  PIXEL_ASPECT_RATIO : HRESULT
  SetCurrentMediaType : HRESULT

/-- Answers to the calls that build the requested audio capture type. -/
structure AudioTypeEnv where
  MFCreateMediaType : HRESULT
  MAJOR_TYPE : HRESULT
  SUBTYPE : HRESULT
  NUM_CHANNELS : HRESULT
  SAMPLES_PER_SECOND : HRESULT
  BITS_PER_SAMPLE : HRESULT
  BLOCK_ALIGNMENT : HRESULT
  AVG_BYTES_PER_SECOND : HRESULT
  SetCurrentMediaType : HRESULT

/-- Answers to the calls of `ConfigureSinkWriter`. -/
structure SinkWriterEnv where
  MFCreateSinkWriterFromURL : HRESULT
  videoOut_MFCreateMediaType : HRESULT
  videoOut_MAJOR_TYPE : HRESULT
  videoOut_SUBTYPE : HRESULT
  videoOut_AVG_BITRATE : HRESULT
  videoOut_FRAME_SIZE : HRESULT
  videoOut_FRAME_RATE : HRESULT
  videoOut_PIXEL_ASPECT_RATIO : HRESULT
  videoOut_INTERLACE_MODE : HRESULT
  AddStream_video : HRESULT
  audioOut_MFCreateMediaType : HRESULT
  audioOut_MAJOR_TYPE : HRESULT
  audioOut_SUBTYPE : HRESULT
  AddStream_audio : HRESULT
  SetInputMediaType_video : HRESULT
  SetInputMediaType_audio : HRESULT
  BeginWriting : HRESULT

/-- What the environment answers during one session: device enumeration, the integers
typed at the two selection prompts (only the multi-device program asks), reader
creation, type negotiation, sink writer configuration, the successive
`MFGetSystemTime` readings (`clock k` is the reading of call number `k`), the capture
loop, and `Finalize`. `frames` has one entry for each time the loop condition finds
`isRecording` set; after the last entry the key press thread has cleared the flag. -/
structure SessionEnv where
  videoEnum : EnumEnv
  videoSelection : Int
  videoReader : HRESULT
  videoType : VideoTypeEnv
  audioEnum : EnumEnv
  audioSelection : Int
  audioReader : HRESULT
  audioType : AudioTypeEnv
  sink : SinkWriterEnv
  clock : Nat → Int
  frames : List FrameEnv
  Finalize : HRESULT

/-- What a media type configuration function hands back: its `HRESULT`, whether the
out-parameter media type is non-null, and the calls made on the source reader. -/
structure TypeResult where
  hr : HRESULT
  selectedType : Bool
  trace : List Event

/-- Every call of `ConfigureSinkWriter` succeeds, the creation of the sink writer
included. -/
def SinkWriterEnv.allSucceed (e : SinkWriterEnv) : Bool :=
  SUCCEEDED e.MFCreateSinkWriterFromURL && SUCCEEDED e.videoOut_MFCreateMediaType &&
  SUCCEEDED e.videoOut_MAJOR_TYPE && SUCCEEDED e.videoOut_SUBTYPE &&
  SUCCEEDED e.videoOut_AVG_BITRATE && SUCCEEDED e.videoOut_FRAME_SIZE &&
  SUCCEEDED e.videoOut_FRAME_RATE && SUCCEEDED e.videoOut_PIXEL_ASPECT_RATIO &&
  SUCCEEDED e.videoOut_INTERLACE_MODE && SUCCEEDED e.AddStream_video &&
  SUCCEEDED e.audioOut_MFCreateMediaType && SUCCEEDED e.audioOut_MAJOR_TYPE &&
  SUCCEEDED e.audioOut_SUBTYPE && SUCCEEDED e.AddStream_audio &&
  SUCCEEDED e.SetInputMediaType_video && SUCCEEDED e.SetInputMediaType_audio &&
  SUCCEEDED e.BeginWriting

/-- A function body in progress: the current `hr`, the calls made so far, and whether
the run was cut short by a method call through a null `ComPtr`. -/
structure Exec where
  hr : HRESULT
  trace : List Event
  crashed : Bool

/-- The value a function returns, when it returns. -/
def Exec.result (s : Exec) : Option HRESULT := if s.crashed then none else some s.hr

/-- The statement `hr = ...;` for calls that touch neither a device nor the sink. -/
def Exec.assign (s : Exec) (res : HRESULT) : Exec :=
  if s.crashed then s else { s with hr := res }

/-- The statement `if (SUCCEEDED(hr)) hr = ppSinkWriter->call(...);`: `writer` says
whether `ppSinkWriter` is non-null, `ev` is the call and `res` its answer. -/
def Exec.thenSinkCall (s : Exec) (writer : Bool) (ev : HRESULT → Event) (res : HRESULT) : Exec :=
  if s.crashed then s
  else if SUCCEEDED s.hr then
    if writer then { s with hr := res, trace := s.trace ++ [ev res] }
    else { s with trace := s.trace ++ [Event.nullDereference], crashed := true }
  else s

/-- The variables of a capture loop that live across iterations: `startTime` and the
number of `MFGetSystemTime` calls made so far. -/
structure LoopState where
  startTime : Int
  clockCalls : Nat

/-- What one piece of a loop iteration did: its calls, the loop variables after it,
whether it ran into a null `ComPtr`, and whether it left the loop with `break`. -/
structure Step where
  trace : List Event
  state : LoopState
  crashed : Bool
  broke : Bool

/-- The calls of a whole run, and whether it ended in a null dereference. -/
structure Run where
  trace : List Event
  crashed : Bool

/-! ### Observations on traces -/

/-- The sample time of a `WriteSample` call on stream `k`. -/
def sampleTimeOn (k : StreamKind) : Event → Option Int
  | Event.WriteSample k' t _ _ => if k' = k then some t else none
  | _ => none

/-- Sample times of the `WriteSample` calls on stream `k`, in write order. -/
def sampleTimes (k : StreamKind) (trace : List Event) : List Int :=
  trace.filterMap (sampleTimeOn k)

def isWriteSample : Event → Bool
  | Event.WriteSample _ _ _ _ => true
  | _ => false

def isFailedWriteSample : Event → Bool
  | Event.WriteSample _ _ _ hr => FAILED hr
  | _ => false

def isReadSample : Event → Bool
  | Event.ReadSample _ _ _ _ => true
  | _ => false

def isFailedReadSample : Event → Bool
  | Event.ReadSample _ hr _ _ => FAILED hr
  | _ => false

def isAddStream : Event → Bool
  | Event.AddStream _ _ => true
  | _ => false

def isSetInputMediaType : Event → Bool
  | Event.SetInputMediaType _ _ => true
  | _ => false

def isBeginWriting : Event → Bool
  | Event.BeginWriting _ => true
  | _ => false

def isFinalize : Event → Bool
  | Event.Finalize _ => true
  | _ => false

def isActivateObject : Event → Bool
  | Event.ActivateObject _ _ _ => true
  | _ => false

def isCaptureFrames : Event → Bool
  | Event.CaptureFrames => true
  | _ => false

def isMFCreateSinkWriterFromURL : Event → Bool
  | Event.MFCreateSinkWriterFromURL _ => true
  | _ => false

/-- Whether no event satisfying `q` comes after an event satisfying `p`. -/
def noneAfter (p q : Event → Bool) : List Event → Bool
  | [] => true
  | ev :: rest => (!p ev || rest.all (fun x => !q x)) && noneAfter p q rest

/-- The stream added by an `AddStream` call. -/
def addedStream : Event → Option StreamKind
  | Event.AddStream k _ => some k
  | _ => none

/-- The streams added, in the order of the `AddStream` calls. -/
def addedStreams (trace : List Event) : List StreamKind :=
  trace.filterMap addedStream

/-- An `AddStream` or `SetInputMediaType` call. -/
def isStreamSetup (ev : Event) : Bool := isAddStream ev || isSetInputMediaType ev

/-- A `ReadSample` or `WriteSample` call, on either stream. -/
def isCaptureCall (ev : Event) : Bool := isReadSample ev || isWriteSample ev

/-- A `ReadSample` or `WriteSample` call that returned a failure. -/
def isFailedCaptureCall (ev : Event) : Bool := isFailedReadSample ev || isFailedWriteSample ev

/-- The result carried by a sink-configuration call (`AddStream`, `SetInputMediaType`). -/
def configResult : Event → Option HRESULT
  | Event.AddStream _ hr => some hr
  | Event.SetInputMediaType _ hr => some hr
  | _ => none

/-! ## Double-precision arithmetic

The pacing step of the capture loops computes with `double`. A finite double is kept
as an integer mantissa and a binary exponent, and every operation is the exact
operation followed by rounding to the nearest double (ties to the even mantissa), with
53 significant binary digits and no digit below `2 ^ (-1074)`. Infinities and
not-a-number values are not represented: the magnitudes met here stay far below
`2 ^ 1024`, and no division by zero occurs. -/

/-- The rational number `n * 2 ^ e`. -/
def dyadic (n e : Int) : ℚ := mkRat (n * 2 ^ e.toNat) (2 ^ (-e).toNat)

/-- The number of binary digits of `n`, found in at most `fuel` halvings. -/
def bitLengthFrom : Nat → Nat → Nat
  | 0, _ => 0
  | fuel + 1, n => if n = 0 then 0 else bitLengthFrom fuel (n / 2) + 1

/-- The number of binary digits of `n`. -/
def bitLength (n : Nat) : Nat := bitLengthFrom n n

/-- The exponent `e` with `2 ^ e ≤ p / q < 2 ^ (e + 1)`, for positive `p` and `q`. -/
def binade (p q : Nat) : Int :=
  let e : Int := (bitLength p : Int) - (bitLength q : Int)
  if q * 2 ^ e.toNat ≤ p * 2 ^ (-e).toNat then e else e - 1

/-- The integer nearest to `n / d`, the even one of the two when `n / d` lies half
way between them. -/
def divRoundEven (n d : Nat) : Nat :=
  let q := n / d
  let r := n % d
  if 2 * r < d then q else if d < 2 * r then q + 1 else if q % 2 = 0 then q else q + 1

/-- A finite double-precision number, `mantissa * 2 ^ exponent`. -/
structure Double where
  mantissa : Int
  exponent : Int
  deriving DecidableEq

/-- The number a double stands for. -/
def Double.toRat (x : Double) : ℚ := dyadic x.mantissa x.exponent

/-- The double nearest to `p / q`. -/
def Double.round (p : Int) (q : Nat) : Double :=
  if p = 0 ∨ q = 0 then ⟨0, 0⟩ else
  let exponent : Int := max (binade p.natAbs q - 52) (-1074)
  let m := divRoundEven (p.natAbs * 2 ^ (-exponent).toNat) (q * 2 ^ exponent.toNat)
  ⟨if p < 0 then -(m : Int) else (m : Int), exponent⟩

/-- Conversion of an integer to `double`. -/
def Double.ofInt (n : Int) : Double := Double.round n 1

/-- Division of doubles: the exact quotient, rounded. -/
def Double.div (x y : Double) : Double :=
  Double.round (x.mantissa * y.mantissa.sign * 2 ^ (x.exponent - y.exponent).toNat)
    (y.mantissa.natAbs * 2 ^ (y.exponent - x.exponent).toNat)

/-- Subtraction of doubles: the exact difference, rounded. -/
def Double.sub (x y : Double) : Double :=
  let e := min x.exponent y.exponent
  Double.round
    ((x.mantissa * 2 ^ (x.exponent - e).toNat - y.mantissa * 2 ^ (y.exponent - e).toNat) *
      2 ^ e.toNat)
    (2 ^ (-e).toNat)

/-! ## `10_Multiple_Device_Support/11_Video_Audio_Recording_WMF/VideoCapture.cpp` -/

namespace MultiDevice

def FRAME_RATE_NUMERATOR : Nat := 60

def FRAME_RATE_DENOMINATOR : Nat := 1

def FRAME_DURATION : Nat := 10000000 / FRAME_RATE_NUMERATOR

/-- Lines 92-102. The media type is non-null exactly when `MFCreateMediaType`
succeeded. -/
def ConfigureConservativeMediaType (e : VideoTypeEnv) : TypeResult :=
  let hr := e.MFCreateMediaType
  let ppSelectedType := SUCCEEDED hr
  let hr := thenCall hr e.MAJOR_TYPE
  let hr := thenCall hr e.SUBTYPE
  let hr := thenCall hr e.FRAME_SIZE
  let hr := thenCall hr e.FRAME_RATE
  let hr := thenCall hr e.PIXEL_ASPECT_RATIO
  if SUCCEEDED hr then
    ⟨e.SetCurrentMediaType, ppSelectedType,
      [Event.SetCurrentMediaType StreamKind.video e.SetCurrentMediaType]⟩
  else ⟨hr, ppSelectedType, []⟩

/-- Lines 105-117. -/
def ConfigureAudioMediaType (e : AudioTypeEnv) : TypeResult :=
  let hr := e.MFCreateMediaType
  let ppSelectedAudioType := SUCCEEDED hr
  let hr := thenCall hr e.MAJOR_TYPE
  let hr := thenCall hr e.SUBTYPE
  let hr := thenCall hr e.NUM_CHANNELS
  let hr := thenCall hr e.SAMPLES_PER_SECOND
  let hr := thenCall hr e.BITS_PER_SAMPLE
  let hr := thenCall hr e.BLOCK_ALIGNMENT
  let hr := thenCall hr e.AVG_BYTES_PER_SECOND
  if SUCCEEDED hr then
    ⟨e.SetCurrentMediaType, ppSelectedAudioType,
      [Event.SetCurrentMediaType StreamKind.audio e.SetCurrentMediaType]⟩
  else ⟨hr, ppSelectedAudioType, []⟩

/-- Lines 130-137: the video output type is built; the first call overwrites `hr`. -/
def videoOutputType (e : SinkWriterEnv) : HRESULT :=
  let hr := e.videoOut_MFCreateMediaType
  let hr := thenCall hr e.videoOut_MAJOR_TYPE
  let hr := thenCall hr e.videoOut_SUBTYPE
  let hr := thenCall hr e.videoOut_AVG_BITRATE
  let hr := thenCall hr e.videoOut_FRAME_SIZE
  let hr := thenCall hr e.videoOut_FRAME_RATE
  let hr := thenCall hr e.videoOut_PIXEL_ASPECT_RATIO
  thenCall hr e.videoOut_INTERLACE_MODE

/-- Lines 142-144: the audio output type is built. -/
def audioOutputType (e : SinkWriterEnv) : HRESULT :=
  let hr := e.audioOut_MFCreateMediaType
  let hr := thenCall hr e.audioOut_MAJOR_TYPE
  thenCall hr e.audioOut_SUBTYPE

/-- Lines 141-147: the branch taken when `hr` succeeded and the audio type is
non-null. -/
def addAudioStream (e : SinkWriterEnv) (ppSinkWriter : Bool) (s : Exec) : Exec :=
  let s := s.assign (audioOutputType e)
  let s := s.thenSinkCall ppSinkWriter (Event.AddStream StreamKind.audio) e.AddStream_audio
  let s := s.thenSinkCall ppSinkWriter (Event.SetInputMediaType StreamKind.video)
    e.SetInputMediaType_video
  s.thenSinkCall ppSinkWriter (Event.SetInputMediaType StreamKind.audio)
    e.SetInputMediaType_audio

/-- Lines 140-150: the audio branch, or the video input type alone. -/
def setInputTypes (e : SinkWriterEnv) (pAudioType ppSinkWriter : Bool) (s : Exec) : Exec :=
  if s.crashed then s
  else if SUCCEEDED s.hr && pAudioType then addAudioStream e ppSinkWriter s
  else if SUCCEEDED s.hr then
    s.thenSinkCall ppSinkWriter (Event.SetInputMediaType StreamKind.video)
      e.SetInputMediaType_video
  else s

/-- Lines 120-155. `pAudioType` says whether the audio type passed in is non-null.
The sink writer pointer is non-null exactly when `MFCreateSinkWriterFromURL`
succeeded; its `HRESULT` is overwritten on line 130 before anything reads it. -/
def ConfigureSinkWriter (e : SinkWriterEnv) (pAudioType : Bool) : Exec :=
  let ppSinkWriter := SUCCEEDED e.MFCreateSinkWriterFromURL
  let s : Exec :=
    ⟨e.MFCreateSinkWriterFromURL, [Event.MFCreateSinkWriterFromURL e.MFCreateSinkWriterFromURL],
      false⟩
  let s := s.assign (videoOutputType e)
  let s := s.thenSinkCall ppSinkWriter (Event.AddStream StreamKind.video) e.AddStream_video
  let s := setInputTypes e pAudioType ppSinkWriter s
  s.thenSinkCall ppSinkWriter Event.BeginWriting e.BeginWriting

/-- The loop of lines 171-185: the devices whose friendly-name query succeeded are
pushed onto `devices`, in enumeration order. -/
def pushNamedDevices : List EnumeratedDevice → List DeviceInfo → List DeviceInfo
  | [], devices => devices
  | d :: rest, devices =>
      if SUCCEEDED d.GetAllocatedString then
        pushNamedDevices rest (devices ++ [⟨d.device, d.deviceName⟩])
      else pushNamedDevices rest devices

/-- Lines 158-189: the returned `HRESULT`, the output list, and the calls made. -/
def EnumerateDevices (k : StreamKind) (e : EnumEnv) (devices : List DeviceInfo) :
    HRESULT × List DeviceInfo × List Event :=
  let hr := e.MFCreateAttributes
  if FAILED hr then (hr, devices, []) else
  let hr := e.SetGUID
  if FAILED hr then (hr, devices, []) else
  let hr := e.MFEnumDeviceSources
  if FAILED hr then (hr, devices, [Event.MFEnumDeviceSources k hr]) else
  (S_OK, pushNamedDevices e.ppDevices devices, [Event.MFEnumDeviceSources k hr])

/-- What `SelectDevice` hands back: whether the returned media source is non-null,
the calls made, and whether the vector was read outside its bounds. -/
structure Selection where
  mediaSource : Bool
  trace : List Event
  crashed : Bool

/-- Lines 204-220, with `selection` the integer read from the console. The media
source is non-null exactly when `ActivateObject` succeeded. -/
def SelectDevice (k : StreamKind) (devices : List DeviceInfo) (selection : Int) : Selection :=
  if 0 ≤ selection ∧ selection < static_cast_int devices.length then
    match devices[selection.toNat]? with
    | some info =>
        ⟨SUCCEEDED info.device.ActivateObject,
          [Event.ActivateObject k selection.toNat info.device.ActivateObject], false⟩
    | none => ⟨false, [], true⟩
  else ⟨false, [], false⟩

/-- Lines 236-238: the time origin is read when `startTime` is still zero. -/
def anchorStartTime (clock : Nat → Int) (st : LoopState) : Step :=
  if st.startTime = 0 then
    ⟨[Event.MFGetSystemTime (clock st.clockCalls)], ⟨clock st.clockCalls, st.clockCalls + 1⟩,
      false, false⟩
  else ⟨[], st, false, false⟩

/-- Lines 256-262 and 281-286: a sample that was obtained gets the time
`MFGetSystemTime() - startTime` and is written on stream `k`; `pSinkWriter` says
whether the sink writer pointer is non-null. A failed write is only reported. -/
def writeSample (clock : Nat → Int) (pSinkWriter : Bool) (k : StreamKind)
    (duration : Option Int) (hrWrite : HRESULT) (st : LoopState) : Step :=
  let now := clock st.clockCalls
  let llSampleTime := toLONGLONG (now - st.startTime)
  let st' : LoopState := ⟨st.startTime, st.clockCalls + 1⟩
  if pSinkWriter then
    ⟨[Event.MFGetSystemTime now, Event.WriteSample k llSampleTime duration hrWrite], st',
      false, false⟩
  else ⟨[Event.MFGetSystemTime now, Event.nullDereference], st', true, false⟩

/-- Lines 241-262: the video read and, when a sample came back, its write. -/
def captureVideo (clock : Nat → Int) (pSinkWriter : Bool) (e : FrameEnv) (st : LoopState) :
    Step :=
  let read := Event.ReadSample StreamKind.video e.videoRead.hr e.videoRead.flags
    e.videoRead.sample
  if e.videoRead.sample then
    let w := writeSample clock pSinkWriter StreamKind.video (some (FRAME_DURATION : Int))
      e.videoWrite st
    ⟨read :: w.trace, w.state, w.crashed, false⟩
  else ⟨[read], st, false, false⟩

/-- Lines 265-287: the audio read and write, made only when the audio source reader
is non-null. -/
def captureAudio (clock : Nat → Int) (pAudioSourceReader pSinkWriter : Bool) (e : FrameEnv)
    (st : LoopState) : Step :=
  if pAudioSourceReader then
    let read := Event.ReadSample StreamKind.audio e.audioRead.hr e.audioRead.flags
      e.audioRead.sample
    if e.audioRead.sample then
      let w := writeSample clock pSinkWriter StreamKind.audio none e.audioWrite st
      ⟨read :: w.trace, w.state, w.crashed, false⟩
    else ⟨[read], st, false, false⟩
  else ⟨[], st, false, false⟩

/-- Lines 289-295, for an iteration whose `frameEnd - frameStart` is `frameTime`
nanoseconds of the steady clock. That count becomes the double-valued number of
microseconds `frameTime` (`double(count) / 1000.0`), `frameWait` is
`microseconds(1000000 / FRAME_RATE_NUMERATOR)` minus it, computed in double, and a
sleep of `frameWait` is requested when it is positive. The result is that duration
written in nanoseconds, `none` when no sleep is requested. -/
def frameWait (frameTime : Nat) : Option ℚ :=
  let elapsed := Double.div (Double.ofInt frameTime) (Double.ofInt 1000)
  let wait := Double.sub (Double.ofInt ((1000000 / FRAME_RATE_NUMERATOR : Nat) : Int)) elapsed
  if 0 < wait.mantissa then some (dyadic (wait.mantissa * 1000) wait.exponent) else none

/-- The calls of the pacing step. -/
def pace (frameTime : Nat) : List Event :=
  match frameWait frameTime with
  | some wait => [Event.sleep_for wait]
  | none => []

/-- One iteration of the loop of lines 233-296. -/
def captureFrame (clock : Nat → Int) (pAudioSourceReader pSinkWriter : Bool) (e : FrameEnv)
    (st : LoopState) : Step :=
  let a := anchorStartTime clock st
  let v := captureVideo clock pSinkWriter e a.state
  if v.crashed then ⟨a.trace ++ v.trace, v.state, true, false⟩ else
  let u := captureAudio clock pAudioSourceReader pSinkWriter e v.state
  if u.crashed then ⟨a.trace ++ v.trace ++ u.trace, u.state, true, false⟩ else
  ⟨a.trace ++ v.trace ++ u.trace ++ pace e.frameTime, u.state, false, false⟩

/-- The loop `while (isRecording)`: one iteration per entry of the list. -/
def captureLoop (clock : Nat → Int) (pAudioSourceReader pSinkWriter : Bool) :
    List FrameEnv → LoopState → Run
  | [], _ => ⟨[], false⟩
  | e :: rest, st =>
      let f := captureFrame clock pAudioSourceReader pSinkWriter e st
      if f.crashed then ⟨f.trace, true⟩
      else
        let r := captureLoop clock pAudioSourceReader pSinkWriter rest f.state
        ⟨f.trace ++ r.trace, r.crashed⟩

/-- Lines 223-303: `startTime` starts at zero. -/
def CaptureFrames (clock : Nat → Int) (pAudioSourceReader pSinkWriter : Bool)
    (frames : List FrameEnv) : Run :=
  let r := captureLoop clock pAudioSourceReader pSinkWriter frames ⟨0, 0⟩
  ⟨Event.CaptureFrames :: r.trace, r.crashed⟩

/-- Lines 354-360: sink writer configuration, capture, and `Finalize` when the sink
writer pointer is non-null. The result of `ConfigureSinkWriter` is not read. -/
def recordSession (e : SessionEnv) (pSelectedAudioType pAudioSourceReader : Bool) : Run :=
  let c := ConfigureSinkWriter e.sink pSelectedAudioType
  if c.crashed then ⟨c.trace, true⟩ else
  let pSinkWriter := SUCCEEDED e.sink.MFCreateSinkWriterFromURL
  let f := CaptureFrames e.clock pAudioSourceReader pSinkWriter e.frames
  if f.crashed then ⟨c.trace ++ f.trace, true⟩ else
  if pSinkWriter then ⟨c.trace ++ f.trace ++ [Event.Finalize e.Finalize], false⟩
  else ⟨c.trace ++ f.trace, false⟩

/-- Lines 332-352 followed by the rest of the session: the audio device is
enumerated and, when one is listed, selected, opened and configured. -/
def setUpAudio (e : SessionEnv) : Run :=
  let (hr, audioDevices, t1) := EnumerateDevices StreamKind.audio e.audioEnum []
  if FAILED hr || audioDevices.isEmpty then
    let r := recordSession e false false
    ⟨t1 ++ r.trace, r.crashed⟩
  else
    let sel := SelectDevice StreamKind.audio audioDevices e.audioSelection
    if sel.crashed then ⟨t1 ++ sel.trace, true⟩ else
    if !sel.mediaSource then ⟨t1 ++ sel.trace, false⟩ else
    let t2 := t1 ++ sel.trace ++
      [Event.MFCreateSourceReaderFromMediaSource StreamKind.audio e.audioReader]
    if FAILED e.audioReader then ⟨t2, false⟩ else
    let a := ConfigureAudioMediaType e.audioType
    let r := recordSession e a.selectedType true
    ⟨t2 ++ a.trace ++ r.trace, r.crashed⟩

/-- Lines 306-361. The results of `ConfigureConservativeMediaType`,
`ConfigureAudioMediaType` and `ConfigureSinkWriter` are assigned to `hr` and not
read. -/
def StartRecording (e : SessionEnv) : Run :=
  let (hr, videoDevices, t1) := EnumerateDevices StreamKind.video e.videoEnum []
  if FAILED hr || videoDevices.isEmpty then ⟨t1, false⟩ else
  let sel := SelectDevice StreamKind.video videoDevices e.videoSelection
  if sel.crashed then ⟨t1 ++ sel.trace, true⟩ else
  if !sel.mediaSource then ⟨t1 ++ sel.trace, false⟩ else
  let t2 := t1 ++ sel.trace ++
    [Event.MFCreateSourceReaderFromMediaSource StreamKind.video e.videoReader]
  if FAILED e.videoReader then ⟨t2, false⟩ else
  let v := ConfigureConservativeMediaType e.videoType
  let r := setUpAudio e
  ⟨t2 ++ v.trace ++ r.trace, r.crashed⟩

end MultiDevice

/-! ## `8_Video_Audio_Recording_WMF/VideoCapture.cpp` -/

namespace VideoAudio8

/-- The duration `(LONGLONG)(10'000'000.0 / 15)` given to every video sample. -/
def llFrameDuration : Int := 666666

/-- Lines 64-109: every call is checked and a failure returns at once. -/
def ConfigureConservativeMediaType (e : VideoTypeEnv) : TypeResult :=
  let hr := e.MFCreateMediaType
  if FAILED hr then ⟨hr, false, []⟩ else
  let hr := e.MAJOR_TYPE
  if FAILED hr then ⟨hr, true, []⟩ else
  let hr := e.SUBTYPE
  if FAILED hr then ⟨hr, true, []⟩ else
  let hr := e.FRAME_SIZE
  if FAILED hr then ⟨hr, true, []⟩ else
  let hr := e.FRAME_RATE
  if FAILED hr then ⟨hr, true, []⟩ else
  let hr := e.PIXEL_ASPECT_RATIO
  if FAILED hr then ⟨hr, true, []⟩ else
  let hr := e.SetCurrentMediaType
  ⟨hr, true, [Event.SetCurrentMediaType StreamKind.video hr]⟩

/-- Lines 112-169. -/
def ConfigureAudioMediaType (e : AudioTypeEnv) : TypeResult :=
  let hr := e.MFCreateMediaType
  if FAILED hr then ⟨hr, false, []⟩ else
  let hr := e.MAJOR_TYPE
  if FAILED hr then ⟨hr, true, []⟩ else
  let hr := e.SUBTYPE
  if FAILED hr then ⟨hr, true, []⟩ else
  let hr := e.NUM_CHANNELS
  if FAILED hr then ⟨hr, true, []⟩ else
  let hr := e.SAMPLES_PER_SECOND
  if FAILED hr then ⟨hr, true, []⟩ else
  let hr := e.BITS_PER_SAMPLE
  if FAILED hr then ⟨hr, true, []⟩ else
  let hr := e.BLOCK_ALIGNMENT
  if FAILED hr then ⟨hr, true, []⟩ else
  let hr := e.AVG_BYTES_PER_SECOND
  if FAILED hr then ⟨hr, true, []⟩ else
  let hr := e.SetCurrentMediaType
  ⟨hr, true, [Event.SetCurrentMediaType StreamKind.audio hr]⟩

/-- What `ConfigureSinkWriter` hands back: its `HRESULT`, the calls made, and whether
the sink writer pointer is non-null afterwards. -/
structure SinkResult where
  hr : HRESULT
  trace : List Event
  sinkWriter : Bool

/-- Lines 281-287: `BeginWriting`; on failure the sink writer pointer is reset. -/
def beginWriting (e : SinkWriterEnv) (t : List Event) : SinkResult :=
  let hr := e.BeginWriting
  if FAILED hr then ⟨hr, t ++ [Event.BeginWriting hr], false⟩
  else ⟨hr, t ++ [Event.BeginWriting hr], true⟩

/-- Lines 172-288. `pAudioType` says whether the audio type passed in is non-null.
The sink writer pointer is non-null exactly when `MFCreateSinkWriterFromURL`
succeeded, until a failed `BeginWriting` resets it. -/
def ConfigureSinkWriter (e : SinkWriterEnv) (pAudioType : Bool) : SinkResult :=
  let hr := e.MFCreateSinkWriterFromURL
  let t := [Event.MFCreateSinkWriterFromURL hr]
  if FAILED hr then ⟨hr, t, false⟩ else
  let hr := e.videoOut_MFCreateMediaType
  if FAILED hr then ⟨hr, t, true⟩ else
  let hr := e.videoOut_MAJOR_TYPE
  if FAILED hr then ⟨hr, t, true⟩ else
  let hr := e.videoOut_SUBTYPE
  if FAILED hr then ⟨hr, t, true⟩ else
  let hr := e.videoOut_AVG_BITRATE
  if FAILED hr then ⟨hr, t, true⟩ else
  let hr := e.videoOut_FRAME_SIZE
  if FAILED hr then ⟨hr, t, true⟩ else
  let hr := e.videoOut_FRAME_RATE
  if FAILED hr then ⟨hr, t, true⟩ else
  let hr := e.videoOut_PIXEL_ASPECT_RATIO
  if FAILED hr then ⟨hr, t, true⟩ else
  let hr := e.videoOut_INTERLACE_MODE
  if FAILED hr then ⟨hr, t, true⟩ else
  let hr := e.AddStream_video
  let t := t ++ [Event.AddStream StreamKind.video hr]
  if FAILED hr then ⟨hr, t, true⟩ else
  if pAudioType then
    let hr := e.audioOut_MFCreateMediaType
    if FAILED hr then ⟨hr, t, true⟩ else
    let hr := e.audioOut_MAJOR_TYPE
    if FAILED hr then ⟨hr, t, true⟩ else
    let hr := e.audioOut_SUBTYPE
    if FAILED hr then ⟨hr, t, true⟩ else
    let hr := e.AddStream_audio
    let t := t ++ [Event.AddStream StreamKind.audio hr]
    if FAILED hr then ⟨hr, t, true⟩ else
    let hr := e.SetInputMediaType_video
    let t := t ++ [Event.SetInputMediaType StreamKind.video hr]
    if FAILED hr then ⟨hr, t, true⟩ else
    let hr := e.SetInputMediaType_audio
    let t := t ++ [Event.SetInputMediaType StreamKind.audio hr]
    if FAILED hr then ⟨hr, t, true⟩ else
    beginWriting e t
  else
    let hr := e.SetInputMediaType_video
    let t := t ++ [Event.SetInputMediaType StreamKind.video hr]
    if FAILED hr then ⟨hr, t, true⟩ else
    beginWriting e t

/-- Lines 304-306: the time origin is read when `startTime` is still zero. -/
def anchorStartTime (clock : Nat → Int) (st : LoopState) : Step :=
  if st.startTime = 0 then
    ⟨[Event.MFGetSystemTime (clock st.clockCalls)], ⟨clock st.clockCalls, st.clockCalls + 1⟩,
      false, false⟩
  else ⟨[], st, false, false⟩

/-- Lines 331-346 and 372-383: a sample that was obtained gets the time
`MFGetSystemTime() - startTime` and is written on stream `k`; a failed write leaves
the loop. `pSinkWriter` says whether the sink writer pointer is non-null. -/
def writeSample (clock : Nat → Int) (pSinkWriter : Bool) (k : StreamKind)
    (duration : Option Int) (hrWrite : HRESULT) (st : LoopState) : Step :=
  let now := clock st.clockCalls
  let llSampleTime := toLONGLONG (now - st.startTime)
  let st' : LoopState := ⟨st.startTime, st.clockCalls + 1⟩
  if pSinkWriter then
    ⟨[Event.MFGetSystemTime now, Event.WriteSample k llSampleTime duration hrWrite], st',
      false, FAILED hrWrite⟩
  else ⟨[Event.MFGetSystemTime now, Event.nullDereference], st', true, false⟩

/-- Lines 308-346 and 349-384: one stream's read and write. A failed read and the
end-of-stream flag leave the loop before anything is written. -/
def captureStream (clock : Nat → Int) (pSinkWriter : Bool) (k : StreamKind)
    (duration : Option Int) (r : ReadResult) (hrWrite : HRESULT) (st : LoopState) : Step :=
  let read := Event.ReadSample k r.hr r.flags r.sample
  if FAILED r.hr then ⟨[read], st, false, true⟩ else
  if r.flags &&& MF_SOURCE_READERF_ENDOFSTREAM ≠ 0 then ⟨[read], st, false, true⟩ else
  if r.sample then
    let w := writeSample clock pSinkWriter k duration hrWrite st
    ⟨read :: w.trace, w.state, w.crashed, w.broke⟩
  else ⟨[read], st, false, false⟩

/-- One iteration of the loop of lines 302-387. The audio part runs only when the
audio source reader is non-null; an iteration that is not left early ends with a
wait of one millisecond. -/
def captureFrame (clock : Nat → Int) (pAudioSourceReader pSinkWriter : Bool) (e : FrameEnv)
    (st : LoopState) : Step :=
  let a := anchorStartTime clock st
  let v := captureStream clock pSinkWriter StreamKind.video (some llFrameDuration) e.videoRead
    e.videoWrite a.state
  if v.crashed || v.broke then ⟨a.trace ++ v.trace, v.state, v.crashed, v.broke⟩ else
  if pAudioSourceReader then
    let u := captureStream clock pSinkWriter StreamKind.audio none e.audioRead e.audioWrite
      v.state
    if u.crashed || u.broke then ⟨a.trace ++ v.trace ++ u.trace, u.state, u.crashed, u.broke⟩
    else ⟨a.trace ++ v.trace ++ u.trace ++ [Event.sleep_for 1000000], u.state, false, false⟩
  else ⟨a.trace ++ v.trace ++ [Event.sleep_for 1000000], v.state, false, false⟩

/-- The loop `while (isRecording)`: one iteration per entry of the list, unless an
iteration leaves the loop with `break`. -/
def captureLoop (clock : Nat → Int) (pAudioSourceReader pSinkWriter : Bool) :
    List FrameEnv → LoopState → Run
  | [], _ => ⟨[], false⟩
  | e :: rest, st =>
      let f := captureFrame clock pAudioSourceReader pSinkWriter e st
      if f.crashed then ⟨f.trace, true⟩
      else if f.broke then ⟨f.trace, false⟩
      else
        let r := captureLoop clock pAudioSourceReader pSinkWriter rest f.state
        ⟨f.trace ++ r.trace, r.crashed⟩

/-- Whether the loop is left with `break` rather than by the recording flag: the key
press thread has then not cleared the flag, and is still waiting in `getchar`. -/
def leftByBreak (clock : Nat → Int) (pAudioSourceReader pSinkWriter : Bool) :
    List FrameEnv → LoopState → Bool
  | [], _ => false
  | e :: rest, st =>
      let f := captureFrame clock pAudioSourceReader pSinkWriter e st
      if f.crashed then false
      else if f.broke then true
      else leftByBreak clock pAudioSourceReader pSinkWriter rest f.state

/-- What `CaptureFrames` did: its calls, whether it ended in a null dereference, and
whether its last statement, `keyPressThread.join()`, has to wait for the Enter key. -/
structure Capture where
  trace : List Event
  crashed : Bool
  waitsForEnter : Bool

/-- Lines 291-391: `startTime` starts at zero. The function ends with
`keyPressThread.join()` (line 389). When the loop ended because the recording flag was
cleared, the key press thread has already set it and the join returns; when the loop
was left with `break`, the thread is still in `getchar` and the join returns only once
Enter is pressed. -/
def CaptureFrames (clock : Nat → Int) (pAudioSourceReader pSinkWriter : Bool)
    (frames : List FrameEnv) : Capture :=
  let r := captureLoop clock pAudioSourceReader pSinkWriter frames ⟨0, 0⟩
  ⟨Event.CaptureFrames :: r.trace, r.crashed,
    leftByBreak clock pAudioSourceReader pSinkWriter frames ⟨0, 0⟩⟩

/-- What the part of `StartRecording` before `ConfigureSinkWriter` leaves behind when
it does not return early: the calls made, whether the selected audio type is
non-null, and whether the audio source reader is non-null. -/
structure Sources where
  trace : List Event
  pSelectedAudioType : Bool
  pAudioSourceReader : Bool

/-- Lines 452-503: the audio device, taken after the calls `t` of the video set-up.
`Except.error` carries the calls of a session that returned early. -/
def setUpAudio (e : SessionEnv) (t : List Event) : Except (List Event) Sources :=
  if FAILED e.audioEnum.MFCreateAttributes then Except.error t else
  if FAILED e.audioEnum.SetGUID then Except.error t else
  let hr := e.audioEnum.MFEnumDeviceSources
  let t := t ++ [Event.MFEnumDeviceSources StreamKind.audio hr]
  if FAILED hr then Except.error t else
  match e.audioEnum.ppDevices with
  | [] => Except.ok ⟨t, false, false⟩
  | d :: _ =>
      let hr := d.device.ActivateObject
      let t := t ++ [Event.ActivateObject StreamKind.audio 0 hr]
      if FAILED hr then Except.error t else
      let hr := e.audioReader
      let t := t ++ [Event.MFCreateSourceReaderFromMediaSource StreamKind.audio hr]
      if FAILED hr then Except.error t else
      let a := ConfigureAudioMediaType e.audioType
      if FAILED a.hr then Except.error (t ++ a.trace) else
      Except.ok ⟨t ++ a.trace, a.selectedType, true⟩

/-- Lines 397-503: the video device is mandatory, the audio device optional. -/
def setUpSources (e : SessionEnv) : Except (List Event) Sources :=
  if FAILED e.videoEnum.MFCreateAttributes then Except.error [] else
  if FAILED e.videoEnum.SetGUID then Except.error [] else
  let hr := e.videoEnum.MFEnumDeviceSources
  let t := [Event.MFEnumDeviceSources StreamKind.video hr]
  if FAILED hr then Except.error t else
  match e.videoEnum.ppDevices with
  | [] => Except.error t
  | d :: _ =>
      let hr := d.device.ActivateObject
      let t := t ++ [Event.ActivateObject StreamKind.video 0 hr]
      if FAILED hr then Except.error t else
      let hr := e.videoReader
      let t := t ++ [Event.MFCreateSourceReaderFromMediaSource StreamKind.video hr]
      if FAILED hr then Except.error t else
      let v := ConfigureConservativeMediaType e.videoType
      if FAILED v.hr then Except.error (t ++ v.trace) else
      setUpAudio e (t ++ v.trace)

/-- What `StartRecording` did: its calls, whether it ended in a null dereference, and
whether it returned. -/
structure Outcome where
  trace : List Event
  crashed : Bool
  returned : Bool

/-- Lines 505-521: sink writer configuration, `CaptureFrames`, and `Finalize` when the
sink writer pointer is non-null. `enterPressed` says whether the Enter key is pressed
at some time after the loop was left with `break`; it is consulted only then. While
`CaptureFrames` waits for it, `StartRecording` makes no call and does not return. -/
def recordSession (e : SessionEnv) (enterPressed : Bool) (s : Sources) : Outcome :=
  let c := ConfigureSinkWriter e.sink s.pSelectedAudioType
  if FAILED c.hr then ⟨s.trace ++ c.trace, false, true⟩ else
  let f := CaptureFrames e.clock s.pAudioSourceReader c.sinkWriter e.frames
  if f.crashed then ⟨s.trace ++ c.trace ++ f.trace, true, false⟩ else
  if f.waitsForEnter && !enterPressed then ⟨s.trace ++ c.trace ++ f.trace, false, false⟩ else
  if c.sinkWriter then
    ⟨s.trace ++ c.trace ++ f.trace ++ [Event.Finalize e.Finalize], false, true⟩
  else ⟨s.trace ++ c.trace ++ f.trace, false, true⟩

/-- Lines 394-522. -/
def StartRecording (e : SessionEnv) (enterPressed : Bool) : Outcome :=
  match setUpSources e with
  | Except.error t => ⟨t, false, true⟩
  | Except.ok s => recordSession e enterPressed s

end VideoAudio8

/-! ## Further observations on the multi-device capture loop -/

namespace MultiDevice

/-- For each iteration the loop runs, in order: whether line 237 assigned `startTime`
in it (the variable was zero at line 236), and the value of `startTime` when the
iteration ended. -/
def startTimeHistory (clock : Nat → Int) (pAudioSourceReader pSinkWriter : Bool) :
    List FrameEnv → LoopState → List (Bool × Int)
  | [], _ => []
  | e :: rest, st =>
      let f := captureFrame clock pAudioSourceReader pSinkWriter e st
      let entry := (decide (st.startTime = 0), f.state.startTime)
      if f.crashed then [entry]
      else entry :: startTimeHistory clock pAudioSourceReader pSinkWriter rest f.state

end MultiDevice

/-- The sample time of a `WriteSample` call, on whichever stream. -/
def writtenTime : Event → Option Int
  | Event.WriteSample _ t _ _ => some t
  | _ => none

/-- The sample time of the first `WriteSample` call of a trace, if there is one. -/
def firstSampleTime (trace : List Event) : Option Int :=
  (trace.filterMap writtenTime).head?

def isSleep : Event → Bool
  | Event.sleep_for _ => true
  | _ => false

/-- A `ReadSample` call on stream `k`. -/
def isReadSampleOn (k : StreamKind) : Event → Bool
  | Event.ReadSample k' _ _ _ => decide (k' = k)
  | _ => false

/-- A `WriteSample` call on stream `k`. -/
def isWriteSampleOn (k : StreamKind) : Event → Bool
  | Event.WriteSample k' _ _ _ => decide (k' = k)
  | _ => false

/-- A `ReadSample` call on stream `k` that reported the end-of-stream flag. -/
def isEndOfStreamOn (k : StreamKind) : Event → Bool
  | Event.ReadSample k' _ flags _ =>
      decide (k' = k) && decide (flags &&& MF_SOURCE_READERF_ENDOFSTREAM ≠ 0)
  | _ => false

/-- A call of the source set-up: device enumeration, activation, source reader
creation, or the negotiation of a capture type. -/
def isSourceSetup : Event → Bool
  | Event.MFEnumDeviceSources _ _ => true
  | Event.ActivateObject _ _ _ => true
  | Event.MFCreateSourceReaderFromMediaSource _ _ => true
  | Event.SetCurrentMediaType _ _ => true
  | _ => false

namespace MultiDevice

/-- The video source was set up: `StartRecording` gets past its returns of lines
312-327 (a device is listed, the selection yields a media source, and the source
reader is created). -/
def videoSourceSetUp (e : SessionEnv) : Bool :=
  let (hr, videoDevices, _) := EnumerateDevices StreamKind.video e.videoEnum []
  !(FAILED hr || videoDevices.isEmpty) &&
    (SelectDevice StreamKind.video videoDevices e.videoSelection).mediaSource &&
    !FAILED e.videoReader

/-- The audio devices that `StartRecording` lists on line 335. -/
def audioDevices (e : SessionEnv) : List DeviceInfo :=
  (EnumerateDevices StreamKind.audio e.audioEnum []).2.1

/-- Audio devices are listed: the test of line 336 fails. -/
def audioDevicesListed (e : SessionEnv) : Bool :=
  !(FAILED (EnumerateDevices StreamKind.audio e.audioEnum []).1 || (audioDevices e).isEmpty)

end MultiDevice

/-- The entries appended for the enumerated devices whose friendly-name query
succeeded, in enumeration order. -/
def namedDevices (ppDevices : List EnumeratedDevice) : List DeviceInfo :=
  (ppDevices.filter (fun d => SUCCEEDED d.GetAllocatedString)).map
    (fun d => ⟨d.device, d.deviceName⟩)

/-! ## `8_Video_Recording_using_WMF/VideoCapture.cpp` -/

/-- The video subtypes the programs name. -/
inductive VideoFormat
  | NV12
  | H264
  deriving DecidableEq

/-- The attributes a program has set on an `IMFMediaType` object; `none` is an
attribute that was not set. Sizes and ratios are pairs as the program passes them. -/
structure MediaType where
  majorType : Option StreamKind
  subtype : Option VideoFormat
  avgBitrate : Option Nat
  frameSize : Option (Nat × Nat)
  frameRate : Option (Nat × Nat)
  pixelAspectRatio : Option (Nat × Nat)
  interlaceMode : Option Nat
  defaultStride : Option Int
  deriving DecidableEq

/-- A media type fresh from `MFCreateMediaType`. -/
def MediaType.empty : MediaType := ⟨none, none, none, none, none, none, none, none⟩

/-- The value of `MFVideoInterlace_Progressive`. -/
def MFVideoInterlace_Progressive : Nat := 2

/-- An attribute setter that answered `hr`: the attribute is set when it succeeded. -/
def setAttribute (hr : HRESULT) (t : MediaType) (set : MediaType → MediaType) : MediaType :=
  if SUCCEEDED hr then set t else t

namespace VideoOnly8

/-- What `ConfigureConservativeMediaType` leaves behind: its `HRESULT`, the out-parameter
media type (`none` when null), the media type handed to `SetCurrentMediaType` when that
call is made, the global `llFrameDuration` (zero until assigned), and the calls made
on the source reader. -/
structure TypeResult where
  hr : HRESULT
  selectedType : Option MediaType
  requested : Option MediaType
  llFrameDuration : Int
  trace : List Event

/-- Lines 48-75. Only the last of the five attribute setters is checked; the frame
rate requested on line 59 is 30/1; `llFrameDuration` is `(LONGLONG)(10'000'000.0 * 1 / 15)`,
whose truncation is the integer quotient. -/
def ConfigureConservativeMediaType (e : VideoTypeEnv) : TypeResult :=
  let hr := e.MFCreateMediaType
  if FAILED hr then ⟨hr, none, none, 0, []⟩ else
  let t := MediaType.empty
  let t := setAttribute e.MAJOR_TYPE t (fun t => { t with majorType := some StreamKind.video })
  let t := setAttribute e.SUBTYPE t (fun t => { t with subtype := some VideoFormat.NV12 })
  let t := setAttribute e.FRAME_SIZE t (fun t => { t with frameSize := some (640, 480) })
  let t := setAttribute e.FRAME_RATE t (fun t => { t with frameRate := some (30, 1) })
  let hr := e.PIXEL_ASPECT_RATIO
  let t := setAttribute hr t (fun t => { t with pixelAspectRatio := some (1, 1) })
  if FAILED hr then ⟨hr, some t, none, 0, []⟩ else
  let hr := e.SetCurrentMediaType
  ⟨hr, some t, some t, 10000000 * 1 / 15, [Event.SetCurrentMediaType StreamKind.video hr]⟩

/-- Answers to the calls of `ConfigureSinkWriter`; `stride` is the value
`MFGetStrideForBitmapInfoHeader` stores. -/
structure SinkWriterEnv where
  MFCreateSinkWriterFromURL : HRESULT
  out_MFCreateMediaType : HRESULT
  out_MAJOR_TYPE : HRESULT
  out_SUBTYPE : HRESULT
  out_AVG_BITRATE : HRESULT
  out_FRAME_SIZE : HRESULT
  out_FRAME_RATE : HRESULT
  out_PIXEL_ASPECT_RATIO : HRESULT
  out_INTERLACE_MODE : HRESULT
  AddStream : HRESULT
  in_MFCreateMediaType : HRESULT
  in_MAJOR_TYPE : HRESULT
  in_SUBTYPE : HRESULT
  in_FRAME_SIZE : HRESULT
  in_FRAME_RATE : HRESULT
  MFGetStrideForBitmapInfoHeader : HRESULT
  stride : Int
  in_DEFAULT_STRIDE : HRESULT
  SetInputMediaType : HRESULT
  BeginWriting : HRESULT

/-- What `ConfigureSinkWriter` leaves behind: its `HRESULT` when it returns, the calls
made, whether the sink writer pointer is non-null afterwards, whether the run ended in
a call through a null media type pointer, and the media types handed to `AddStream`
and to `SetInputMediaType` when those calls are made. -/
structure SinkResult where
  hr : HRESULT
  trace : List Event
  sinkWriter : Bool
  crashed : Bool
  mediaTypeOut : Option MediaType
  mediaTypeIn : Option MediaType

/-- Lines 86-96: the output type, with frame rate 15/1. The setters are not checked. -/
def outputType (e : SinkWriterEnv) : MediaType :=
  let t := MediaType.empty
  let t := setAttribute e.out_MAJOR_TYPE t (fun t => { t with majorType := some StreamKind.video })
  let t := setAttribute e.out_SUBTYPE t (fun t => { t with subtype := some VideoFormat.H264 })
  let t := setAttribute e.out_AVG_BITRATE t (fun t => { t with avgBitrate := some 800000 })
  let t := setAttribute e.out_FRAME_SIZE t (fun t => { t with frameSize := some (640, 480) })
  let t := setAttribute e.out_FRAME_RATE t (fun t => { t with frameRate := some (15, 1) })
  let t := setAttribute e.out_PIXEL_ASPECT_RATIO t
    (fun t => { t with pixelAspectRatio := some (1, 1) })
  setAttribute e.out_INTERLACE_MODE t
    (fun t => { t with interlaceMode := some MFVideoInterlace_Progressive })

/-- Lines 98-113: the input type, with frame rate 15/1 and, when
`MFGetStrideForBitmapInfoHeader` succeeded, the default stride. -/
def inputType (e : SinkWriterEnv) : MediaType :=
  let t := MediaType.empty
  let t := setAttribute e.in_MAJOR_TYPE t (fun t => { t with majorType := some StreamKind.video })
  let t := setAttribute e.in_SUBTYPE t (fun t => { t with subtype := some VideoFormat.NV12 })
  let t := setAttribute e.in_FRAME_SIZE t (fun t => { t with frameSize := some (640, 480) })
  let t := setAttribute e.in_FRAME_RATE t (fun t => { t with frameRate := some (15, 1) })
  if SUCCEEDED e.MFGetStrideForBitmapInfoHeader then
    setAttribute e.in_DEFAULT_STRIDE t (fun t => { t with defaultStride := some e.stride })
  else t

/-- Lines 78-127. The two `MFCreateMediaType` results are not checked, so a failure
there leads to a call through a null media type pointer; the result of `AddStream` is
dropped. -/
def ConfigureSinkWriter (e : SinkWriterEnv) : SinkResult :=
  let hr := e.MFCreateSinkWriterFromURL
  let t0 := [Event.MFCreateSinkWriterFromURL hr]
  if FAILED hr then ⟨hr, t0, false, false, none, none⟩ else
  if FAILED e.out_MFCreateMediaType then
    ⟨e.out_MFCreateMediaType, t0 ++ [Event.nullDereference], true, true, none, none⟩ else
  let out := outputType e
  let t1 := t0 ++ [Event.AddStream StreamKind.video e.AddStream]
  if FAILED e.in_MFCreateMediaType then
    ⟨e.in_MFCreateMediaType, t1 ++ [Event.nullDereference], true, true, some out, none⟩ else
  let inp := inputType e
  let hr := e.SetInputMediaType
  let t2 := t1 ++ [Event.SetInputMediaType StreamKind.video hr]
  if FAILED hr then ⟨hr, t2, true, false, some out, some inp⟩ else
  let hr := e.BeginWriting
  let t3 := t2 ++ [Event.BeginWriting hr]
  if FAILED hr then ⟨hr, t3, false, false, some out, some inp⟩
  else ⟨hr, t3, true, false, some out, some inp⟩

end VideoOnly8

/-! ## `main` and the iterations of the multi-device program -/

namespace MultiDevice

/-- What `main` leaves behind: the calls of the session, and the value `main` returns
(`none` when the session ended in a null dereference and `main` never returns). -/
structure Exit where
  trace : List Event
  exitCode : Option Int

/-- Lines 363-375, with the answers of `CoInitializeEx` and of `MFStartup`.
`StartRecording` is a `void` function: nothing of its outcome reaches `main`. -/
def main (hrCoInitializeEx hrMFStartup : HRESULT) (e : SessionEnv) : Exit :=
  if FAILED hrCoInitializeEx then ⟨[], some (-1)⟩ else
  if SUCCEEDED hrMFStartup then
    let r := StartRecording e
    if r.crashed then ⟨r.trace, none⟩ else ⟨r.trace, some 0⟩
  else ⟨[], some 0⟩

/-- The iterations the loop runs, in order, each with the answers it gets and the loop
variables at its start. -/
def iterations (clock : Nat → Int) (pAudioSourceReader pSinkWriter : Bool) :
    List FrameEnv → LoopState → List (FrameEnv × LoopState)
  | [], _ => []
  | e :: rest, st =>
      let f := captureFrame clock pAudioSourceReader pSinkWriter e st
      if f.crashed then [(e, st)]
      else (e, st) :: iterations clock pAudioSourceReader pSinkWriter rest f.state

end MultiDevice

/-- The duration a `WriteSample` call on stream `k` carries. -/
def sampleDurationOn (k : StreamKind) : Event → Option (Option Int)
  | Event.WriteSample k' _ d _ => if k' = k then some d else none
  | _ => none

/-- Whether every `WriteSample` call of the trace comes directly after an
`MFGetSystemTime` call and carries, as its sample time, that reading minus `origin`
(as a `LONGLONG`). -/
def stampedFrom (origin : Int) : List Event → Bool
  | [] => true
  | Event.MFGetSystemTime t :: Event.WriteSample _ time _ _ :: rest =>
      decide (time = toLONGLONG (t - origin)) && stampedFrom origin rest
  | Event.WriteSample _ _ _ _ :: _ => false
  | _ :: rest => stampedFrom origin rest

/-- The sample time and duration a `WriteSample` call carries. -/
def writtenSample : Event → Option (Int × Option Int)
  | Event.WriteSample _ time duration _ => some (time, duration)
  | _ => none

/-- The sample times and durations of the `WriteSample` calls of a trace, in write
order. -/
def writtenSamples (trace : List Event) : List (Int × Option Int) :=
  trace.filterMap writtenSample

namespace VideoOnly8

/-- The loop of lines 147-177, one list entry per time `isRecording` was read true,
started with the value the global `llSampleTime` holds. A failed read, the
end-of-stream flag and a failed write leave the loop; a sample gets the time
`llSampleTime` and the duration `llFrameDuration`, and `llSampleTime` advances by
`llFrameDuration` after a write that succeeded. -/
def captureLoop (llFrameDuration : Int) (pSinkWriter : Bool) : List FrameEnv → Int → Run
  | [], _ => ⟨[], false⟩
  | e :: rest, llSampleTime =>
      let read := Event.ReadSample StreamKind.video e.videoRead.hr e.videoRead.flags
        e.videoRead.sample
      if FAILED e.videoRead.hr then ⟨[read], false⟩ else
      if e.videoRead.flags &&& MF_SOURCE_READERF_ENDOFSTREAM ≠ 0 then ⟨[read], false⟩ else
      if e.videoRead.sample then
        if pSinkWriter then
          let write := Event.WriteSample StreamKind.video llSampleTime (some llFrameDuration)
            e.videoWrite
          if FAILED e.videoWrite then ⟨[read, write], false⟩ else
          let r := captureLoop llFrameDuration pSinkWriter rest
            (toLONGLONG (llSampleTime + llFrameDuration))
          ⟨read :: write :: r.trace, r.crashed⟩
        else ⟨[read, Event.nullDereference], true⟩
      else
        let r := captureLoop llFrameDuration pSinkWriter rest llSampleTime
        ⟨read :: r.trace, r.crashed⟩

/-- Lines 140-178, called once by `StartRecording`: the global `llSampleTime` still
holds its initial value 0 (line 27). -/
def CaptureFrames (llFrameDuration : Int) (pSinkWriter : Bool) (frames : List FrameEnv) : Run :=
  captureLoop llFrameDuration pSinkWriter frames 0

end VideoOnly8


/-! ## `6_Proper_tested_code/Record.cpp` -/

namespace Record

/-- The pipeline states the program asks for. -/
inductive GstState
  | NULL
  | PLAYING
  deriving DecidableEq

/-- The values of `GstStateChangeReturn`. -/
inductive GstStateChangeReturn
  | FAILURE
  | SUCCESS
  | ASYNC
  | NO_PREROLL
  deriving DecidableEq

/-- The message types `on_message` tells apart; `OTHER` is any type its `switch` leaves
to `default`. -/
inductive GstMessageType
  | EOS
  | ERROR
  | STATE_CHANGED
  | OTHER
  deriving DecidableEq

/-- The calls the program makes on the pipeline, its bus and the main context, each
with what the environment answered: the return of a state change, the file name put
together from the wall clock, the message popped, the messages the bus watch was
handed during one `g_main_context_iteration`. -/
inductive Call
  | gst_element_set_state (state : GstState) (ret : GstStateChangeReturn)
  | g_object_set_location (filename : String)
  | gst_element_send_event_eos
  | gst_element_get_state (ret : GstStateChangeReturn)
  | gst_bus_pop (msg : GstMessageType)
  | g_main_context_iteration (dispatched : List GstMessageType)
  deriving DecidableEq

/-- The globals of lines 12-13. -/
structure Globals where
  is_recording : Bool
  eos_received : Bool
  deriving DecidableEq

/-- Lines 21-50: an end-of-stream and an error message both set `eos_received`. -/
def on_message (g : Globals) : GstMessageType → Globals
  | GstMessageType.EOS => { g with eos_received := true }
  | GstMessageType.ERROR => { g with eos_received := true }
  | GstMessageType.STATE_CHANGED => g
  | GstMessageType.OTHER => g

/-- The handler run on each message of a batch, in order. -/
def dispatch (g : Globals) (msgs : List GstMessageType) : Globals :=
  msgs.foldl on_message g

/-- What the environment answers during one pass of the key loop of `main`: the key
read, the answers to the calls `start_recording` and `stop_recording` would make, the
batches of messages handed to the bus watch by the successive
`g_main_context_iteration` calls of the wait loop of `stop_recording`, the messages
popped from the bus at the end of the pass, and those handed to the bus watch by the
last `g_main_context_iteration` of the pass. A component is consulted only if the
pass makes the corresponding call. -/
structure KeyStep where
  key : Char
  toNull : GstStateChangeReturn
  filename : String
  toPlaying : GstStateChangeReturn
  waits : List (List GstMessageType)
  getState : GstStateChangeReturn
  pending : List GstMessageType
  dispatched : List GstMessageType

/-- Lines 52-75. -/
def start_recording (e : KeyStep) (g : Globals) : Globals × List Call :=
  if !g.is_recording then
    let t := [Call.gst_element_set_state GstState.NULL e.toNull,
      Call.g_object_set_location e.filename,
      Call.gst_element_set_state GstState.PLAYING e.toPlaying]
    if e.toPlaying = GstStateChangeReturn.FAILURE then (g, t)
    else (⟨true, false⟩, t)
  else (g, [])

/-- Lines 83-85: `while (!eos_received) g_main_context_iteration(NULL, FALSE);`, each
iteration handing one batch of messages to the bus watch. The result is `none` when
the batches run out with `eos_received` still false: the loop has not ended. -/
def awaitEos : List (List GstMessageType) → Globals → Option (Globals × List Call)
  | [], g => if g.eos_received then some (g, []) else none
  | batch :: rest, g =>
      if g.eos_received then some (g, [])
      else
        match awaitEos rest (dispatch g batch) with
        | some (g', t) => some (g', Call.g_main_context_iteration batch :: t)
        | none => none

/-- Lines 77-103; `none` when the wait loop does not end. -/
def stop_recording (e : KeyStep) (g : Globals) : Option (Globals × List Call) :=
  if g.is_recording then
    match awaitEos e.waits g with
    | some (g', t) =>
        some ({ g' with is_recording := false },
          Call.gst_element_send_event_eos :: t ++
            [Call.gst_element_get_state e.getState,
              Call.gst_element_set_state GstState.NULL e.toNull])
    | none => none
  else some (g, [])

/-- Lines 163-171: the messages pending on the bus are popped and handled, then the
main context runs once. -/
def endOfPass (e : KeyStep) (g : Globals) : Globals × List Call :=
  (dispatch (dispatch g e.pending) e.dispatched,
    e.pending.map Call.gst_bus_pop ++ [Call.g_main_context_iteration e.dispatched])

/-- The calls `t` followed by the rest of a run. -/
def after (t : List Call) : Option (Globals × List Call) → Option (Globals × List Call)
  | some (g, t') => some (g, t ++ t')
  | none => none

/-- The key loop of lines 149-172, one list entry per key read. The result is the
globals and the calls made when the loop is left on `c`; it is `none` when a
`stop_recording` call does not return or when the keys run out before a `c`. -/
def keyLoop : List KeyStep → Globals → Option (Globals × List Call)
  | [], _ => none
  | e :: rest, g =>
      if e.key = 'a' then
        let s := start_recording e g
        let p := endOfPass e s.1
        after (s.2 ++ p.2) (keyLoop rest p.1)
      else if e.key = 'b' then
        match stop_recording e g with
        | some s =>
            let p := endOfPass e s.1
            after (s.2 ++ p.2) (keyLoop rest p.1)
        | none => none
      else if e.key = 'c' then
        if g.is_recording then stop_recording e g else some (g, [])
      else
        let p := endOfPass e g
        after p.2 (keyLoop rest p.1)

end Record


/-! ## `12_Youtube_livestream_first_code/VideoCapture.cpp` -/

namespace Youtube

/-- Lines 29-32. -/
def FRAME_WIDTH : Nat := 640

def FRAME_HEIGHT : Nat := 480

def FRAME_RATE_NUMERATOR : Nat := 60

def FRAME_RATE_DENOMINATOR : Nat := 1

/-- Lines 51-52. -/
def STREAM_KEY : String := "0a19-6hgw-1225-zqws-c4mw"

def STREAM_URL : String := "rtmp://a.rtmp.youtube.com/live2"

/-- What `ConfigureConservativeMediaType` leaves behind: its `HRESULT` and the media
type handed to `SetCurrentMediaType` when that call is made. -/
structure TypeResult where
  hr : HRESULT
  requested : Option MediaType

/-- Lines 89-99: each call is made only when all the calls before it succeeded. -/
def ConfigureConservativeMediaType (e : VideoTypeEnv) : TypeResult :=
  let hr := e.MFCreateMediaType
  let t := MediaType.empty
  if FAILED hr then ⟨hr, none⟩ else
  let hr := e.MAJOR_TYPE
  let t := setAttribute hr t (fun t => { t with majorType := some StreamKind.video })
  if FAILED hr then ⟨hr, none⟩ else
  let hr := e.SUBTYPE
  let t := setAttribute hr t (fun t => { t with subtype := some VideoFormat.NV12 })
  if FAILED hr then ⟨hr, none⟩ else
  let hr := e.FRAME_SIZE
  let t := setAttribute hr t
    (fun t => { t with frameSize := some (FRAME_WIDTH, FRAME_HEIGHT) })
  if FAILED hr then ⟨hr, none⟩ else
  let hr := e.FRAME_RATE
  let t := setAttribute hr t
    (fun t => { t with frameRate := some (FRAME_RATE_NUMERATOR, FRAME_RATE_DENOMINATOR) })
  if FAILED hr then ⟨hr, none⟩ else
  let hr := e.PIXEL_ASPECT_RATIO
  let t := setAttribute hr t (fun t => { t with pixelAspectRatio := some (1, 1) })
  if FAILED hr then ⟨hr, none⟩ else
  ⟨e.SetCurrentMediaType, some t⟩

/-- Lines 103-106: the command line handed to `_popen`. -/
def command : String :=
  "ffmpeg -y -f rawvideo -pix_fmt nv12 -s 640x480 -r 60 -i - " ++
  "-f lavfi -i anullsrc=channel_layout=stereo:sample_rate=48000 " ++
  "-c:v libx264 -pix_fmt yuv420p -preset veryfast -g 120 -b:v 800k " ++
  "-c:a aac -b:a 160k -ar 44100 -f flv " ++ STREAM_URL ++ "/" ++ STREAM_KEY

/-- The words of a command line: the maximal runs of characters other than spaces. -/
def words : List Char → List (List Char)
  | [] => []
  | c :: rest =>
      if c = ' ' then [] :: words rest
      else
        match words rest with
        | [] => [[c]]
        | w :: ws => (c :: w) :: ws

/-- The options of the first input of an ffmpeg command line: the words before the
first `-i`. -/
def firstInputOptions (command : String) : List (List Char) :=
  (words command.toList).takeWhile (fun w => w ≠ "-i".toList)

/-- The word that follows the first occurrence of the option `name`. -/
def optionValue (name : String) : List (List Char) → Option (List Char)
  | [] => none
  | [_] => none
  | w :: v :: rest => if w = name.toList then some v else optionValue name (v :: rest)

/-- The number a decimal digit stands for. -/
def digit (c : Char) : Option Nat :=
  if '0' ≤ c ∧ c ≤ '9' then some (c.toNat - '0'.toNat) else none

/-- The number written by a non-empty string of decimal digits, read after the digits
of value `acc`. -/
def decimalFrom (acc : Nat) : List Char → Option Nat
  | [] => some acc
  | c :: rest =>
      match digit c with
      | some d => decimalFrom (10 * acc + d) rest
      | none => none

def decimal : List Char → Option Nat
  | [] => none
  | cs => decimalFrom 0 cs

/-- The size written as `WIDTHxHEIGHT`. -/
def frameSize (w : List Char) : Option (Nat × Nat) :=
  match decimal (w.takeWhile (fun c => c ≠ 'x')), decimal ((w.dropWhile (fun c => c ≠ 'x')).drop 1) with
  | some width, some height => some (width, height)
  | _, _ => none

/-- The capture subtype an ffmpeg pixel format name stands for. -/
def pixelFormat (w : List Char) : Option VideoFormat :=
  if w = "nv12".toList then some VideoFormat.NV12 else none

end Youtube


namespace Youtube

/-- The calls of `CaptureFrames` on its environment. `popen` carries the command line
and whether a process handle came back; `ReadSample` what the read handed back;
`ConvertToContiguousBuffer` whether a buffer came back; `fwrite` the data pointed to
and the number of bytes asked for; `sleep_for` the requested wait written in
nanoseconds. -/
inductive Call
  | popen (command : String) (started : Bool)
  | MFGetSystemTime (time : Int)
  | ReadSample (hr : HRESULT) (flags : Nat) (sample : Bool)
  | ConvertToContiguousBuffer (buffer : Bool)
  | Lock (hr : HRESULT)
  | fwrite (pData : List Nat) (count : Nat)
  | fflush
  | Unlock
  | sleep_for (nanos : ℚ)
  | pclose
  | nullDereference
  deriving DecidableEq

/-- A media buffer as `Lock` shows it: the answer of `Lock` and the values the locals
`pData` (the bytes it points to), `maxLength` and `currentLength` hold after the
call. -/
structure MediaBuffer where
  Lock : HRESULT
  pData : List Nat
  maxLength : Nat
  currentLength : Nat
  deriving DecidableEq

/-- What the environment answers during one iteration of the loop: the reading of
`MFGetSystemTime`, the video read, the buffer `ConvertToContiguousBuffer` stores
(`none` when it leaves the pointer null), and the steady-clock time between
`frameStart` and `frameEnd` in nanoseconds. A component is consulted only if the
iteration makes the corresponding call. -/
structure FrameEnv where
  systemTime : Int
  read : ReadResult
  buffer : Option MediaBuffer
  frameTime : Nat

/-- What a part of `CaptureFrames` did: its calls, the local `startTime` after it, and
whether it ran into a null `ComPtr`. -/
structure Step where
  trace : List Call
  startTime : Int
  crashed : Bool

/-- Lines 158-172: the sample is made contiguous and locked, and its bytes are handed
to the encoder when the process handle is non-null. None of the results is checked. -/
def writeToEncoder (ffmpegProcess : Bool) : Option MediaBuffer → List Call × Bool
  | none => ([Call.ConvertToContiguousBuffer false, Call.nullDereference], true)
  | some b =>
      ([Call.ConvertToContiguousBuffer true, Call.Lock b.Lock] ++
        (if ffmpegProcess then [Call.fwrite b.pData b.currentLength, Call.fflush] else []) ++
        [Call.Unlock], false)

/-- Lines 174-180: the wait requested at the end of an iteration whose
`frameEnd - frameStart` is `frameTime` nanoseconds, computed in double as in the
multi-device program and written in nanoseconds. -/
def pace (frameTime : Nat) : List Call :=
  let elapsed := Double.div (Double.ofInt frameTime) (Double.ofInt 1000)
  let frameWait :=
    Double.sub (Double.ofInt ((1000000 / FRAME_RATE_NUMERATOR : Nat) : Int)) elapsed
  if 0 < frameWait.mantissa then
    [Call.sleep_for (dyadic (frameWait.mantissa * 1000) frameWait.exponent)]
  else []

/-- One iteration of the loop of lines 134-181. -/
def captureFrame (ffmpegProcess : Bool) (e : FrameEnv) (startTime : Int) : Step :=
  let anchor := if startTime = 0 then [Call.MFGetSystemTime e.systemTime] else []
  let startTime := if startTime = 0 then e.systemTime else startTime
  let read := Call.ReadSample e.read.hr e.read.flags e.read.sample
  if e.read.sample then
    let w := writeToEncoder ffmpegProcess e.buffer
    if w.2 then ⟨anchor ++ read :: w.1, startTime, true⟩
    else ⟨anchor ++ read :: w.1 ++ pace e.frameTime, startTime, false⟩
  else ⟨anchor ++ [read] ++ pace e.frameTime, startTime, false⟩

/-- The loop `while (isRecording)`: one iteration per entry of the list. -/
def captureLoop (ffmpegProcess : Bool) : List FrameEnv → Int → List Call × Bool
  | [], _ => ([], false)
  | e :: rest, startTime =>
      let f := captureFrame ffmpegProcess e startTime
      if f.crashed then (f.trace, true)
      else
        let r := captureLoop ffmpegProcess rest f.startTime
        (f.trace ++ r.1, r.2)

/-- Lines 123-190: `StartFFmpegProcess`, the loop, and `StopFFmpegProcess`, which
closes the pipe when the handle is non-null. `started` says whether `_popen` gave a
handle. The result is the calls made and whether the run ended in a null
dereference. -/
def CaptureFrames (started : Bool) (frames : List FrameEnv) : List Call × Bool :=
  let r := captureLoop started frames 0
  if r.2 then (Call.popen command started :: r.1, true)
  else (Call.popen command started :: r.1 ++ (if started then [Call.pclose] else []), false)

/-- The data and byte count of an `fwrite` call. -/
def written : Call → Option (List Nat × Nat)
  | Call.fwrite pData count => some (pData, count)
  | _ => none

def isReadSample : Call → Bool
  | Call.ReadSample _ _ _ => true
  | _ => false

/-- The data and valid length of the buffers of the samples the reads hand back, in
read order. -/
def samplesObtained (frames : List FrameEnv) : List (List Nat × Nat) :=
  (frames.filter (fun e => e.read.sample)).filterMap
    (fun e => e.buffer.map (fun b => (b.pData, b.currentLength)))

end Youtube


/-- The wait a `sleep_for` call asks for, in nanoseconds. -/
def sleepRequested : Event → Option ℚ
  | Event.sleep_for nanos => some nanos
  | _ => none

/-- The time the calls of a trace ask to sleep, in nanoseconds. -/
def requestedSleep (trace : List Event) : ℚ := (trace.filterMap sleepRequested).sum

namespace MultiDevice

/-- The time from the start of each iteration that runs to its end to the start of the
next one, in nanoseconds, when the work of an iteration takes its `frameTime`, every
sleep lasts exactly the time requested, and no time passes between the end of an
iteration and the start of the next. -/
def iterationIntervals (clock : Nat → Int) (pAudioSourceReader pSinkWriter : Bool) :
    List FrameEnv → LoopState → List ℚ
  | [], _ => []
  | e :: rest, st =>
      let f := captureFrame clock pAudioSourceReader pSinkWriter e st
      if f.crashed then []
      else ((e.frameTime : ℚ) + requestedSleep f.trace) ::
        iterationIntervals clock pAudioSourceReader pSinkWriter rest f.state

end MultiDevice


/-! ## Sample environments -/

/-- A clock that ticks once per reading, from 1 up to 1001, and then stands still. -/
def tickingClock : Nat → Int := fun k => ((min k 1000 : Nat) : Int) + 1

/-- An iteration in which both reads give a sample and both writes succeed. -/
def goodFrame : FrameEnv := ⟨⟨S_OK, 0, true⟩, S_OK, ⟨S_OK, 0, true⟩, S_OK, 2000000⟩

/-- A camera and a microphone whose activation and name query succeed. -/
def camera : EnumeratedDevice := ⟨⟨0, S_OK⟩, S_OK, "camera"⟩

def microphone : EnumeratedDevice := ⟨⟨1, S_OK⟩, S_OK, "microphone"⟩

def okVideoType : VideoTypeEnv := ⟨S_OK, S_OK, S_OK, S_OK, S_OK, S_OK, S_OK⟩

def okAudioType : AudioTypeEnv := ⟨S_OK, S_OK, S_OK, S_OK, S_OK, S_OK, S_OK, S_OK, S_OK⟩

def okSink : SinkWriterEnv :=
  ⟨S_OK, S_OK, S_OK, S_OK, S_OK, S_OK, S_OK, S_OK, S_OK, S_OK, S_OK, S_OK, S_OK, S_OK, S_OK, S_OK,
    S_OK⟩

/-- A session in which every call succeeds: one camera, one microphone, the first
entry chosen at both prompts, and one loop iteration before the key press. -/
def okSession : SessionEnv where
  videoEnum := ⟨S_OK, S_OK, S_OK, [camera]⟩
  videoSelection := 0
  videoReader := S_OK
  videoType := okVideoType
  audioEnum := ⟨S_OK, S_OK, S_OK, [microphone]⟩
  audioSelection := 0
  audioReader := S_OK
  audioType := okAudioType
  sink := okSink
  clock := tickingClock
  frames := [goodFrame]
  Finalize := S_OK

/-- A session in which `SetCurrentMediaType` refuses the requested video type. -/
def videoTypeRefused : SessionEnv :=
  { okSession with videoType := { okVideoType with SetCurrentMediaType := E_FAIL } }

/-- A session in which `SetCurrentMediaType` refuses the requested audio type. -/
def audioTypeRefused : SessionEnv :=
  { okSession with audioType := { okAudioType with SetCurrentMediaType := E_FAIL } }

/-- A session in which `BeginWriting` fails. -/
def beginWritingFails : SessionEnv :=
  { okSession with sink := { okSink with BeginWriting := E_FAIL } }

/-- A session in which `AddStream` fails for the video stream and the key is pressed
before the first loop iteration. -/
def addStreamFails : SessionEnv :=
  { okSession with sink := { okSink with AddStream_video := E_FAIL }, frames := [] }

/-- A session in which no camera is listed. -/
def noCamera : SessionEnv := { okSession with videoEnum := ⟨S_OK, S_OK, S_OK, []⟩ }

/-- A session in which video device enumeration fails. -/
def enumerationFails : SessionEnv :=
  { okSession with videoEnum := ⟨S_OK, S_OK, E_FAIL, [camera]⟩ }

/-- An iteration in which both reads give a sample and the video write fails. -/
def videoWriteFails : FrameEnv := ⟨⟨S_OK, 0, true⟩, E_FAIL, ⟨S_OK, 0, true⟩, S_OK, 2000000⟩

/-- Answers of a sink whose creation fails (an unwritable output path) while every
other call would succeed. -/
def sinkCreationFails : SinkWriterEnv := { okSink with MFCreateSinkWriterFromURL := E_FAIL }

/-- An iteration in which both reads give a sample and the audio write fails. -/
def audioWriteFails : FrameEnv := ⟨⟨S_OK, 0, true⟩, S_OK, ⟨S_OK, 0, true⟩, E_FAIL, 2000000⟩

/-- The session `okSession` with two loop iterations, the first of which ends in a
failed audio write. -/
def audioWriteFailure : SessionEnv := { okSession with frames := [audioWriteFails, goodFrame] }

/-- What the set-up of `8_Video_Audio_Recording_WMF` leaves behind in `okSession` and
in `audioWriteFailure`: both devices opened and configured. -/
def okSources : VideoAudio8.Sources :=
  ⟨[Event.MFEnumDeviceSources StreamKind.video S_OK,
      Event.ActivateObject StreamKind.video 0 S_OK,
      Event.MFCreateSourceReaderFromMediaSource StreamKind.video S_OK,
      Event.SetCurrentMediaType StreamKind.video S_OK,
      Event.MFEnumDeviceSources StreamKind.audio S_OK,
      Event.ActivateObject StreamKind.audio 0 S_OK,
      Event.MFCreateSourceReaderFromMediaSource StreamKind.audio S_OK,
      Event.SetCurrentMediaType StreamKind.audio S_OK], true, true⟩

/-- A clock whose first reading is zero: it ticks once per reading, from 0 up to 1000. -/
def clockFromZero : Nat → Int := fun k => ((min k 1000 : Nat) : Int)

/-- An iteration in which the video read gives nothing and the audio read a sample. -/
def audioOnlyFrame : FrameEnv := ⟨⟨S_OK, 0, false⟩, S_OK, ⟨S_OK, 0, true⟩, S_OK, 2000000⟩

/-- The session `okSession` with an out-of-range entry at the audio prompt. -/
def audioSelectionOutOfRange : SessionEnv := { okSession with audioSelection := 7 }

/-- The session `okSession` with a microphone whose activation fails. -/
def audioActivationFails : SessionEnv :=
  { okSession with audioEnum := ⟨S_OK, S_OK, S_OK, [⟨⟨1, E_FAIL⟩, S_OK, "microphone"⟩]⟩ }

/-- The session `okSession` in which the audio source reader cannot be created. -/
def audioReaderFails : SessionEnv := { okSession with audioReader := E_FAIL }

/-- An iteration in which the video read gives a sample and the audio read reports the
end of the stream. -/
def audioEndOfStream : FrameEnv :=
  ⟨⟨S_OK, 0, true⟩, S_OK, ⟨S_OK, MF_SOURCE_READERF_ENDOFSTREAM, false⟩, S_OK, 2000000⟩

/-- An iteration in which the video read reports the end of the stream and the audio
read gives a sample. -/
def videoEndOfStream : FrameEnv :=
  ⟨⟨S_OK, MF_SOURCE_READERF_ENDOFSTREAM, false⟩, S_OK, ⟨S_OK, 0, true⟩, S_OK, 2000000⟩

/-- An enumerated device whose friendly-name query fails. -/
def namelessDevice : EnumeratedDevice := ⟨⟨2, S_OK⟩, E_FAIL, ""⟩

/-- Answers of the sink of `8_Video_Recording_using_WMF` when every call succeeds. -/
def okSinkVideoOnly : VideoOnly8.SinkWriterEnv :=
  ⟨S_OK, S_OK, S_OK, S_OK, S_OK, S_OK, S_OK, S_OK, S_OK, S_OK, S_OK, S_OK, S_OK, S_OK, S_OK, S_OK,
    640, S_OK, S_OK, S_OK⟩

/-- The session `okSession` with an out-of-range entry at the video prompt. -/
def videoSelectionOutOfRange : SessionEnv := { okSession with videoSelection := 3 }

/-- The session `okSession` in which the video source reader cannot be created. -/
def videoReaderFails : SessionEnv := { okSession with videoReader := E_FAIL }

/-- The device list holding `camera` and `microphone` under their names. -/
def listedDevices : List DeviceInfo :=
  [⟨camera.device, "camera"⟩, ⟨microphone.device, "microphone"⟩]


/-- An iteration in which the video read gives no sample. -/
def emptyFrame : FrameEnv := ⟨⟨S_OK, 0, false⟩, S_OK, ⟨S_OK, 0, false⟩, S_OK, 2000000⟩


/-- A pass of the key loop of `Record.main` on key `key` in which every state change
succeeds, the end-of-stream message arrives in the second round of a wait, and
nothing else is pending. -/
def quietPass (key : Char) : Record.KeyStep :=
  ⟨key, Record.GstStateChangeReturn.SUCCESS, "output_2024-01-01_00-00-00.mp4",
    Record.GstStateChangeReturn.ASYNC,
    [[Record.GstMessageType.STATE_CHANGED], [Record.GstMessageType.EOS]],
    Record.GstStateChangeReturn.SUCCESS, [], []⟩

/-- The globals and the calls of the key loop of `Record.main` on the keys `a`, `x`,
`c`, each in a pass `quietPass`. -/
def recordThenLeave : Record.Globals × List Record.Call :=
  (⟨false, true⟩,
    [Record.Call.gst_element_set_state Record.GstState.NULL
        Record.GstStateChangeReturn.SUCCESS,
      Record.Call.g_object_set_location "output_2024-01-01_00-00-00.mp4",
      Record.Call.gst_element_set_state Record.GstState.PLAYING
        Record.GstStateChangeReturn.ASYNC,
      Record.Call.g_main_context_iteration [],
      Record.Call.g_main_context_iteration [],
      Record.Call.gst_element_send_event_eos,
      Record.Call.g_main_context_iteration [Record.GstMessageType.STATE_CHANGED],
      Record.Call.g_main_context_iteration [Record.GstMessageType.EOS],
      Record.Call.gst_element_get_state Record.GstStateChangeReturn.SUCCESS,
      Record.Call.gst_element_set_state Record.GstState.NULL
        Record.GstStateChangeReturn.SUCCESS])


/-- An iteration of the streaming program in which a sample of `bytes` comes back. -/
def frameOf (bytes : List Nat) : Youtube.FrameEnv :=
  ⟨1, ⟨S_OK, 0, true⟩, some ⟨S_OK, bytes, bytes.length + 4, bytes.length⟩, 2000000⟩

/-- An iteration of the streaming program in which no sample comes back. -/
def noSampleFrame : Youtube.FrameEnv := ⟨1, ⟨S_OK, 0, false⟩, none, 2000000⟩


/-- The capture format of the streaming program: NV12, 640 by 480, 60/1. -/
def streamedFormat : MediaType :=
  ⟨some StreamKind.video, some VideoFormat.NV12, none, some (640, 480), some (60, 1),
    some (1, 1), none, none⟩


/-- The session `okSession` in which the creation of the sink writer fails and so does
the creation of the video output type, so that `ConfigureSinkWriter` makes no call
through the null sink writer and returns the failure. -/
def noSinkWriter : SessionEnv :=
  { okSession with
    sink := { okSink with MFCreateSinkWriterFromURL := E_FAIL,
                          videoOut_MFCreateMediaType := E_FAIL } }

/-- An iteration of the streaming program in which a sample comes back whose conversion
to a contiguous buffer leaves the buffer pointer null. -/
def noBufferFrame : Youtube.FrameEnv := ⟨1, ⟨S_OK, 0, true⟩, none, 2000000⟩

/-! ## Theorems -/

theorem FAILED_eq_not_SUCCEEDED (hr : HRESULT) : FAILED hr = !SUCCEEDED hr := by
  unfold FAILED SUCCEEDED
  by_cases h : (0 : Int) ≤ hr
  · simp [h, not_lt.mpr h]
  · simp [h, not_le.mp h]

/-! ### Order of calls in a trace -/

/-- The meaning of `noneAfter`: however the trace is cut at an event satisfying `p`,
nothing behind the cut satisfies `q`. -/
theorem noneAfter_iff (p q : Event → Bool) (t : List Event) :
    noneAfter p q t = true ↔
      ∀ pre ev post, t = pre ++ ev :: post → p ev = true → ∀ x ∈ post, q x = false := by
  induction t with
  | nil =>
      simp [noneAfter]
  | cons a rest ih =>
      simp only [noneAfter, Bool.and_eq_true, Bool.or_eq_true, Bool.not_eq_true',
        List.all_eq_true, ih]
      constructor
      · rintro ⟨h1, h2⟩ pre ev post heq hp x hx
        cases pre with
        | nil =>
            simp only [List.nil_append, List.cons.injEq] at heq
            obtain ⟨rfl, rfl⟩ := heq
            rcases h1 with h1 | h1
            · rw [h1] at hp
              cases hp
            · exact h1 x hx
        | cons b pre' =>
            simp only [List.cons_append, List.cons.injEq] at heq
            exact h2 pre' ev post heq.2 hp x hx
      · intro h
        constructor
        · cases hp : p a
          · exact Or.inl rfl
          · exact Or.inr (fun x hx => h [] a rest rfl hp x hx)
        · intro pre ev post heq hp x hx
          exact h (a :: pre) ev post (by rw [heq]; rfl) hp x hx

theorem noneAfter_of_none (p q : Event → Bool) (t : List Event)
    (h : ∀ ev ∈ t, p ev = false) : noneAfter p q t = true := by
  rw [noneAfter_iff]
  intro pre ev post heq hp
  have := h ev (by rw [heq]; simp)
  rw [this] at hp
  cases hp

theorem noneAfter_append_of_none (p q : Event → Bool) (t1 t2 : List Event)
    (h : ∀ ev ∈ t1, p ev = false) : noneAfter p q (t1 ++ t2) = noneAfter p q t2 := by
  induction t1 with
  | nil => rfl
  | cons a rest ih =>
      have ha := h a (by simp)
      have hrest := ih (fun ev hev => h ev (by simp [hev]))
      simp [noneAfter, ha, hrest]

/-! ### Arithmetic of the clock -/

theorem toLONGLONG_of_range (x : Int) (h1 : -(2 ^ 63) ≤ x) (h2 : x < 2 ^ 63) :
    toLONGLONG x = x := by
  unfold toLONGLONG
  omega

theorem clock_mono (clock : Nat → Int) (hmono : ∀ k, clock k ≤ clock (k + 1)) :
    ∀ j k, j ≤ k → clock j ≤ clock k := by
  intro j k hjk
  induction k with
  | zero =>
      have : j = 0 := by omega
      subst this
      exact le_refl _
  | succ n ih =>
      rcases Nat.lt_or_ge j (n + 1) with h | h
      · exact le_trans (ih (by omega)) (hmono n)
      · have : j = n + 1 := by omega
        subst this
        exact le_refl _

/-! ### The capture loop of `MultiDevice`: sample times -/

theorem sampleTimes_append (k : StreamKind) (t1 t2 : List Event) :
    sampleTimes k (t1 ++ t2) = sampleTimes k t1 ++ sampleTimes k t2 := by
  simp [sampleTimes, List.filterMap_append]

theorem sampleTimes_pace (k : StreamKind) (frameTime : Nat) :
    sampleTimes k (MultiDevice.pace frameTime) = [] := by
  unfold MultiDevice.pace
  cases MultiDevice.frameWait frameTime <;> simp [sampleTimes, sampleTimeOn]

theorem toLONGLONG_offset (clock : Nat → Int)
    (hrange : ∀ k, 0 ≤ clock k ∧ clock k < 2 ^ 63) (hmono : ∀ k, clock k ≤ clock (k + 1))
    (j : Nat) : toLONGLONG (clock j - clock 0) = clock j - clock 0 := by
  apply toLONGLONG_of_range
  · have := clock_mono clock hmono 0 j (Nat.zero_le j)
    omega
  · have h1 := hrange j
    have h2 := hrange 0
    omega

/-- Reading the origin: afterwards `startTime` is the first clock reading. -/
theorem anchorStartTime_spec (clock : Nat → Int) (hnz : ∀ k, clock k ≠ 0) (st : LoopState)
    (k : StreamKind)
    (hst : (st.startTime = 0 ∧ st.clockCalls = 0) ∨
      (st.startTime = clock 0 ∧ 1 ≤ st.clockCalls)) :
    (MultiDevice.anchorStartTime clock st).state.startTime = clock 0 ∧
    1 ≤ (MultiDevice.anchorStartTime clock st).state.clockCalls ∧
    st.clockCalls ≤ (MultiDevice.anchorStartTime clock st).state.clockCalls ∧
    sampleTimes k (MultiDevice.anchorStartTime clock st).trace = [] := by
  obtain ⟨s0, n⟩ := st
  rcases hst with ⟨h0, hn⟩ | ⟨h0, hn⟩
  · simp only at h0 hn
    subst h0 hn
    simp [MultiDevice.anchorStartTime, sampleTimes, sampleTimeOn]
  · simp only at h0 hn
    subst h0
    have := hnz 0
    simp [MultiDevice.anchorStartTime, sampleTimes, sampleTimeOn, this, hn]

/-- A write made with the origin set: the only sample time it can contribute is the
current clock offset, and then the clock has been read once more. -/
theorem writeSample_spec (clock : Nat → Int)
    (hrange : ∀ k, 0 ≤ clock k ∧ clock k < 2 ^ 63) (hmono : ∀ k, clock k ≤ clock (k + 1))
    (w : Bool) (k k' : StreamKind) (d : Option Int) (hr : HRESULT) (st : LoopState)
    (hst : st.startTime = clock 0) :
    (MultiDevice.writeSample clock w k' d hr st).state.startTime = clock 0 ∧
    (MultiDevice.writeSample clock w k' d hr st).state.clockCalls = st.clockCalls + 1 ∧
    (sampleTimes k (MultiDevice.writeSample clock w k' d hr st).trace = [] ∨
      sampleTimes k (MultiDevice.writeSample clock w k' d hr st).trace =
        [clock st.clockCalls - clock 0]) := by
  obtain ⟨s0, n⟩ := st
  simp only at hst
  subst hst
  have hw := toLONGLONG_offset clock hrange hmono n
  cases w <;> by_cases hk : k' = k <;>
    simp [MultiDevice.writeSample, sampleTimes, sampleTimeOn, hk, hw]

/-- The video part of an iteration, with the origin set. -/
theorem captureVideo_spec (clock : Nat → Int)
    (hrange : ∀ k, 0 ≤ clock k ∧ clock k < 2 ^ 63) (hmono : ∀ k, clock k ≤ clock (k + 1))
    (w : Bool) (k : StreamKind) (e : FrameEnv) (st : LoopState)
    (hst : st.startTime = clock 0) :
    (MultiDevice.captureVideo clock w e st).state.startTime = clock 0 ∧
    st.clockCalls ≤ (MultiDevice.captureVideo clock w e st).state.clockCalls ∧
    (sampleTimes k (MultiDevice.captureVideo clock w e st).trace = [] ∨
      (sampleTimes k (MultiDevice.captureVideo clock w e st).trace =
          [clock st.clockCalls - clock 0] ∧
        (MultiDevice.captureVideo clock w e st).state.clockCalls = st.clockCalls + 1)) := by
  have hws := writeSample_spec clock hrange hmono w k StreamKind.video
    (some (MultiDevice.FRAME_DURATION : Int)) e.videoWrite st hst
  unfold MultiDevice.captureVideo
  cases hv : e.videoRead.sample
  · simp [sampleTimes, sampleTimeOn, hst]
  · obtain ⟨h1, h2, h3⟩ := hws
    simp only [if_true]
    refine ⟨h1, by omega, ?_⟩
    have hcons : ∀ t : List Event,
        sampleTimes k (Event.ReadSample StreamKind.video e.videoRead.hr e.videoRead.flags true
          :: t) = sampleTimes k t := by
      intro t
      simp [sampleTimes, sampleTimeOn]
    rw [hcons]
    rcases h3 with h3 | h3
    · exact Or.inl h3
    · exact Or.inr ⟨h3, h2⟩

/-- The audio part of an iteration, with the origin set. -/
theorem captureAudio_spec (clock : Nat → Int)
    (hrange : ∀ k, 0 ≤ clock k ∧ clock k < 2 ^ 63) (hmono : ∀ k, clock k ≤ clock (k + 1))
    (a w : Bool) (k : StreamKind) (e : FrameEnv) (st : LoopState)
    (hst : st.startTime = clock 0) :
    (MultiDevice.captureAudio clock a w e st).state.startTime = clock 0 ∧
    st.clockCalls ≤ (MultiDevice.captureAudio clock a w e st).state.clockCalls ∧
    (sampleTimes k (MultiDevice.captureAudio clock a w e st).trace = [] ∨
      (sampleTimes k (MultiDevice.captureAudio clock a w e st).trace =
          [clock st.clockCalls - clock 0] ∧
        (MultiDevice.captureAudio clock a w e st).state.clockCalls = st.clockCalls + 1)) := by
  have hws := writeSample_spec clock hrange hmono w k StreamKind.audio none e.audioWrite st hst
  unfold MultiDevice.captureAudio
  cases a
  · simp [sampleTimes, hst]
  · cases hv : e.audioRead.sample
    · simp [sampleTimes, sampleTimeOn, hst]
    · obtain ⟨h1, h2, h3⟩ := hws
      simp only [if_true]
      refine ⟨h1, by omega, ?_⟩
      have hcons : ∀ t : List Event,
          sampleTimes k (Event.ReadSample StreamKind.audio e.audioRead.hr e.audioRead.flags true
            :: t) = sampleTimes k t := by
        intro t
        simp [sampleTimes, sampleTimeOn]
      rw [hcons]
      rcases h3 with h3 | h3
      · exact Or.inl h3
      · exact Or.inr ⟨h3, h2⟩

/-- One iteration started with the origin unset or set to the first reading: afterwards
the origin is the first reading, the sample times of the iteration on a stream are in
order, and each lies between the clock offsets at its start and at its end. -/
theorem captureFrame_times (clock : Nat → Int)
    (hrange : ∀ k, 0 ≤ clock k ∧ clock k < 2 ^ 63) (hnz : ∀ k, clock k ≠ 0)
    (hmono : ∀ k, clock k ≤ clock (k + 1)) (a w : Bool) (e : FrameEnv) (st : LoopState)
    (k : StreamKind)
    (hst : (st.startTime = 0 ∧ st.clockCalls = 0) ∨
      (st.startTime = clock 0 ∧ 1 ≤ st.clockCalls)) :
    (MultiDevice.captureFrame clock a w e st).state.startTime = clock 0 ∧
    1 ≤ (MultiDevice.captureFrame clock a w e st).state.clockCalls ∧
    st.clockCalls ≤ (MultiDevice.captureFrame clock a w e st).state.clockCalls ∧
    (sampleTimes k (MultiDevice.captureFrame clock a w e st).trace).Pairwise (· ≤ ·) ∧
    ∀ t ∈ sampleTimes k (MultiDevice.captureFrame clock a w e st).trace,
      clock st.clockCalls - clock 0 ≤ t ∧
      t ≤ clock (MultiDevice.captureFrame clock a w e st).state.clockCalls - clock 0 := by
  have hm := clock_mono clock hmono
  obtain ⟨ha1, ha2, ha3, ha4⟩ := anchorStartTime_spec clock hnz st k hst
  obtain ⟨hv1, hv2, hv3⟩ := captureVideo_spec clock hrange hmono w k e
    (MultiDevice.anchorStartTime clock st).state ha1
  obtain ⟨hu1, hu2, hu3⟩ := captureAudio_spec clock hrange hmono a w k e
    (MultiDevice.captureVideo clock w e (MultiDevice.anchorStartTime clock st).state).state hv1
  unfold MultiDevice.captureFrame
  dsimp only
  generalize MultiDevice.anchorStartTime clock st = A at *
  generalize MultiDevice.captureVideo clock w e A.state = V at *
  generalize MultiDevice.captureAudio clock a w e V.state = U at *
  have hSA := hm _ _ ha3
  have hAV := hm _ _ hv2
  have hVU := hm _ _ hu2
  have hV1 := hm V.state.clockCalls (V.state.clockCalls + 1) (by omega)
  have hU1 := hm V.state.clockCalls U.state.clockCalls hu2
  by_cases hc : V.crashed = true
  · rw [if_pos hc]
    simp only [sampleTimes_append, ha4, List.nil_append]
    refine ⟨hv1, by omega, by omega, ?_, ?_⟩
    · rcases hv3 with h | ⟨h, _⟩ <;> simp [h]
    · rcases hv3 with h | ⟨h, h'⟩
      · simp [h]
      · simp only [h, List.mem_singleton]
        intro t ht
        subst ht
        omega
  · by_cases hd : U.crashed = true
    · rw [if_neg hc, if_pos hd]
      simp only [sampleTimes_append, ha4, List.nil_append]
      refine ⟨hu1, by omega, by omega, ?_, ?_⟩
      · rcases hv3 with h | ⟨h, h'⟩ <;> rcases hu3 with g | ⟨g, g'⟩ <;> simp [h, g]
        exact hAV
      · rcases hv3 with h | ⟨h, h'⟩ <;> rcases hu3 with g | ⟨g, g'⟩ <;>
          simp only [h, g, List.nil_append, List.append_nil, List.not_mem_nil, List.mem_append,
            List.mem_singleton, false_imp_iff, implies_true, or_false, false_or] <;>
          intro t ht
        · subst ht
          rw [g'] at hU1
          omega
        · subst ht
          omega
        · rcases ht with ht | ht <;> subst ht
          · omega
          · rw [g'] at hU1
            omega
    · rw [if_neg hc, if_neg hd]
      simp only [sampleTimes_append, ha4, List.nil_append, sampleTimes_pace, List.append_nil]
      refine ⟨hu1, by omega, by omega, ?_, ?_⟩
      · rcases hv3 with h | ⟨h, h'⟩ <;> rcases hu3 with g | ⟨g, g'⟩ <;> simp [h, g]
        exact hAV
      · rcases hv3 with h | ⟨h, h'⟩ <;> rcases hu3 with g | ⟨g, g'⟩ <;>
          simp only [h, g, List.nil_append, List.append_nil, List.not_mem_nil, List.mem_append,
            List.mem_singleton, false_imp_iff, implies_true, or_false, false_or] <;>
          intro t ht
        · subst ht
          rw [g'] at hU1
          omega
        · subst ht
          omega
        · rcases ht with ht | ht <;> subst ht
          · omega
          · rw [g'] at hU1
            omega

/-- The whole loop: the sample times written on a stream are in non-decreasing order
and none is below the clock offset at which the loop was entered. -/
theorem captureLoop_times (clock : Nat → Int)
    (hrange : ∀ k, 0 ≤ clock k ∧ clock k < 2 ^ 63) (hnz : ∀ k, clock k ≠ 0)
    (hmono : ∀ k, clock k ≤ clock (k + 1)) (a w : Bool) (k : StreamKind) :
    ∀ (frames : List FrameEnv) (st : LoopState),
      ((st.startTime = 0 ∧ st.clockCalls = 0) ∨ (st.startTime = clock 0 ∧ 1 ≤ st.clockCalls)) →
      (sampleTimes k (MultiDevice.captureLoop clock a w frames st).trace).Pairwise (· ≤ ·) ∧
      ∀ t ∈ sampleTimes k (MultiDevice.captureLoop clock a w frames st).trace,
        clock st.clockCalls - clock 0 ≤ t := by
  intro frames
  induction frames with
  | nil =>
      intro st _
      simp [MultiDevice.captureLoop, sampleTimes]
  | cons e rest ih =>
      intro st hst
      obtain ⟨hf1, hf2, hf5, hf3, hf4⟩ := captureFrame_times clock hrange hnz hmono a w e st k hst
      obtain ⟨ih1, ih2⟩ := ih (MultiDevice.captureFrame clock a w e st).state (Or.inr ⟨hf1, hf2⟩)
      unfold MultiDevice.captureLoop
      dsimp only
      by_cases hc : (MultiDevice.captureFrame clock a w e st).crashed = true
      · rw [if_pos hc]
        exact ⟨hf3, fun t ht => (hf4 t ht).1⟩
      · rw [if_neg hc]
        simp only [sampleTimes_append]
        refine ⟨List.pairwise_append.mpr ⟨hf3, ih1, ?_⟩, ?_⟩
        · intro x hx y hy
          exact le_trans (hf4 x hx).2 (ih2 y hy)
        · intro t ht
          rcases List.mem_append.mp ht with ht | ht
          · exact (hf4 t ht).1
          · have h1 := ih2 t ht
            have h3 := clock_mono clock hmono _ _ hf5
            omega

/-- Claim C1. In `CaptureFrames` of the multi-device program, when the successive
`MFGetSystemTime` readings are non-zero, non-decreasing system times (non-negative
`LONGLONG` values), the sample times set on the samples written on the video stream
are non-decreasing in write order, and so are those written on the audio stream. -/
theorem captureFrames_sample_times_monotone (clock : Nat → Int)
    (hrange : ∀ k, 0 ≤ clock k ∧ clock k < 2 ^ 63) (hnz : ∀ k, clock k ≠ 0)
    (hmono : ∀ k, clock k ≤ clock (k + 1))
    (pAudioSourceReader pSinkWriter : Bool) (frames : List FrameEnv) :
    (sampleTimes StreamKind.video
      (MultiDevice.CaptureFrames clock pAudioSourceReader pSinkWriter frames).trace).Pairwise
        (· ≤ ·) ∧
    (sampleTimes StreamKind.audio
      (MultiDevice.CaptureFrames clock pAudioSourceReader pSinkWriter frames).trace).Pairwise
        (· ≤ ·) := by
  have hcons : ∀ (k : StreamKind) (t : List Event),
      sampleTimes k (Event.CaptureFrames :: t) = sampleTimes k t := by
    intro k t
    simp [sampleTimes, sampleTimeOn]
  unfold MultiDevice.CaptureFrames
  dsimp only
  rw [hcons, hcons]
  exact ⟨(captureLoop_times clock hrange hnz hmono pAudioSourceReader pSinkWriter
      StreamKind.video frames ⟨0, 0⟩ (Or.inl ⟨rfl, rfl⟩)).1,
    (captureLoop_times clock hrange hnz hmono pAudioSourceReader pSinkWriter
      StreamKind.audio frames ⟨0, 0⟩ (Or.inl ⟨rfl, rfl⟩)).1⟩

theorem captureFrames_sample_times_monotone_witness :
    sampleTimes StreamKind.video
        (MultiDevice.CaptureFrames tickingClock true true [goodFrame, goodFrame]).trace = [1, 3] ∧
    sampleTimes StreamKind.audio
        (MultiDevice.CaptureFrames tickingClock true true [goodFrame, goodFrame]).trace = [2, 4] ∧
    (sampleTimes StreamKind.video
        (MultiDevice.CaptureFrames tickingClock true true [goodFrame, goodFrame]).trace).Pairwise
          (· ≤ ·) ∧
    (sampleTimes StreamKind.audio
        (MultiDevice.CaptureFrames tickingClock true true [goodFrame, goodFrame]).trace).Pairwise
          (· ≤ ·) :=
  ⟨by decide, by decide,
    captureFrames_sample_times_monotone tickingClock
      (fun k => by unfold tickingClock; constructor <;> omega)
      (fun k => by unfold tickingClock; omega)
      (fun k => by unfold tickingClock; omega) true true [goodFrame, goodFrame]⟩

/-! ### `MultiDevice.StartRecording`: configuration failures -/

/-- Claim C2 (the code departs from the claim). In the multi-device program a failure
returned by `ConfigureConservativeMediaType`, `ConfigureAudioMediaType` or
`ConfigureSinkWriter` does not end the session: in each of the three sessions below
the function returns a failure, and `StartRecording` still invokes `CaptureFrames`
and a `WriteSample` call is made. -/
theorem startRecording_captures_after_failed_configuration :
    (FAILED (MultiDevice.ConfigureConservativeMediaType videoTypeRefused.videoType).hr = true ∧
      Event.CaptureFrames ∈ (MultiDevice.StartRecording videoTypeRefused).trace ∧
      (MultiDevice.StartRecording videoTypeRefused).trace.any isWriteSample = true) ∧
    (FAILED (MultiDevice.ConfigureAudioMediaType audioTypeRefused.audioType).hr = true ∧
      Event.CaptureFrames ∈ (MultiDevice.StartRecording audioTypeRefused).trace ∧
      (MultiDevice.StartRecording audioTypeRefused).trace.any isWriteSample = true) ∧
    (FAILED (MultiDevice.ConfigureSinkWriter beginWritingFails.sink true).hr = true ∧
      Event.CaptureFrames ∈ (MultiDevice.StartRecording beginWritingFails).trace ∧
      (MultiDevice.StartRecording beginWritingFails).trace.any isWriteSample = true) := by
  decide

/-- Claim C4 (the code departs from the claim). In the capture loop of the multi-device
program a failed `WriteSample` is reported and the loop goes on: in the run below the
video write of the first iteration fails and three more `WriteSample` calls follow. -/
theorem captureFrames_writes_after_failed_write :
    (MultiDevice.CaptureFrames tickingClock true true [videoWriteFails, goodFrame]).trace =
      [Event.CaptureFrames,
        Event.MFGetSystemTime 1,
        Event.ReadSample StreamKind.video S_OK 0 true,
        Event.MFGetSystemTime 2,
        Event.WriteSample StreamKind.video 1 (some 166666) E_FAIL,
        Event.ReadSample StreamKind.audio S_OK 0 true,
        Event.MFGetSystemTime 3,
        Event.WriteSample StreamKind.audio 2 none S_OK,
        Event.sleep_for 14666000,
        Event.ReadSample StreamKind.video S_OK 0 true,
        Event.MFGetSystemTime 4,
        Event.WriteSample StreamKind.video 3 (some 166666) S_OK,
        Event.ReadSample StreamKind.audio S_OK 0 true,
        Event.MFGetSystemTime 5,
        Event.WriteSample StreamKind.audio 4 none S_OK,
        Event.sleep_for 14666000] ∧
    noneAfter isFailedWriteSample isWriteSample
      (MultiDevice.CaptureFrames tickingClock true true [videoWriteFails, goodFrame]).trace =
        false := by
  decide

/-- Claim C6. In the multi-device program, when video device enumeration fails or leaves
the device list empty, `StartRecording` returns having made no call other than the
enumeration itself: no device is activated, no sink writer is created, no
`AddStream` or `BeginWriting` call is made, and `CaptureFrames` is not invoked. -/
theorem startRecording_without_video_device (e : SessionEnv)
    (h : FAILED (MultiDevice.EnumerateDevices StreamKind.video e.videoEnum []).1 = true ∨
      (MultiDevice.EnumerateDevices StreamKind.video e.videoEnum []).2.1 = []) :
    (MultiDevice.StartRecording e).crashed = false ∧
    ∀ ev ∈ (MultiDevice.StartRecording e).trace,
      isActivateObject ev = false ∧ isMFCreateSinkWriterFromURL ev = false ∧
      isAddStream ev = false ∧ isBeginWriting ev = false ∧ isCaptureFrames ev = false := by
  have hret : MultiDevice.StartRecording e =
      ⟨(MultiDevice.EnumerateDevices StreamKind.video e.videoEnum []).2.2, false⟩ := by
    unfold MultiDevice.StartRecording
    rcases h with h | h
    · simp [h]
    · simp [h]
  rw [hret]
  refine ⟨rfl, ?_⟩
  intro ev hev
  have hev' : ev = Event.MFEnumDeviceSources StreamKind.video e.videoEnum.MFEnumDeviceSources := by
    revert hev
    unfold MultiDevice.EnumerateDevices
    dsimp only
    split_ifs <;> simp
  subst hev'
  simp [isActivateObject, isMFCreateSinkWriterFromURL, isAddStream, isBeginWriting,
    isCaptureFrames]

theorem startRecording_without_video_device_witness :
    ((MultiDevice.StartRecording noCamera).crashed = false ∧
      ∀ ev ∈ (MultiDevice.StartRecording noCamera).trace,
        isActivateObject ev = false ∧ isMFCreateSinkWriterFromURL ev = false ∧
        isAddStream ev = false ∧ isBeginWriting ev = false ∧ isCaptureFrames ev = false) ∧
    (MultiDevice.StartRecording noCamera).trace =
      [Event.MFEnumDeviceSources StreamKind.video S_OK] :=
  ⟨startRecording_without_video_device noCamera (Or.inr (by decide)), by decide⟩

/-- Claim C9 (the code departs from the claim). When `MFCreateSinkWriterFromURL` fails and
the calls that build the video output type succeed, `ConfigureSinkWriter` of the
multi-device program does not return a failure: the failure is overwritten and the
function goes on to call `AddStream` through the null sink writer pointer. -/
theorem configureSinkWriter_calls_through_null_writer :
    (MultiDevice.ConfigureSinkWriter sinkCreationFails true).trace =
      [Event.MFCreateSinkWriterFromURL E_FAIL, Event.nullDereference] ∧
    (MultiDevice.ConfigureSinkWriter sinkCreationFails true).result = none ∧
    (MultiDevice.ConfigureSinkWriter sinkCreationFails false).trace =
      [Event.MFCreateSinkWriterFromURL E_FAIL, Event.nullDereference] ∧
    (MultiDevice.ConfigureSinkWriter sinkCreationFails false).result = none := by
  decide

/-- Claim C10 (the code departs from the claim). In the multi-device program `Finalize`
is called whenever the sink writer was created: in the first session `AddStream`
fails and `BeginWriting` is never called, in the second `BeginWriting` is called and
fails, and both sessions end with a `Finalize` call. -/
theorem startRecording_finalizes_without_beginWriting :
    ((MultiDevice.StartRecording addStreamFails).trace.any isBeginWriting = false ∧
      (MultiDevice.StartRecording addStreamFails).trace.getLast? = some (Event.Finalize S_OK)) ∧
    (Event.BeginWriting E_FAIL ∈ (MultiDevice.StartRecording beginWritingFails).trace ∧
      (MultiDevice.StartRecording beginWritingFails).trace.getLast? =
        some (Event.Finalize S_OK)) := by
  decide

/-! ### `MultiDevice.ConfigureSinkWriter` -/

theorem thenSinkCall_ok (hr : HRESULT) (t : List Event) (ev : HRESULT → Event) (res : HRESULT)
    (h : SUCCEEDED hr = true) :
    Exec.thenSinkCall ⟨hr, t, false⟩ true ev res = ⟨res, t ++ [ev res], false⟩ := by
  simp [Exec.thenSinkCall, h]

theorem thenSinkCall_skip (hr : HRESULT) (t : List Event) (w : Bool) (ev : HRESULT → Event)
    (res : HRESULT) (h : SUCCEEDED hr = false) :
    Exec.thenSinkCall ⟨hr, t, false⟩ w ev res = ⟨hr, t, false⟩ := by
  simp [Exec.thenSinkCall, h]

/-- The run of `ConfigureSinkWriter` when the sink writer was created: the calls made
and the value returned, by the first call that fails. -/
theorem configureSinkWriter_created (e : SinkWriterEnv) (pAudioType : Bool)
    (hw : SUCCEEDED e.MFCreateSinkWriterFromURL = true) :
    MultiDevice.ConfigureSinkWriter e pAudioType =
      if SUCCEEDED (MultiDevice.videoOutputType e) then
        if SUCCEEDED e.AddStream_video then
          if pAudioType then
            if SUCCEEDED (MultiDevice.audioOutputType e) then
              if SUCCEEDED e.AddStream_audio then
                if SUCCEEDED e.SetInputMediaType_video then
                  if SUCCEEDED e.SetInputMediaType_audio then
                    ⟨e.BeginWriting,
                      [Event.MFCreateSinkWriterFromURL e.MFCreateSinkWriterFromURL,
                        Event.AddStream StreamKind.video e.AddStream_video,
                        Event.AddStream StreamKind.audio e.AddStream_audio,
                        Event.SetInputMediaType StreamKind.video e.SetInputMediaType_video,
                        Event.SetInputMediaType StreamKind.audio e.SetInputMediaType_audio,
                        Event.BeginWriting e.BeginWriting], false⟩
                  else
                    ⟨e.SetInputMediaType_audio,
                      [Event.MFCreateSinkWriterFromURL e.MFCreateSinkWriterFromURL,
                        Event.AddStream StreamKind.video e.AddStream_video,
                        Event.AddStream StreamKind.audio e.AddStream_audio,
                        Event.SetInputMediaType StreamKind.video e.SetInputMediaType_video,
                        Event.SetInputMediaType StreamKind.audio e.SetInputMediaType_audio],
                      false⟩
                else
                  ⟨e.SetInputMediaType_video,
                    [Event.MFCreateSinkWriterFromURL e.MFCreateSinkWriterFromURL,
                      Event.AddStream StreamKind.video e.AddStream_video,
                      Event.AddStream StreamKind.audio e.AddStream_audio,
                      Event.SetInputMediaType StreamKind.video e.SetInputMediaType_video],
                    false⟩
              else
                ⟨e.AddStream_audio,
                  [Event.MFCreateSinkWriterFromURL e.MFCreateSinkWriterFromURL,
                    Event.AddStream StreamKind.video e.AddStream_video,
                    Event.AddStream StreamKind.audio e.AddStream_audio], false⟩
            else
              ⟨MultiDevice.audioOutputType e,
                [Event.MFCreateSinkWriterFromURL e.MFCreateSinkWriterFromURL,
                  Event.AddStream StreamKind.video e.AddStream_video], false⟩
          else
            if SUCCEEDED e.SetInputMediaType_video then
              ⟨e.BeginWriting,
                [Event.MFCreateSinkWriterFromURL e.MFCreateSinkWriterFromURL,
                  Event.AddStream StreamKind.video e.AddStream_video,
                  Event.SetInputMediaType StreamKind.video e.SetInputMediaType_video,
                  Event.BeginWriting e.BeginWriting], false⟩
            else
              ⟨e.SetInputMediaType_video,
                [Event.MFCreateSinkWriterFromURL e.MFCreateSinkWriterFromURL,
                  Event.AddStream StreamKind.video e.AddStream_video,
                  Event.SetInputMediaType StreamKind.video e.SetInputMediaType_video], false⟩
        else
          ⟨e.AddStream_video,
            [Event.MFCreateSinkWriterFromURL e.MFCreateSinkWriterFromURL,
              Event.AddStream StreamKind.video e.AddStream_video], false⟩
      else
        ⟨MultiDevice.videoOutputType e,
          [Event.MFCreateSinkWriterFromURL e.MFCreateSinkWriterFromURL], false⟩ := by
  unfold MultiDevice.ConfigureSinkWriter
  simp only [hw, Exec.assign, Bool.false_eq_true, if_false]
  cases h1 : SUCCEEDED (MultiDevice.videoOutputType e)
  · simp [thenSinkCall_skip, h1, MultiDevice.setInputTypes]
  · rw [thenSinkCall_ok _ _ _ _ h1]
    cases h2 : SUCCEEDED e.AddStream_video
    · simp [thenSinkCall_skip, h2, MultiDevice.setInputTypes]
    · cases pAudioType
      · simp only [MultiDevice.setInputTypes, h2, Bool.false_eq_true, if_false, Bool.and_false,
          if_true]
        rw [thenSinkCall_ok _ _ _ _ h2]
        cases h3 : SUCCEEDED e.SetInputMediaType_video
        · simp [thenSinkCall_skip, h3]
        · simp [thenSinkCall_ok, h3]
      · simp only [MultiDevice.setInputTypes, h2, Bool.false_eq_true, if_false, Bool.and_true,
          if_true, MultiDevice.addAudioStream, Exec.assign]
        cases h3 : SUCCEEDED (MultiDevice.audioOutputType e)
        · simp [thenSinkCall_skip, h3]
        · rw [thenSinkCall_ok _ _ _ _ h3]
          cases h4 : SUCCEEDED e.AddStream_audio
          · simp [thenSinkCall_skip, h4]
          · rw [thenSinkCall_ok _ _ _ _ h4]
            cases h5 : SUCCEEDED e.SetInputMediaType_video
            · simp [thenSinkCall_skip, h5]
            · rw [thenSinkCall_ok _ _ _ _ h5]
              cases h6 : SUCCEEDED e.SetInputMediaType_audio
              · simp [thenSinkCall_skip, h6]
              · simp [thenSinkCall_ok, h6]

/-- The run of `ConfigureSinkWriter` when the sink writer was not created: either the
video output type fails to build, or `AddStream` is called through the null pointer. -/
theorem configureSinkWriter_not_created (e : SinkWriterEnv) (pAudioType : Bool)
    (hw : SUCCEEDED e.MFCreateSinkWriterFromURL = false) :
    MultiDevice.ConfigureSinkWriter e pAudioType =
      if SUCCEEDED (MultiDevice.videoOutputType e) then
        ⟨MultiDevice.videoOutputType e,
          [Event.MFCreateSinkWriterFromURL e.MFCreateSinkWriterFromURL, Event.nullDereference],
          true⟩
      else
        ⟨MultiDevice.videoOutputType e,
          [Event.MFCreateSinkWriterFromURL e.MFCreateSinkWriterFromURL], false⟩ := by
  unfold MultiDevice.ConfigureSinkWriter
  simp only [hw, Exec.assign, Bool.false_eq_true, if_false]
  cases h1 : SUCCEEDED (MultiDevice.videoOutputType e)
  · simp [thenSinkCall_skip, h1, MultiDevice.setInputTypes]
  · simp [Exec.thenSinkCall, h1, MultiDevice.setInputTypes]

theorem videoOutputType_ok (e : SinkWriterEnv) (h : e.allSucceed = true) :
    SUCCEEDED (MultiDevice.videoOutputType e) = true := by
  simp only [SinkWriterEnv.allSucceed, Bool.and_eq_true] at h
  simp [MultiDevice.videoOutputType, thenCall, h]

theorem audioOutputType_ok (e : SinkWriterEnv) (h : e.allSucceed = true) :
    SUCCEEDED (MultiDevice.audioOutputType e) = true := by
  simp only [SinkWriterEnv.allSucceed, Bool.and_eq_true] at h
  simp [MultiDevice.audioOutputType, thenCall, h]

/-- Claim C7. In `ConfigureSinkWriter` of the multi-device program `AddStream` is never
called more than twice; and when the sink writer is created and every call succeeds,
it is called exactly once, for the video stream, if the audio type is null, and
exactly twice otherwise, for the video stream and then for the audio stream. -/
theorem configureSinkWriter_addStream_calls (e : SinkWriterEnv) (pAudioType : Bool) :
    (addedStreams (MultiDevice.ConfigureSinkWriter e pAudioType).trace).length ≤ 2 ∧
    (e.allSucceed = true →
      addedStreams (MultiDevice.ConfigureSinkWriter e pAudioType).trace =
        if pAudioType then [StreamKind.video, StreamKind.audio] else [StreamKind.video]) := by
  constructor
  · cases hw : SUCCEEDED e.MFCreateSinkWriterFromURL
    · rw [configureSinkWriter_not_created e pAudioType hw]
      split_ifs <;> simp [addedStreams, addedStream]
    · rw [configureSinkWriter_created e pAudioType hw]
      split_ifs <;> simp [addedStreams, addedStream]
  · intro h
    have hv := videoOutputType_ok e h
    have ha := audioOutputType_ok e h
    simp only [SinkWriterEnv.allSucceed, Bool.and_eq_true] at h
    rw [configureSinkWriter_created e pAudioType h.1.1.1.1.1.1.1.1.1.1.1.1.1.1.1.1]
    cases pAudioType <;> simp [hv, ha, h, addedStreams, addedStream]

theorem configureSinkWriter_addStream_calls_witness :
    okSink.allSucceed = true ∧
    addedStreams (MultiDevice.ConfigureSinkWriter okSink true).trace =
      [StreamKind.video, StreamKind.audio] ∧
    addedStreams (MultiDevice.ConfigureSinkWriter okSink false).trace = [StreamKind.video] :=
  ⟨by decide, (configureSinkWriter_addStream_calls okSink true).2 (by decide),
    (configureSinkWriter_addStream_calls okSink false).2 (by decide)⟩

/-- Claim C8. In `ConfigureSinkWriter` of the multi-device program, given that the sink
writer was created: `BeginWriting` is called at most once; no `AddStream` or
`SetInputMediaType` call follows it; it is called only if every `AddStream` and
`SetInputMediaType` call of the run succeeded; and the function returns, with a
success exactly when `BeginWriting` was called and succeeded. -/
theorem configureSinkWriter_beginWriting (e : SinkWriterEnv) (pAudioType : Bool)
    (hw : SUCCEEDED e.MFCreateSinkWriterFromURL = true) :
    ((MultiDevice.ConfigureSinkWriter e pAudioType).trace.filter isBeginWriting).length ≤ 1 ∧
    noneAfter isBeginWriting isStreamSetup (MultiDevice.ConfigureSinkWriter e pAudioType).trace =
      true ∧
    ((MultiDevice.ConfigureSinkWriter e pAudioType).trace.any isBeginWriting = true →
      ∀ ev ∈ (MultiDevice.ConfigureSinkWriter e pAudioType).trace, ∀ hr,
        configResult ev = some hr → SUCCEEDED hr = true) ∧
    ∃ hr, (MultiDevice.ConfigureSinkWriter e pAudioType).result = some hr ∧
      (SUCCEEDED hr = true ↔
        ∃ hrB, Event.BeginWriting hrB ∈ (MultiDevice.ConfigureSinkWriter e pAudioType).trace ∧
          SUCCEEDED hrB = true) := by
  rw [configureSinkWriter_created e pAudioType hw]
  split_ifs <;>
    simp_all [noneAfter, isBeginWriting, isStreamSetup, isAddStream, isSetInputMediaType,
      configResult, Exec.result]

theorem configureSinkWriter_beginWriting_witness :
    (MultiDevice.ConfigureSinkWriter okSink true).trace.getLast? = some (Event.BeginWriting S_OK) ∧
    ((MultiDevice.ConfigureSinkWriter okSink true).trace.filter isBeginWriting).length ≤ 1 ∧
    noneAfter isBeginWriting isStreamSetup (MultiDevice.ConfigureSinkWriter okSink true).trace =
      true ∧
    ((MultiDevice.ConfigureSinkWriter okSink true).trace.any isBeginWriting = true →
      ∀ ev ∈ (MultiDevice.ConfigureSinkWriter okSink true).trace, ∀ hr,
        configResult ev = some hr → SUCCEEDED hr = true) ∧
    ∃ hr, (MultiDevice.ConfigureSinkWriter okSink true).result = some hr ∧
      (SUCCEEDED hr = true ↔
        ∃ hrB, Event.BeginWriting hrB ∈ (MultiDevice.ConfigureSinkWriter okSink true).trace ∧
          SUCCEEDED hrB = true) :=
  ⟨by decide, configureSinkWriter_beginWriting okSink true (by decide)⟩

/-! ### The capture loop of `VideoAudio8`: failures end the loop -/

/-- One stream's read and write: a failed call is the last capture call made, and a
part that did not leave the loop made no failed call. -/
theorem captureStream_failure (clock : Nat → Int) (w : Bool) (k : StreamKind) (d : Option Int)
    (r : ReadResult) (hrWrite : HRESULT) (st : LoopState) :
    noneAfter isFailedCaptureCall isCaptureCall
      (VideoAudio8.captureStream clock w k d r hrWrite st).trace = true ∧
    ((VideoAudio8.captureStream clock w k d r hrWrite st).broke = false →
      ∀ ev ∈ (VideoAudio8.captureStream clock w k d r hrWrite st).trace,
        isFailedCaptureCall ev = false) := by
  unfold VideoAudio8.captureStream VideoAudio8.writeSample
  cases w <;> cases hs : r.sample <;> cases hf : FAILED r.hr <;> cases hw : FAILED hrWrite <;>
    by_cases he : r.flags &&& MF_SOURCE_READERF_ENDOFSTREAM = 0 <;>
    simp [noneAfter, isFailedCaptureCall, isCaptureCall, isFailedReadSample,
      isFailedWriteSample, isReadSample, isWriteSample, hs, hf, hw, he]

theorem anchorStartTime_no_capture (clock : Nat → Int) (st : LoopState) :
    ∀ ev ∈ (VideoAudio8.anchorStartTime clock st).trace, isFailedCaptureCall ev = false := by
  unfold VideoAudio8.anchorStartTime
  split_ifs <;>
    simp [isFailedCaptureCall, isFailedReadSample, isFailedWriteSample]

/-- One iteration: a failed call is the last capture call of the iteration, and an
iteration that did not leave the loop with `break` made no failed call. -/
theorem captureFrame_failure (clock : Nat → Int) (a w : Bool) (e : FrameEnv) (st : LoopState) :
    noneAfter isFailedCaptureCall isCaptureCall
      (VideoAudio8.captureFrame clock a w e st).trace = true ∧
    ((VideoAudio8.captureFrame clock a w e st).broke = false →
      ∀ ev ∈ (VideoAudio8.captureFrame clock a w e st).trace,
        isFailedCaptureCall ev = false) := by
  have hA := anchorStartTime_no_capture clock st
  obtain ⟨hV1, hV2⟩ := captureStream_failure clock w StreamKind.video
    (some VideoAudio8.llFrameDuration) e.videoRead e.videoWrite
    (VideoAudio8.anchorStartTime clock st).state
  obtain ⟨hU1, hU2⟩ := captureStream_failure clock w StreamKind.audio none e.audioRead
    e.audioWrite
    (VideoAudio8.captureStream clock w StreamKind.video (some VideoAudio8.llFrameDuration)
      e.videoRead e.videoWrite (VideoAudio8.anchorStartTime clock st).state).state
  unfold VideoAudio8.captureFrame
  dsimp only
  generalize VideoAudio8.anchorStartTime clock st = A at *
  generalize VideoAudio8.captureStream clock w StreamKind.video
    (some VideoAudio8.llFrameDuration) e.videoRead e.videoWrite A.state = V at *
  generalize VideoAudio8.captureStream clock w StreamKind.audio none e.audioRead
    e.audioWrite V.state = U at *
  have hsleep : ∀ ev ∈ [Event.sleep_for 1000000], isFailedCaptureCall ev = false := by
    simp [isFailedCaptureCall, isFailedReadSample, isFailedWriteSample]
  cases hvb : V.broke
  · -- the video part made no failed call
    have hVn := hV2 hvb
    have hAV : ∀ ev ∈ A.trace ++ V.trace, isFailedCaptureCall ev = false := by
      intro ev hev
      rcases List.mem_append.mp hev with h | h
      · exact hA ev h
      · exact hVn ev h
    cases hvc : V.crashed
    · cases a
      · simp only [Bool.or_self, Bool.false_eq_true, if_false]
        have hall : ∀ ev ∈ A.trace ++ V.trace ++ [Event.sleep_for 1000000],
            isFailedCaptureCall ev = false := by
          intro ev hev
          rcases List.mem_append.mp hev with h | h
          · exact hAV ev h
          · exact hsleep ev h
        exact ⟨noneAfter_of_none _ _ _ hall, fun _ => hall⟩
      · simp only [Bool.or_self, Bool.false_eq_true, if_false, if_true]
        cases hub : U.broke
        · have hUn := hU2 hub
          have hAVU : ∀ ev ∈ A.trace ++ V.trace ++ U.trace, isFailedCaptureCall ev = false := by
            intro ev hev
            rcases List.mem_append.mp hev with h | h
            · exact hAV ev h
            · exact hUn ev h
          cases huc : U.crashed
          · simp only [Bool.or_self, Bool.false_eq_true, if_false]
            have hall : ∀ ev ∈ A.trace ++ V.trace ++ U.trace ++ [Event.sleep_for 1000000],
                isFailedCaptureCall ev = false := by
              intro ev hev
              rcases List.mem_append.mp hev with h | h
              · exact hAVU ev h
              · exact hsleep ev h
            exact ⟨noneAfter_of_none _ _ _ hall, fun _ => hall⟩
          · simp only [Bool.or_false, if_true]
            exact ⟨noneAfter_of_none _ _ _ hAVU, fun _ => hAVU⟩
        · simp only [Bool.or_true, if_true]
          refine ⟨?_, by simp⟩
          rw [noneAfter_append_of_none _ _ _ _ hAV]
          exact hU1
    · simp only [Bool.or_false, if_true]
      exact ⟨noneAfter_of_none _ _ _ hAV, fun _ => hAV⟩
  · simp only [Bool.or_true, if_true]
    refine ⟨?_, by simp⟩
    rw [noneAfter_append_of_none _ _ _ _ hA]
    exact hV1

/-- The whole loop: nothing is read or written after a failed call. -/
theorem captureLoop_failure (clock : Nat → Int) (a w : Bool) :
    ∀ (frames : List FrameEnv) (st : LoopState),
      noneAfter isFailedCaptureCall isCaptureCall
        (VideoAudio8.captureLoop clock a w frames st).trace = true := by
  intro frames
  induction frames with
  | nil =>
      intro st
      rfl
  | cons e rest ih =>
      intro st
      obtain ⟨h1, h2⟩ := captureFrame_failure clock a w e st
      unfold VideoAudio8.captureLoop
      dsimp only
      cases hc : (VideoAudio8.captureFrame clock a w e st).crashed
      · cases hb : (VideoAudio8.captureFrame clock a w e st).broke
        · simp only [Bool.false_eq_true, if_false]
          rw [noneAfter_append_of_none _ _ _ _ (h2 hb)]
          exact ih _
        · simpa using h1
      · simpa using h1

/-- Claim C5. In `CaptureFrames` of `8_Video_Audio_Recording_WMF`, once a `ReadSample` or
`WriteSample` call on either stream returns a failure, the loop ends in that same
iteration: an iteration that made a failed call leaves the loop with `break`, so
however the run is cut at a failed call, no `ReadSample` or `WriteSample` call on any
stream comes after it. -/
theorem captureFrames_ends_at_first_failure (clock : Nat → Int)
    (pAudioSourceReader pSinkWriter : Bool) (frames : List FrameEnv) :
    (∀ (e : FrameEnv) (st : LoopState),
      (∃ ev ∈ (VideoAudio8.captureFrame clock pAudioSourceReader pSinkWriter e st).trace,
        isFailedCaptureCall ev = true) →
      (VideoAudio8.captureFrame clock pAudioSourceReader pSinkWriter e st).broke = true) ∧
    ∀ pre ev post,
      (VideoAudio8.CaptureFrames clock pAudioSourceReader pSinkWriter frames).trace =
        pre ++ ev :: post →
      isFailedCaptureCall ev = true → ∀ x ∈ post, isCaptureCall x = false := by
  constructor
  · rintro e st ⟨ev, hev, hfail⟩
    cases hb : (VideoAudio8.captureFrame clock pAudioSourceReader pSinkWriter e st).broke
    · have := (captureFrame_failure clock pAudioSourceReader pSinkWriter e st).2 hb ev hev
      rw [this] at hfail
      cases hfail
    · rfl
  · rw [← noneAfter_iff]
    unfold VideoAudio8.CaptureFrames
    dsimp only
    have h := captureLoop_failure clock pAudioSourceReader pSinkWriter frames ⟨0, 0⟩
    simp [noneAfter, isFailedCaptureCall, isFailedReadSample, isFailedWriteSample, h]

theorem captureFrames_ends_at_first_failure_witness :
    (VideoAudio8.CaptureFrames tickingClock true true [audioWriteFails, goodFrame]).trace =
      [Event.CaptureFrames,
        Event.MFGetSystemTime 1,
        Event.ReadSample StreamKind.video S_OK 0 true,
        Event.MFGetSystemTime 2,
        Event.WriteSample StreamKind.video 1 (some 666666) S_OK,
        Event.ReadSample StreamKind.audio S_OK 0 true,
        Event.MFGetSystemTime 3,
        Event.WriteSample StreamKind.audio 2 none E_FAIL] ∧
    (VideoAudio8.captureFrame tickingClock true true audioWriteFails ⟨0, 0⟩).broke = true :=
  ⟨by decide,
    (captureFrames_ends_at_first_failure tickingClock true true []).1 audioWriteFails ⟨0, 0⟩
      ⟨Event.WriteSample StreamKind.audio 2 none E_FAIL, by decide, by decide⟩⟩

/-! ### `VideoAudio8.StartRecording`: `Finalize` -/

theorem configureConservativeMediaType_no_finalize (e : VideoTypeEnv) :
    ∀ ev ∈ (VideoAudio8.ConfigureConservativeMediaType e).trace, isFinalize ev = false := by
  unfold VideoAudio8.ConfigureConservativeMediaType
  dsimp only
  split_ifs <;> simp [isFinalize]

theorem configureAudioMediaType_no_finalize (e : AudioTypeEnv) :
    ∀ ev ∈ (VideoAudio8.ConfigureAudioMediaType e).trace, isFinalize ev = false := by
  unfold VideoAudio8.ConfigureAudioMediaType
  dsimp only
  split_ifs <;> simp [isFinalize]

/-- A property of a conditional follows from the property of its two branches. -/
theorem ite_cases {α : Type} (P : α → Prop) (c : Prop) [Decidable c] (a b : α)
    (ha : c → P a) (hb : ¬c → P b) : P (if c then a else b) := by
  split
  · exact ha ‹_›
  · exact hb ‹_›

theorem configureSinkWriter_no_finalize (e : SinkWriterEnv) (pAudioType : Bool) :
    ∀ ev ∈ (VideoAudio8.ConfigureSinkWriter e pAudioType).trace, isFinalize ev = false := by
  unfold VideoAudio8.ConfigureSinkWriter VideoAudio8.beginWriting
  dsimp only
  repeat'
    (refine ite_cases
        (fun r : VideoAudio8.SinkResult => ∀ ev ∈ r.trace, isFinalize ev = false) _ _ _
        (fun _ => ?_) (fun _ => ?_))
  all_goals simp [isFinalize]

/-- A successful `ConfigureSinkWriter` leaves the sink writer pointer non-null. -/
theorem configureSinkWriter_success_writer (e : SinkWriterEnv) (pAudioType : Bool)
    (h : SUCCEEDED (VideoAudio8.ConfigureSinkWriter e pAudioType).hr = true) :
    (VideoAudio8.ConfigureSinkWriter e pAudioType).sinkWriter = true := by
  revert h
  unfold VideoAudio8.ConfigureSinkWriter VideoAudio8.beginWriting
  dsimp only
  repeat'
    (refine ite_cases
        (fun r : VideoAudio8.SinkResult => SUCCEEDED r.hr = true → r.sinkWriter = true) _ _ _
        (fun _ => ?_) (fun _ => ?_))
  all_goals simp_all [FAILED, SUCCEEDED]

/-- One stream's read and write: no `Finalize` call, and no null dereference when
the sink writer pointer is non-null. -/
theorem captureStream_no_finalize (clock : Nat → Int) (w : Bool) (k : StreamKind)
    (d : Option Int) (r : ReadResult) (hrWrite : HRESULT) (st : LoopState) :
    (∀ ev ∈ (VideoAudio8.captureStream clock w k d r hrWrite st).trace, isFinalize ev = false) ∧
    (w = true → (VideoAudio8.captureStream clock w k d r hrWrite st).crashed = false) := by
  unfold VideoAudio8.captureStream VideoAudio8.writeSample
  dsimp only
  split_ifs <;> simp_all [isFinalize]

theorem captureFrame_no_finalize (clock : Nat → Int) (a w : Bool) (e : FrameEnv)
    (st : LoopState) :
    (∀ ev ∈ (VideoAudio8.captureFrame clock a w e st).trace, isFinalize ev = false) ∧
    (w = true → (VideoAudio8.captureFrame clock a w e st).crashed = false) := by
  have hA : ∀ ev ∈ (VideoAudio8.anchorStartTime clock st).trace, isFinalize ev = false := by
    unfold VideoAudio8.anchorStartTime
    split_ifs <;> simp [isFinalize]
  obtain ⟨hV1, hV2⟩ := captureStream_no_finalize clock w StreamKind.video
    (some VideoAudio8.llFrameDuration) e.videoRead e.videoWrite
    (VideoAudio8.anchorStartTime clock st).state
  obtain ⟨hU1, hU2⟩ := captureStream_no_finalize clock w StreamKind.audio none e.audioRead
    e.audioWrite
    (VideoAudio8.captureStream clock w StreamKind.video (some VideoAudio8.llFrameDuration)
      e.videoRead e.videoWrite (VideoAudio8.anchorStartTime clock st).state).state
  unfold VideoAudio8.captureFrame
  dsimp only
  generalize VideoAudio8.anchorStartTime clock st = A at *
  generalize VideoAudio8.captureStream clock w StreamKind.video
    (some VideoAudio8.llFrameDuration) e.videoRead e.videoWrite A.state = V at *
  generalize VideoAudio8.captureStream clock w StreamKind.audio none e.audioRead
    e.audioWrite V.state = U at *
  constructor
  · intro ev hev
    have hmem : ev ∈ A.trace ∨ ev ∈ V.trace ∨ ev ∈ U.trace ∨ ev = Event.sleep_for 1000000 := by
      revert hev
      split_ifs <;> simp only [List.mem_append, List.mem_singleton] <;> tauto
    rcases hmem with h | h | h | h
    · exact hA ev h
    · exact hV1 ev h
    · exact hU1 ev h
    · subst h
      rfl
  · intro hw
    have h1 := hV2 hw
    have h2 := hU2 hw
    split_ifs <;> simp_all

/-- The loop makes no `Finalize` call, and it does not crash when the sink writer
pointer is non-null. -/
theorem captureLoop_no_finalize (clock : Nat → Int) (a w : Bool) :
    ∀ (frames : List FrameEnv) (st : LoopState),
      (∀ ev ∈ (VideoAudio8.captureLoop clock a w frames st).trace, isFinalize ev = false) ∧
      (w = true → (VideoAudio8.captureLoop clock a w frames st).crashed = false) := by
  intro frames
  induction frames with
  | nil =>
      intro st
      simp [VideoAudio8.captureLoop]
  | cons e rest ih =>
      intro st
      obtain ⟨h1, h2⟩ := captureFrame_no_finalize clock a w e st
      obtain ⟨ih1, ih2⟩ := ih (VideoAudio8.captureFrame clock a w e st).state
      unfold VideoAudio8.captureLoop
      dsimp only
      split_ifs with hc hb
      · exact ⟨h1, fun hw => by simp [h2 hw] at hc⟩
      · exact ⟨h1, fun _ => rfl⟩
      · refine ⟨?_, ih2⟩
        intro ev hev
        rcases List.mem_append.mp hev with h | h
        · exact h1 ev h
        · exact ih1 ev h

theorem captureFrames_no_finalize (clock : Nat → Int) (a w : Bool) (frames : List FrameEnv) :
    (∀ ev ∈ (VideoAudio8.CaptureFrames clock a w frames).trace, isFinalize ev = false) ∧
    (w = true → (VideoAudio8.CaptureFrames clock a w frames).crashed = false) := by
  obtain ⟨h1, h2⟩ := captureLoop_no_finalize clock a w frames ⟨0, 0⟩
  unfold VideoAudio8.CaptureFrames
  dsimp only
  refine ⟨?_, h2⟩
  intro ev hev
  rcases List.mem_cons.mp hev with h | h
  · subst h
    rfl
  · exact h1 ev h

theorem setUpAudio_no_finalize (e : SessionEnv) (t : List Event) (s : VideoAudio8.Sources)
    (ht : ∀ ev ∈ t, isFinalize ev = false) (h : VideoAudio8.setUpAudio e t = Except.ok s) :
    ∀ ev ∈ s.trace, isFinalize ev = false := by
  have ha := configureAudioMediaType_no_finalize e.audioType
  unfold VideoAudio8.setUpAudio at h
  dsimp only at h
  cases hd : e.audioEnum.ppDevices with
  | nil =>
      rw [hd] at h
      dsimp only at h
      split_ifs at h
      simp only [Except.ok.injEq] at h
      subst h
      intro ev hev
      rcases List.mem_append.mp hev with h' | h'
      · exact ht ev h'
      · simp only [List.mem_singleton] at h'
        subst h'
        rfl
  | cons d rest =>
      rw [hd] at h
      dsimp only at h
      split_ifs at h
      simp only [Except.ok.injEq] at h
      subst h
      intro ev hev
      simp only [List.mem_append, List.mem_singleton] at hev
      rcases hev with (((h' | h') | h') | h') | h'
      · exact ht ev h'
      · subst h'
        rfl
      · subst h'
        rfl
      · subst h'
        rfl
      · exact ha ev h'

theorem setUpSources_no_finalize (e : SessionEnv) (s : VideoAudio8.Sources)
    (h : VideoAudio8.setUpSources e = Except.ok s) :
    ∀ ev ∈ s.trace, isFinalize ev = false := by
  have hv := configureConservativeMediaType_no_finalize e.videoType
  unfold VideoAudio8.setUpSources at h
  dsimp only at h
  cases hd : e.videoEnum.ppDevices with
  | nil =>
      rw [hd] at h
      dsimp only at h
      split_ifs at h
  | cons d rest =>
      rw [hd] at h
      dsimp only at h
      split_ifs at h
      refine setUpAudio_no_finalize e _ s ?_ h
      intro ev hev
      simp only [List.mem_append, List.mem_singleton, List.mem_cons, List.not_mem_nil,
        or_false] at hev
      rcases hev with ((h' | h') | h') | h'
      · subst h'
        rfl
      · subst h'
        rfl
      · subst h'
        rfl
      · exact hv ev h'

/-- Claim C3, as amended. In `8_Video_Audio_Recording_WMF`, once the sources were set up
and `ConfigureSinkWriter` has succeeded, for every finite run of the capture loop: when
the loop ended because the recording flag was cleared, or was left with `break` and
Enter is pressed afterwards, `StartRecording` returns and its last call is the one
`Finalize` call of the session: no `Finalize` comes before it, every `WriteSample` call
precedes it, and no call on the sink writer follows it. When the loop was left with
`break` and Enter is not pressed, `StartRecording` stays in `keyPressThread.join()`: it
does not return and makes no `Finalize` call. -/
theorem startRecording_finalizes_exactly_once (e : SessionEnv) (enterPressed : Bool)
    (s : VideoAudio8.Sources)
    (hs : VideoAudio8.setUpSources e = Except.ok s)
    (hc : SUCCEEDED (VideoAudio8.ConfigureSinkWriter e.sink s.pSelectedAudioType).hr = true) :
    ((VideoAudio8.CaptureFrames e.clock s.pAudioSourceReader true e.frames).waitsForEnter =
          false ∨ enterPressed = true →
      (VideoAudio8.StartRecording e enterPressed).returned = true ∧
      (VideoAudio8.StartRecording e enterPressed).crashed = false ∧
      ((VideoAudio8.StartRecording e enterPressed).trace.filter isFinalize).length = 1 ∧
      ∃ pre, (VideoAudio8.StartRecording e enterPressed).trace =
          pre ++ [Event.Finalize e.Finalize] ∧
        ∀ ev ∈ pre, isFinalize ev = false) ∧
    ((VideoAudio8.CaptureFrames e.clock s.pAudioSourceReader true e.frames).waitsForEnter =
          true → enterPressed = false →
      (VideoAudio8.StartRecording e enterPressed).returned = false ∧
      (VideoAudio8.StartRecording e enterPressed).crashed = false ∧
      (VideoAudio8.StartRecording e enterPressed).trace.filter isFinalize = []) := by
  have hw := configureSinkWriter_success_writer e.sink s.pSelectedAudioType hc
  have hnf : FAILED (VideoAudio8.ConfigureSinkWriter e.sink s.pSelectedAudioType).hr = false := by
    rw [FAILED_eq_not_SUCCEEDED, hc]
    rfl
  obtain ⟨hf1, hf2⟩ := captureFrames_no_finalize e.clock s.pAudioSourceReader true e.frames
  have hf2 := hf2 rfl
  have hpre : ∀ ev ∈ s.trace ++
      (VideoAudio8.ConfigureSinkWriter e.sink s.pSelectedAudioType).trace ++
      (VideoAudio8.CaptureFrames e.clock s.pAudioSourceReader true e.frames).trace,
      isFinalize ev = false := by
    intro ev hev
    simp only [List.mem_append] at hev
    rcases hev with (h | h) | h
    · exact setUpSources_no_finalize e s hs ev h
    · exact configureSinkWriter_no_finalize _ _ ev h
    · exact hf1 ev h
  constructor
  · intro henter
    have hgo : ((VideoAudio8.CaptureFrames e.clock s.pAudioSourceReader true
        e.frames).waitsForEnter && !enterPressed) = false := by
      rcases henter with h | h <;> simp [h]
    have hrun : VideoAudio8.StartRecording e enterPressed =
        ⟨s.trace ++ (VideoAudio8.ConfigureSinkWriter e.sink s.pSelectedAudioType).trace ++
          (VideoAudio8.CaptureFrames e.clock s.pAudioSourceReader true e.frames).trace ++
          [Event.Finalize e.Finalize], false, true⟩ := by
      unfold VideoAudio8.StartRecording
      rw [hs]
      simp [VideoAudio8.recordSession, hnf, hw, hf2, hgo]
    rw [hrun]
    refine ⟨rfl, rfl, ?_, _, rfl, hpre⟩
    rw [List.filter_append, List.filter_eq_nil_iff.mpr (fun ev hev => by simp [hpre ev hev])]
    rfl
  · intro hwait hno
    have hrun : VideoAudio8.StartRecording e enterPressed =
        ⟨s.trace ++ (VideoAudio8.ConfigureSinkWriter e.sink s.pSelectedAudioType).trace ++
          (VideoAudio8.CaptureFrames e.clock s.pAudioSourceReader true e.frames).trace,
          false, false⟩ := by
      unfold VideoAudio8.StartRecording
      rw [hs]
      simp [VideoAudio8.recordSession, hnf, hw, hf2, hwait, hno]
    rw [hrun]
    exact ⟨rfl, rfl, List.filter_eq_nil_iff.mpr (fun ev hev => by simp [hpre ev hev])⟩

theorem startRecording_finalizes_exactly_once_witness :
    (VideoAudio8.CaptureFrames audioWriteFailure.clock okSources.pAudioSourceReader true
      audioWriteFailure.frames).waitsForEnter = true ∧
    (VideoAudio8.StartRecording audioWriteFailure true).trace =
      okSources.trace ++
      [Event.MFCreateSinkWriterFromURL S_OK,
        Event.AddStream StreamKind.video S_OK,
        Event.AddStream StreamKind.audio S_OK,
        Event.SetInputMediaType StreamKind.video S_OK,
        Event.SetInputMediaType StreamKind.audio S_OK,
        Event.BeginWriting S_OK,
        Event.CaptureFrames,
        Event.MFGetSystemTime 1,
        Event.ReadSample StreamKind.video S_OK 0 true,
        Event.MFGetSystemTime 2,
        Event.WriteSample StreamKind.video 1 (some 666666) S_OK,
        Event.ReadSample StreamKind.audio S_OK 0 true,
        Event.MFGetSystemTime 3,
        Event.WriteSample StreamKind.audio 2 none E_FAIL,
        Event.Finalize S_OK] ∧
    ((VideoAudio8.StartRecording audioWriteFailure true).returned = true ∧
      (VideoAudio8.StartRecording audioWriteFailure true).crashed = false ∧
      ((VideoAudio8.StartRecording audioWriteFailure true).trace.filter isFinalize).length = 1 ∧
      ∃ pre, (VideoAudio8.StartRecording audioWriteFailure true).trace =
          pre ++ [Event.Finalize audioWriteFailure.Finalize] ∧
        ∀ ev ∈ pre, isFinalize ev = false) :=
  ⟨by decide, by decide,
    (startRecording_finalizes_exactly_once audioWriteFailure true okSources (by rfl)
      (by decide)).1 (Or.inr rfl)⟩

/-- Claim C3, as stated, fails: in the session whose first iteration ends in a failed
audio write, the loop is left with `break` while the key press thread still waits for
Enter; with Enter never pressed `StartRecording` does not return, and the session has
no `Finalize` call. -/
theorem startRecording_waits_for_enter :
    (VideoAudio8.StartRecording audioWriteFailure false).returned = false ∧
    (VideoAudio8.StartRecording audioWriteFailure false).trace =
      okSources.trace ++
      [Event.MFCreateSinkWriterFromURL S_OK,
        Event.AddStream StreamKind.video S_OK,
        Event.AddStream StreamKind.audio S_OK,
        Event.SetInputMediaType StreamKind.video S_OK,
        Event.SetInputMediaType StreamKind.audio S_OK,
        Event.BeginWriting S_OK,
        Event.CaptureFrames,
        Event.MFGetSystemTime 1,
        Event.ReadSample StreamKind.video S_OK 0 true,
        Event.MFGetSystemTime 2,
        Event.WriteSample StreamKind.video 1 (some 666666) S_OK,
        Event.ReadSample StreamKind.audio S_OK 0 true,
        Event.MFGetSystemTime 3,
        Event.WriteSample StreamKind.audio 2 none E_FAIL] ∧
    ((VideoAudio8.StartRecording audioWriteFailure false).trace.filter isFinalize).length = 0 := by
  decide

/-! ### The capture loop of `MultiDevice`: the time origin -/

theorem writeSample_startTime (clock : Nat → Int) (w : Bool) (k : StreamKind) (d : Option Int)
    (hr : HRESULT) (st : LoopState) :
    (MultiDevice.writeSample clock w k d hr st).state.startTime = st.startTime := by
  unfold MultiDevice.writeSample
  cases w <;> rfl

theorem captureVideo_startTime (clock : Nat → Int) (w : Bool) (e : FrameEnv) (st : LoopState) :
    (MultiDevice.captureVideo clock w e st).state.startTime = st.startTime := by
  unfold MultiDevice.captureVideo
  cases e.videoRead.sample
  · rfl
  · exact writeSample_startTime clock w _ _ _ st

theorem captureAudio_startTime (clock : Nat → Int) (a w : Bool) (e : FrameEnv)
    (st : LoopState) :
    (MultiDevice.captureAudio clock a w e st).state.startTime = st.startTime := by
  unfold MultiDevice.captureAudio
  cases a
  · rfl
  · cases e.audioRead.sample
    · rfl
    · exact writeSample_startTime clock w _ _ _ st

/-- What an iteration does to `startTime`: it takes the next clock reading when the
variable is zero and is left alone otherwise. -/
theorem captureFrame_startTime (clock : Nat → Int) (a w : Bool) (e : FrameEnv)
    (st : LoopState) :
    (MultiDevice.captureFrame clock a w e st).state.startTime =
      if st.startTime = 0 then clock st.clockCalls else st.startTime := by
  have hA : (MultiDevice.anchorStartTime clock st).state.startTime =
      if st.startTime = 0 then clock st.clockCalls else st.startTime := by
    unfold MultiDevice.anchorStartTime
    split_ifs <;> rfl
  have hV := captureVideo_startTime clock w e (MultiDevice.anchorStartTime clock st).state
  have hU := captureAudio_startTime clock a w e
    (MultiDevice.captureVideo clock w e (MultiDevice.anchorStartTime clock st).state).state
  unfold MultiDevice.captureFrame
  dsimp only
  by_cases hc : (MultiDevice.captureVideo clock w e
      (MultiDevice.anchorStartTime clock st).state).crashed = true
  · rw [if_pos hc]
    exact hV.trans hA
  · rw [if_neg hc]
    by_cases hd : (MultiDevice.captureAudio clock a w e
        (MultiDevice.captureVideo clock w e
          (MultiDevice.anchorStartTime clock st).state).state).crashed = true
    · rw [if_pos hd]
      exact hU.trans (hV.trans hA)
    · rw [if_neg hd]
      exact hU.trans (hV.trans hA)

/-- Once `startTime` holds a non-zero value, no iteration assigns it again. -/
theorem startTimeHistory_anchored (clock : Nat → Int) (a w : Bool) :
    ∀ (frames : List FrameEnv) (st : LoopState), st.startTime ≠ 0 →
      ∀ p ∈ MultiDevice.startTimeHistory clock a w frames st, p = (false, st.startTime) := by
  intro frames
  induction frames with
  | nil =>
      intro st _ p hp
      simp [MultiDevice.startTimeHistory] at hp
  | cons e rest ih =>
      intro st hst p hp
      have hf := captureFrame_startTime clock a w e st
      rw [if_neg hst] at hf
      unfold MultiDevice.startTimeHistory at hp
      dsimp only at hp
      have hentry : (decide (st.startTime = 0),
          (MultiDevice.captureFrame clock a w e st).state.startTime) = (false, st.startTime) := by
        rw [hf]
        simp [hst]
      split_ifs at hp
      · simp only [List.mem_singleton] at hp
        rw [hp, hentry]
      · rcases List.mem_cons.mp hp with h | h
        · rw [h, hentry]
        · have := ih (MultiDevice.captureFrame clock a w e st).state (by rw [hf]; exact hst) p h
          rw [this, hf]

/-- Claim C11, as amended. In `CaptureFrames` of the multi-device program, when the
first `MFGetSystemTime` reading is non-zero, `startTime` is assigned at most once per
session, in the first loop iteration, and it holds that first reading at the end of
every iteration. -/
theorem startTime_assigned_once (clock : Nat → Int) (pAudioSourceReader pSinkWriter : Bool)
    (frames : List FrameEnv) (hnz : clock 0 ≠ 0) :
    ((MultiDevice.startTimeHistory clock pAudioSourceReader pSinkWriter frames ⟨0, 0⟩).filter
      Prod.fst).length ≤ 1 ∧
    (∀ p ∈ (MultiDevice.startTimeHistory clock pAudioSourceReader pSinkWriter frames
      ⟨0, 0⟩).tail, p.1 = false) ∧
    ∀ p ∈ MultiDevice.startTimeHistory clock pAudioSourceReader pSinkWriter frames ⟨0, 0⟩,
      p.2 = clock 0 := by
  cases frames with
  | nil => simp [MultiDevice.startTimeHistory]
  | cons e rest =>
      have hf := captureFrame_startTime clock pAudioSourceReader pSinkWriter e ⟨0, 0⟩
      simp only [if_true] at hf
      have hrest := startTimeHistory_anchored clock pAudioSourceReader pSinkWriter rest
        (MultiDevice.captureFrame clock pAudioSourceReader pSinkWriter e ⟨0, 0⟩).state
        (by rw [hf]; exact hnz)
      rw [hf] at hrest
      unfold MultiDevice.startTimeHistory
      dsimp only
      rw [hf]
      split_ifs
      · simp
      · refine ⟨?_, ?_, ?_⟩
        · have hnil : (MultiDevice.startTimeHistory clock pAudioSourceReader pSinkWriter rest
              (MultiDevice.captureFrame clock pAudioSourceReader pSinkWriter e
                ⟨0, 0⟩).state).filter Prod.fst = [] := by
            rw [List.filter_eq_nil_iff]
            intro p hp
            rw [hrest p hp]
            simp
          simp [List.filter_cons, hnil]
        · intro p hp
          simp only [List.tail_cons] at hp
          rw [hrest p hp]
        · intro p hp
          rcases List.mem_cons.mp hp with h | h
          · rw [h]
          · rw [hrest p h]

theorem startTime_assigned_once_witness :
    MultiDevice.startTimeHistory tickingClock true true [goodFrame, goodFrame] ⟨0, 0⟩ =
      [(true, 1), (false, 1)] ∧
    (((MultiDevice.startTimeHistory tickingClock true true [goodFrame, goodFrame] ⟨0, 0⟩).filter
      Prod.fst).length ≤ 1 ∧
    (∀ p ∈ (MultiDevice.startTimeHistory tickingClock true true [goodFrame, goodFrame]
      ⟨0, 0⟩).tail, p.1 = false) ∧
    ∀ p ∈ MultiDevice.startTimeHistory tickingClock true true [goodFrame, goodFrame] ⟨0, 0⟩,
      p.2 = tickingClock 0) :=
  ⟨by decide, startTime_assigned_once tickingClock true true [goodFrame, goodFrame] (by decide)⟩

/-- Claim C11, as stated, fails when the first reading is zero: `startTime` is then
assigned in the first iteration and again in the second, where it changes from 0
to 3. -/
theorem startTime_assigned_twice :
    MultiDevice.startTimeHistory clockFromZero true true [goodFrame, goodFrame] ⟨0, 0⟩ =
      [(true, 0), (true, 3)] ∧
    ¬ ((MultiDevice.startTimeHistory clockFromZero true true [goodFrame, goodFrame]
      ⟨0, 0⟩).filter Prod.fst).length ≤ 1 := by
  decide

theorem writtenTime_pace (frameTime : Nat) :
    (MultiDevice.pace frameTime).filterMap writtenTime = [] := by
  unfold MultiDevice.pace
  cases MultiDevice.frameWait frameTime <;> simp [writtenTime]

/-- An iteration entered before anything was written, with the origin unset or just
set: either its first write carries the second reading minus the first, or it writes
nothing and, unless it crashed, leaves the origin set and the clock read once. -/
theorem captureFrame_first_sample (clock : Nat → Int) (a w : Bool) (e : FrameEnv)
    (st : LoopState) (hnz : clock 0 ≠ 0) (hst : st = ⟨0, 0⟩ ∨ st = ⟨clock 0, 1⟩) :
    ((MultiDevice.captureFrame clock a w e st).trace.filterMap writtenTime).head? =
        some (toLONGLONG (clock 1 - clock 0)) ∨
    ((MultiDevice.captureFrame clock a w e st).trace.filterMap writtenTime = [] ∧
      ((MultiDevice.captureFrame clock a w e st).crashed = true ∨
        (MultiDevice.captureFrame clock a w e st).state = ⟨clock 0, 1⟩)) := by
  rcases hst with h | h <;> subst h <;>
    cases hv : e.videoRead.sample <;> cases ha : e.audioRead.sample <;> cases a <;> cases w <;>
    simp [MultiDevice.captureFrame, MultiDevice.anchorStartTime, MultiDevice.captureVideo,
      MultiDevice.captureAudio, MultiDevice.writeSample, writtenTime, writtenTime_pace, hv, ha,
      hnz]

/-- The loop, entered before anything was written: the first write, if there is one,
carries the second clock reading minus the first. -/
theorem captureLoop_first_sample (clock : Nat → Int) (a w : Bool) (hnz : clock 0 ≠ 0) :
    ∀ (frames : List FrameEnv) (st : LoopState), (st = ⟨0, 0⟩ ∨ st = ⟨clock 0, 1⟩) →
      ∀ t, firstSampleTime (MultiDevice.captureLoop clock a w frames st).trace = some t →
        t = toLONGLONG (clock 1 - clock 0) := by
  intro frames
  induction frames with
  | nil =>
      intro st _ t ht
      simp [MultiDevice.captureLoop, firstSampleTime] at ht
  | cons e rest ih =>
      intro st hst t ht
      have hf := captureFrame_first_sample clock a w e st hnz hst
      unfold MultiDevice.captureLoop at ht
      dsimp only at ht
      unfold firstSampleTime at ht
      by_cases hc : (MultiDevice.captureFrame clock a w e st).crashed = true
      · rw [if_pos hc] at ht
        dsimp only at ht
        rcases hf with h | ⟨h, _⟩
        · rw [h] at ht
          exact (Option.some.inj ht).symm
        · rw [h] at ht
          cases ht
      · rw [if_neg hc] at ht
        dsimp only at ht
        rw [List.filterMap_append] at ht
        rcases hf with h | ⟨h, h'⟩
        · cases hl : (MultiDevice.captureFrame clock a w e st).trace.filterMap writtenTime with
          | nil =>
              rw [hl] at h
              cases h
          | cons x xs =>
              rw [hl] at h ht
              simp only [List.head?_cons, List.cons_append, Option.some.injEq] at h ht
              rw [← ht, h]
        · rw [h, List.nil_append] at ht
          rcases h' with h' | h'
          · exact absurd h' hc
          · exact ih _ (Or.inr h') t ht

/-- Claim C12, as amended. In `CaptureFrames` of the multi-device program the time
origin is the `MFGetSystemTime` reading taken at the top of the first loop iteration,
before any sample is read: when that reading is non-zero, the first sample written in
a session, whether it is a video or an audio sample, carries the second reading minus
the first, as a `LONGLONG`. -/
theorem first_sample_time (clock : Nat → Int) (pAudioSourceReader pSinkWriter : Bool)
    (frames : List FrameEnv) (hnz : clock 0 ≠ 0) (t : Int)
    (ht : firstSampleTime
      (MultiDevice.CaptureFrames clock pAudioSourceReader pSinkWriter frames).trace = some t) :
    t = toLONGLONG (clock 1 - clock 0) := by
  apply captureLoop_first_sample clock pAudioSourceReader pSinkWriter hnz frames ⟨0, 0⟩
    (Or.inl rfl) t
  unfold MultiDevice.CaptureFrames at ht
  dsimp only at ht
  unfold firstSampleTime at ht ⊢
  simpa [writtenTime] using ht

theorem first_sample_time_witness :
    firstSampleTime (MultiDevice.CaptureFrames tickingClock true true
      [audioOnlyFrame, goodFrame]).trace = some 1 ∧
    (1 : Int) = toLONGLONG (tickingClock 1 - tickingClock 0) :=
  ⟨by decide,
    first_sample_time tickingClock true true [audioOnlyFrame, goodFrame] (by decide) 1
      (by decide)⟩

/-- Claim C12, as stated, fails: with a clock that advances by one unit per reading,
the first sample written carries sample time 1, not 0, both when it is a video sample
and when it is an audio sample. -/
theorem first_sample_time_not_zero :
    (firstSampleTime (MultiDevice.CaptureFrames tickingClock true true [goodFrame]).trace =
        some 1 ∧
      (MultiDevice.CaptureFrames tickingClock true true [goodFrame]).trace.find? isWriteSample =
        some (Event.WriteSample StreamKind.video 1 (some 166666) S_OK)) ∧
    (firstSampleTime (MultiDevice.CaptureFrames tickingClock true true [audioOnlyFrame]).trace =
        some 1 ∧
      (MultiDevice.CaptureFrames tickingClock true true [audioOnlyFrame]).trace.find?
          isWriteSample =
        some (Event.WriteSample StreamKind.audio 1 none S_OK)) := by
  decide

/-! ### Double-precision arithmetic -/

theorem dyadic_eq (n e : Int) : dyadic n e = (n : ℚ) * (2 : ℚ) ^ e := by
  unfold dyadic
  rw [Rat.mkRat_eq_div]
  push_cast
  rcases le_or_lt 0 e with h | h
  · have h1 : (-e).toNat = 0 := Int.toNat_eq_zero.mpr (by omega)
    rw [h1, pow_zero, div_one]
    congr 1
    rw [← zpow_natCast, Int.toNat_of_nonneg h]
  · have h1 : e.toNat = 0 := Int.toNat_eq_zero.mpr (by omega)
    have h2 : ((-e).toNat : Int) = -e := Int.toNat_of_nonneg (by omega)
    rw [h1, pow_zero, mul_one, ← zpow_natCast, h2, zpow_neg, div_eq_mul_inv, inv_inv]

theorem bitLengthFrom_spec : ∀ (fuel n : Nat), n ≤ fuel → n ≠ 0 →
    1 ≤ bitLengthFrom fuel n ∧ 2 ^ (bitLengthFrom fuel n - 1) ≤ n ∧
      n < 2 ^ bitLengthFrom fuel n := by
  intro fuel
  induction fuel with
  | zero => intro n h0 hn; omega
  | succ fuel ih =>
      intro n hle hn
      rw [bitLengthFrom, if_neg hn]
      by_cases h2 : n / 2 = 0
      · have h1 : n = 1 := by omega
        subst h1
        have : bitLengthFrom fuel (1 / 2) = 0 := by
          cases fuel <;> simp [bitLengthFrom]
        rw [this]
        simp
      · obtain ⟨hb, hlo, hhi⟩ := ih (n / 2) (by omega) h2
        refine ⟨by omega, ?_, ?_⟩
        · have h3 : bitLengthFrom fuel (n / 2) + 1 - 1 = (bitLengthFrom fuel (n / 2) - 1) + 1 := by
            omega
          rw [h3, pow_succ]
          omega
        · rw [pow_succ]
          omega

theorem bitLength_spec (n : Nat) (hn : n ≠ 0) :
    1 ≤ bitLength n ∧ 2 ^ (bitLength n - 1) ≤ n ∧ n < 2 ^ bitLength n :=
  bitLengthFrom_spec n n (le_refl n) hn


theorem two_zpow_split (e : Int) :
    (2 : ℚ) ^ e * (2 : ℚ) ^ (-e).toNat = (2 : ℚ) ^ e.toNat := by
  rcases le_or_lt 0 e with h | h
  · have h1 : (-e).toNat = 0 := Int.toNat_eq_zero.mpr (by omega)
    rw [h1, pow_zero, mul_one, ← zpow_natCast, Int.toNat_of_nonneg h]
  · have h1 : e.toNat = 0 := Int.toNat_eq_zero.mpr (by omega)
    have h2 : ((-e).toNat : Int) = -e := Int.toNat_of_nonneg (by omega)
    rw [h1, pow_zero, ← zpow_natCast, h2, ← zpow_add₀ (by norm_num : (2 : ℚ) ≠ 0)]
    simp

theorem binade_spec (p q : Nat) (hp : p ≠ 0) (hq : q ≠ 0) :
    (2 : ℚ) ^ binade p q ≤ (p : ℚ) / q ∧ (p : ℚ) / q < (2 : ℚ) ^ (binade p q + 1) := by
  obtain ⟨ha1, halo, hahi⟩ := bitLength_spec p hp
  obtain ⟨hb1, hblo, hbhi⟩ := bitLength_spec q hq
  have hq0 : (0 : ℚ) < q := by exact_mod_cast Nat.pos_of_ne_zero hq
  have hp0 : (0 : ℚ) < p := by exact_mod_cast Nat.pos_of_ne_zero hp
  have halo' : (2 : ℚ) ^ ((bitLength p : Int) - 1) ≤ p := by
    have : ((bitLength p : Int) - 1) = ((bitLength p - 1 : Nat) : Int) := by omega
    rw [this, zpow_natCast]
    exact_mod_cast halo
  have hahi' : (p : ℚ) < (2 : ℚ) ^ (bitLength p : Int) := by
    rw [zpow_natCast]
    exact_mod_cast hahi
  have hblo' : (2 : ℚ) ^ ((bitLength q : Int) - 1) ≤ q := by
    have : ((bitLength q : Int) - 1) = ((bitLength q - 1 : Nat) : Int) := by omega
    rw [this, zpow_natCast]
    exact_mod_cast hblo
  have hbhi' : (q : ℚ) < (2 : ℚ) ^ (bitLength q : Int) := by
    rw [zpow_natCast]
    exact_mod_cast hbhi
  have h2 : ∀ k : Int, (0 : ℚ) < (2 : ℚ) ^ k := fun k => zpow_pos (by norm_num) k
  have hn : ∀ k : Nat, (0 : ℚ) < (2 : ℚ) ^ k := fun k => pow_pos (by norm_num) k
  have hsplit := two_zpow_split ((bitLength p : Int) - (bitLength q : Int))
  unfold binade
  dsimp only
  generalize hE : (bitLength p : Int) - (bitLength q : Int) = e at hsplit
  split_ifs with htest
  · have htest' : (q : ℚ) * (2 : ℚ) ^ e.toNat ≤ (p : ℚ) * (2 : ℚ) ^ (-e).toNat := by
      exact_mod_cast htest
    constructor
    · rw [le_div_iff₀ hq0]
      have : (2 : ℚ) ^ e * q * (2 : ℚ) ^ (-e).toNat ≤ p * (2 : ℚ) ^ (-e).toNat := by
        calc (2 : ℚ) ^ e * q * (2 : ℚ) ^ (-e).toNat
            = q * ((2 : ℚ) ^ e * (2 : ℚ) ^ (-e).toNat) := by ring
          _ = q * (2 : ℚ) ^ e.toNat := by rw [hsplit]
          _ ≤ p * (2 : ℚ) ^ (-e).toNat := htest'
      exact le_of_mul_le_mul_right this (hn _)
    · rw [div_lt_iff₀ hq0]
      have e1 : (2 : ℚ) ^ (e + 1) = (2 : ℚ) ^ (bitLength p : Int) *
          ((2 : ℚ) ^ ((bitLength q : Int) - 1))⁻¹ := by
        rw [← zpow_neg, ← zpow_add₀ (by norm_num : (2 : ℚ) ≠ 0)]
        congr 1
        omega
      rw [e1]
      calc (p : ℚ) < (2 : ℚ) ^ (bitLength p : Int) := hahi'
        _ = (2 : ℚ) ^ (bitLength p : Int) * ((2 : ℚ) ^ ((bitLength q : Int) - 1))⁻¹ *
              (2 : ℚ) ^ ((bitLength q : Int) - 1) := by
            field_simp
        _ ≤ (2 : ℚ) ^ (bitLength p : Int) * ((2 : ℚ) ^ ((bitLength q : Int) - 1))⁻¹ * q := by
            apply mul_le_mul_of_nonneg_left hblo'
            exact le_of_lt (mul_pos (h2 _) (inv_pos.mpr (h2 _)))
  · have htest' : (p : ℚ) * (2 : ℚ) ^ (-e).toNat < (q : ℚ) * (2 : ℚ) ^ e.toNat := by
      exact_mod_cast not_le.mp htest
    constructor
    · rw [le_div_iff₀ hq0]
      have e1 : (2 : ℚ) ^ (e - 1) = (2 : ℚ) ^ ((bitLength p : Int) - 1) *
          ((2 : ℚ) ^ (bitLength q : Int))⁻¹ := by
        rw [← zpow_neg, ← zpow_add₀ (by norm_num : (2 : ℚ) ≠ 0)]
        congr 1
        omega
      rw [e1]
      calc (2 : ℚ) ^ ((bitLength p : Int) - 1) * ((2 : ℚ) ^ (bitLength q : Int))⁻¹ * q
          ≤ (2 : ℚ) ^ ((bitLength p : Int) - 1) * ((2 : ℚ) ^ (bitLength q : Int))⁻¹ *
              (2 : ℚ) ^ (bitLength q : Int) := by
            apply mul_le_mul_of_nonneg_left (le_of_lt hbhi')
            exact le_of_lt (mul_pos (h2 _) (inv_pos.mpr (h2 _)))
        _ = (2 : ℚ) ^ ((bitLength p : Int) - 1) := by field_simp
        _ ≤ p := halo'
    · rw [div_lt_iff₀ hq0]
      have e1 : e - 1 + 1 = e := by omega
      rw [e1]
      have : (p : ℚ) * (2 : ℚ) ^ (-e).toNat < (2 : ℚ) ^ e * q * (2 : ℚ) ^ (-e).toNat := by
        calc (p : ℚ) * (2 : ℚ) ^ (-e).toNat < q * (2 : ℚ) ^ e.toNat := htest'
          _ = q * ((2 : ℚ) ^ e * (2 : ℚ) ^ (-e).toNat) := by rw [hsplit]
          _ = (2 : ℚ) ^ e * q * (2 : ℚ) ^ (-e).toNat := by ring
      exact lt_of_mul_lt_mul_right this (le_of_lt (hn _))

theorem divRoundEven_error (n d : Nat) (hd : d ≠ 0) :
    |((divRoundEven n d : Nat) : ℚ) - (n : ℚ) / d| ≤ 1 / 2 := by
  have hd0 : (0 : ℚ) < d := by exact_mod_cast Nat.pos_of_ne_zero hd
  have hdiv : (n : ℚ) / d = ((n / d : Nat) : ℚ) + ((n % d : Nat) : ℚ) / d := by
    rw [eq_comm, ← sub_eq_zero]
    field_simp
    have := Nat.div_add_mod n d
    have h' : ((d * (n / d) + n % d : Nat) : ℚ) = n := by rw [this]
    push_cast at h'
    linarith
  have hr : n % d < d := Nat.mod_lt n (Nat.pos_of_ne_zero hd)
  unfold divRoundEven
  dsimp only
  rw [hdiv]
  have key : ∀ x : Nat, (2 * (n % d) < d → x = n / d →
      |((x : Nat) : ℚ) - (((n / d : Nat) : ℚ) + ((n % d : Nat) : ℚ) / d)| ≤ 1 / 2) ∧
      (d ≤ 2 * (n % d) → x = n / d + 1 →
      |((x : Nat) : ℚ) - (((n / d : Nat) : ℚ) + ((n % d : Nat) : ℚ) / d)| ≤ 1 / 2) ∧
      (d = 2 * (n % d) → x = n / d →
      |((x : Nat) : ℚ) - (((n / d : Nat) : ℚ) + ((n % d : Nat) : ℚ) / d)| ≤ 1 / 2) := by
    intro x
    have hrd : ((n % d : Nat) : ℚ) / d < 1 := by
      rw [div_lt_one hd0]
      exact_mod_cast hr
    have hrd0 : (0 : ℚ) ≤ ((n % d : Nat) : ℚ) / d := by positivity
    refine ⟨?_, ?_, ?_⟩
    · intro h hx
      subst hx
      have : ((n % d : Nat) : ℚ) / d ≤ 1 / 2 := by
        rw [div_le_iff₀ hd0]
        have : ((2 * (n % d) : Nat) : ℚ) < d := by exact_mod_cast h
        push_cast at this
        linarith
      rw [abs_le]
      constructor <;> linarith
    · intro h hx
      subst hx
      have : (1 : ℚ) / 2 ≤ ((n % d : Nat) : ℚ) / d := by
        rw [le_div_iff₀ hd0]
        have : ((d : Nat) : ℚ) ≤ ((2 * (n % d) : Nat) : ℚ) := by exact_mod_cast h
        push_cast at this
        linarith
      push_cast
      rw [abs_le]
      constructor <;> linarith
    · intro h hx
      subst hx
      have : ((n % d : Nat) : ℚ) / d = 1 / 2 := by
        rw [div_eq_iff (ne_of_gt hd0)]
        have : ((d : Nat) : ℚ) = ((2 * (n % d) : Nat) : ℚ) := by exact_mod_cast h
        push_cast at this
        linarith
      rw [abs_le]
      constructor <;> linarith
  split_ifs with h1 h2 h3
  · exact (key _).1 h1 rfl
  · exact (key _).2.1 (le_of_lt h2) rfl
  · exact (key _).2.2 (by omega) rfl
  · exact (key _).2.1 (by omega) rfl

theorem le_divRoundEven (n d k : Nat) (hd : d ≠ 0) (h : k * d ≤ n) : k ≤ divRoundEven n d := by
  have hq : k ≤ n / d := (Nat.le_div_iff_mul_le (Nat.pos_of_ne_zero hd)).mpr h
  unfold divRoundEven
  dsimp only
  split_ifs <;> omega

theorem divRoundEven_le (n d k : Nat) (hd : d ≠ 0) (h : n ≤ k * d) : divRoundEven n d ≤ k := by
  have hd0 := Nat.pos_of_ne_zero hd
  rcases Nat.lt_or_ge n (k * d) with hlt | hge
  · have hq : n / d < k := (Nat.div_lt_iff_lt_mul hd0).mpr hlt
    unfold divRoundEven
    dsimp only
    split_ifs <;> omega
  · have hn : n = k * d := le_antisymm h hge
    subst hn
    unfold divRoundEven
    simp [Nat.mul_div_cancel _ hd0, hd0]

theorem divRoundEven_one (n : Nat) : divRoundEven n 1 = n := by
  unfold divRoundEven
  simp [Nat.mod_one]

/-- The value of a rounded quotient, for a positive numerator. -/
theorem round_pos (a q : Nat) (ha : a ≠ 0) (hq : q ≠ 0) :
    Double.round (a : Int) q =
      ⟨(divRoundEven (a * 2 ^ (-(max (binade a q - 52) (-1074))).toNat)
          (q * 2 ^ (max (binade a q - 52) (-1074)).toNat) : Nat),
        max (binade a q - 52) (-1074)⟩ := by
  unfold Double.round
  have h1 : ¬ ((a : Int) = 0 ∨ q = 0) := by
    intro h
    rcases h with h | h
    · exact ha (by exact_mod_cast h)
    · exact hq h
  rw [if_neg h1]
  have h2 : ¬ ((a : Int) < 0) := by omega
  simp only [Int.natAbs_ofNat, if_neg h2]

/-- The scaled quotient that is rounded to an integer. -/
theorem scaled_quotient (a q : Nat) (hq : q ≠ 0) (E : Int) :
    ((a * 2 ^ (-E).toNat : Nat) : ℚ) / ((q * 2 ^ E.toNat : Nat) : ℚ) * (2 : ℚ) ^ E =
      (a : ℚ) / q := by
  have hq0 : (q : ℚ) ≠ 0 := by exact_mod_cast hq
  have hs := two_zpow_split E
  have hn : ∀ k : Nat, (2 : ℚ) ^ k ≠ 0 := fun k => pow_ne_zero k (by norm_num)
  push_cast
  rw [← hs]
  have hz : (2 : ℚ) ^ E ≠ 0 := zpow_ne_zero E (by norm_num)
  field_simp
  ring

theorem round_error (a q : Nat) (ha : a ≠ 0) (hq : q ≠ 0) :
    |(Double.round (a : Int) q).toRat - (a : ℚ) / q| ≤
      (2 : ℚ) ^ ((Double.round (a : Int) q).exponent - 1) := by
  rw [round_pos a q ha hq]
  unfold Double.toRat
  dsimp only
  rw [dyadic_eq]
  generalize max (binade a q - 52) (-1074) = E
  have hE : (0 : ℚ) < (2 : ℚ) ^ E := zpow_pos (by norm_num) E
  have hd : q * 2 ^ E.toNat ≠ 0 := Nat.mul_ne_zero hq (pow_ne_zero _ (by norm_num))
  have herr := divRoundEven_error (a * 2 ^ (-E).toNat) (q * 2 ^ E.toNat) hd
  have hsc := scaled_quotient a q hq E
  rw [← hsc]
  rw [Int.cast_natCast, ← sub_mul, abs_mul, abs_of_pos hE]
  have : (2 : ℚ) ^ (E - 1) = 1 / 2 * (2 : ℚ) ^ E := by
    rw [zpow_sub₀ (by norm_num : (2 : ℚ) ≠ 0), zpow_one]
    ring
  rw [this]
  exact mul_le_mul_of_nonneg_right herr (le_of_lt hE)

/-- A whole multiple of the unit that is not above the quotient is not above the
rounded value either. -/
theorem le_round (a q k : Nat) (ha : a ≠ 0) (hq : q ≠ 0)
    (h : (k : ℚ) * (2 : ℚ) ^ (Double.round (a : Int) q).exponent ≤ (a : ℚ) / q) :
    (k : Int) ≤ (Double.round (a : Int) q).mantissa := by
  rw [round_pos a q ha hq] at h ⊢
  dsimp only at h ⊢
  generalize max (binade a q - 52) (-1074) = E at h ⊢
  have hE : (0 : ℚ) < (2 : ℚ) ^ E := zpow_pos (by norm_num) E
  have hd : q * 2 ^ E.toNat ≠ 0 := Nat.mul_ne_zero hq (pow_ne_zero _ (by norm_num))
  have hd0 : (0 : ℚ) < ((q * 2 ^ E.toNat : Nat) : ℚ) := by
    exact_mod_cast Nat.pos_of_ne_zero hd
  have hsc := scaled_quotient a q hq E
  rw [← hsc] at h
  have h' := le_of_mul_le_mul_right h hE
  rw [le_div_iff₀ hd0] at h'
  have h'' : k * (q * 2 ^ E.toNat) ≤ a * 2 ^ (-E).toNat := by exact_mod_cast h'
  exact_mod_cast le_divRoundEven _ _ k hd h''

theorem round_le (a q k : Nat) (ha : a ≠ 0) (hq : q ≠ 0)
    (h : (a : ℚ) / q ≤ (k : ℚ) * (2 : ℚ) ^ (Double.round (a : Int) q).exponent) :
    (Double.round (a : Int) q).mantissa ≤ (k : Int) := by
  rw [round_pos a q ha hq] at h ⊢
  dsimp only at h ⊢
  generalize max (binade a q - 52) (-1074) = E at h ⊢
  have hE : (0 : ℚ) < (2 : ℚ) ^ E := zpow_pos (by norm_num) E
  have hd : q * 2 ^ E.toNat ≠ 0 := Nat.mul_ne_zero hq (pow_ne_zero _ (by norm_num))
  have hd0 : (0 : ℚ) < ((q * 2 ^ E.toNat : Nat) : ℚ) := by
    exact_mod_cast Nat.pos_of_ne_zero hd
  have hsc := scaled_quotient a q hq E
  rw [← hsc] at h
  have h' := le_of_mul_le_mul_right h hE
  rw [div_le_iff₀ hd0] at h'
  have h'' : a * 2 ^ (-E).toNat ≤ k * (q * 2 ^ E.toNat) := by exact_mod_cast h'
  exact_mod_cast divRoundEven_le _ _ k hd h''

/-- The exponent of a rounded quotient below `2 ^ (k + 1)`. -/
theorem round_exponent_le (a q : Nat) (ha : a ≠ 0) (hq : q ≠ 0) (k : Int)
    (hk : -1074 ≤ k - 52) (h : (a : ℚ) / q < (2 : ℚ) ^ (k + 1)) :
    (Double.round (a : Int) q).exponent ≤ k - 52 := by
  rw [round_pos a q ha hq]
  dsimp only
  have hlo := (binade_spec a q ha hq).1
  have hlt : (2 : ℚ) ^ binade a q < (2 : ℚ) ^ (k + 1) := lt_of_le_of_lt hlo h
  have := (zpow_lt_zpow_iff_right₀ (by norm_num : (1 : ℚ) < 2)).mp hlt
  omega

/-- The unit of a rounded quotient is not above the quotient. -/
theorem unit_le (a q : Nat) (ha : a ≠ 0) (hq : q ≠ 0)
    (h : (2 : ℚ) ^ (-1074 : Int) ≤ (a : ℚ) / q) :
    (2 : ℚ) ^ (Double.round (a : Int) q).exponent ≤ (a : ℚ) / q := by
  rw [round_pos a q ha hq]
  dsimp only
  have hlo := (binade_spec a q ha hq).1
  rcases le_total (binade a q - 52) (-1074) with hc | hc
  · rw [max_eq_right hc]
    exact h
  · rw [max_eq_left hc]
    refine le_trans ?_ hlo
    exact (zpow_le_zpow_iff_right₀ (by norm_num : (1 : ℚ) < 2)).mpr (by omega)

theorem round_exponent (a q : Nat) (ha : a ≠ 0) (hq : q ≠ 0) :
    (Double.round (a : Int) q).exponent = max (binade a q - 52) (-1074) := by
  rw [round_pos a q ha hq]

theorem round_mantissa_nonneg (a q : Nat) : 0 ≤ (Double.round (a : Int) q).mantissa := by
  unfold Double.round
  split_ifs with h1 h2
  · exact le_refl 0
  · omega
  · exact Int.natCast_nonneg _

theorem round_toRat (p : Int) (q : Nat) :
    (Double.round p q).toRat =
      ((Double.round p q).mantissa : ℚ) * (2 : ℚ) ^ (Double.round p q).exponent := by
  unfold Double.toRat
  rw [dyadic_eq]

/-- Rounding does not cross a number of the form `j * 2 ^ F` with `j < 2 ^ 53`, a
double: from below. -/
theorem round_ge_of_representable (a q j : Nat) (F : Int) (ha : a ≠ 0) (hq : q ≠ 0)
    (hj : j < 2 ^ 53) (hF : -1074 ≤ F) (h : (j : ℚ) * (2 : ℚ) ^ F ≤ (a : ℚ) / q) :
    (j : ℚ) * (2 : ℚ) ^ F ≤ (Double.round (a : Int) q).toRat := by
  rw [round_toRat]
  have hexp := round_exponent a q ha hq
  have hlo := (binade_spec a q ha hq).1
  have h2 : ∀ k : Int, (0 : ℚ) < (2 : ℚ) ^ k := fun k => zpow_pos (by norm_num) k
  by_cases hEF : (Double.round (a : Int) q).exponent ≤ F
  · have hk : ((j * 2 ^ (F - (Double.round (a : Int) q).exponent).toNat : Nat) : ℚ) *
        (2 : ℚ) ^ (Double.round (a : Int) q).exponent = (j : ℚ) * (2 : ℚ) ^ F := by
      push_cast
      rw [mul_assoc, ← zpow_natCast, Int.toNat_of_nonneg (by omega),
        ← zpow_add₀ (by norm_num : (2 : ℚ) ≠ 0)]
      congr 2
      omega
    have := le_round a q _ ha hq (by rw [hk]; exact h)
    have hm : ((j * 2 ^ (F - (Double.round (a : Int) q).exponent).toNat : Nat) : ℚ) ≤
        ((Double.round (a : Int) q).mantissa : ℚ) := by exact_mod_cast this
    rw [← hk]
    exact mul_le_mul_of_nonneg_right hm (le_of_lt (h2 _))
  · have hE : (Double.round (a : Int) q).exponent = binade a q - 52 := by
      rw [hexp]
      rw [hexp] at hEF
      apply max_eq_left
      by_contra hc
      rw [max_eq_right (by omega)] at hEF
      omega
    have hk : ((2 ^ 52 : Nat) : ℚ) * (2 : ℚ) ^ (Double.round (a : Int) q).exponent =
        (2 : ℚ) ^ binade a q := by
      rw [hE]
      have h52 : ((2 ^ 52 : Nat) : ℚ) = (2 : ℚ) ^ (52 : Int) := by norm_num
      rw [h52, ← zpow_add₀ (by norm_num : (2 : ℚ) ≠ 0)]
      congr 1
      omega
    have := le_round a q (2 ^ 52) ha hq (by rw [hk]; exact hlo)
    have hm : ((2 ^ 52 : Nat) : ℚ) ≤ ((Double.round (a : Int) q).mantissa : ℚ) := by
      exact_mod_cast this
    have hj' : (j : ℚ) ≤ (2 : ℚ) ^ (53 : Int) := by
      have : (j : ℚ) < ((2 ^ 53 : Nat) : ℚ) := by exact_mod_cast hj
      have h53 : ((2 ^ 53 : Nat) : ℚ) = (2 : ℚ) ^ (53 : Int) := by norm_num
      linarith
    calc (j : ℚ) * (2 : ℚ) ^ F ≤ (2 : ℚ) ^ (53 : Int) * (2 : ℚ) ^ F :=
          mul_le_mul_of_nonneg_right hj' (le_of_lt (h2 _))
      _ = (2 : ℚ) ^ (53 + F) := by rw [← zpow_add₀ (by norm_num : (2 : ℚ) ≠ 0)]
      _ ≤ (2 : ℚ) ^ binade a q :=
          (zpow_le_zpow_iff_right₀ (by norm_num : (1 : ℚ) < 2)).mpr (by omega)
      _ = ((2 ^ 52 : Nat) : ℚ) * (2 : ℚ) ^ (Double.round (a : Int) q).exponent := hk.symm
      _ ≤ _ := mul_le_mul_of_nonneg_right hm (le_of_lt (h2 _))

/-- Rounding does not cross a double: from above. -/
theorem round_le_of_representable (a q j : Nat) (F : Int) (ha : a ≠ 0) (hq : q ≠ 0)
    (hj : j < 2 ^ 53) (hF : -1074 ≤ F) (h : (a : ℚ) / q ≤ (j : ℚ) * (2 : ℚ) ^ F) :
    (Double.round (a : Int) q).toRat ≤ (j : ℚ) * (2 : ℚ) ^ F := by
  rw [round_toRat]
  have hexp := round_exponent a q ha hq
  have hlo := (binade_spec a q ha hq).1
  have h2 : ∀ k : Int, (0 : ℚ) < (2 : ℚ) ^ k := fun k => zpow_pos (by norm_num) k
  have hEF : (Double.round (a : Int) q).exponent ≤ F := by
    by_contra hc
    have hE : (Double.round (a : Int) q).exponent = binade a q - 52 := by
      rw [hexp]
      rw [hexp] at hc
      apply max_eq_left
      by_contra hc'
      rw [max_eq_right (by omega)] at hc
      omega
    have hj' : (j : ℚ) < (2 : ℚ) ^ (53 : Int) := by
      have : (j : ℚ) < ((2 ^ 53 : Nat) : ℚ) := by exact_mod_cast hj
      have h53 : ((2 ^ 53 : Nat) : ℚ) = (2 : ℚ) ^ (53 : Int) := by norm_num
      linarith
    have : (2 : ℚ) ^ binade a q < (2 : ℚ) ^ (53 + F) := by
      calc (2 : ℚ) ^ binade a q ≤ (a : ℚ) / q := hlo
        _ ≤ (j : ℚ) * (2 : ℚ) ^ F := h
        _ < (2 : ℚ) ^ (53 : Int) * (2 : ℚ) ^ F := mul_lt_mul_of_pos_right hj' (h2 _)
        _ = (2 : ℚ) ^ (53 + F) := by rw [← zpow_add₀ (by norm_num : (2 : ℚ) ≠ 0)]
    have := (zpow_lt_zpow_iff_right₀ (by norm_num : (1 : ℚ) < 2)).mp this
    omega
  have hk : ((j * 2 ^ (F - (Double.round (a : Int) q).exponent).toNat : Nat) : ℚ) *
      (2 : ℚ) ^ (Double.round (a : Int) q).exponent = (j : ℚ) * (2 : ℚ) ^ F := by
    push_cast
    rw [mul_assoc, ← zpow_natCast, Int.toNat_of_nonneg (by omega),
      ← zpow_add₀ (by norm_num : (2 : ℚ) ≠ 0)]
    congr 2
    omega
  have := round_le a q _ ha hq (by rw [hk]; exact h)
  have hm : ((Double.round (a : Int) q).mantissa : ℚ) ≤
      ((j * 2 ^ (F - (Double.round (a : Int) q).exponent).toNat : Nat) : ℚ) := by
    exact_mod_cast this
  rw [← hk]
  exact mul_le_mul_of_nonneg_right hm (le_of_lt (h2 _))

/-- A number of the form `j * 2 ^ F` with `j < 2 ^ 53` is its own rounding. -/
theorem round_of_representable (a q j : Nat) (F : Int) (ha : a ≠ 0) (hq : q ≠ 0)
    (hj : j < 2 ^ 53) (hF : -1074 ≤ F) (h : (a : ℚ) / q = (j : ℚ) * (2 : ℚ) ^ F) :
    (Double.round (a : Int) q).toRat = (a : ℚ) / q := by
  apply le_antisymm
  · rw [h]
    exact round_le_of_representable a q j F ha hq hj hF (le_of_eq h)
  · rw [h]
    exact round_ge_of_representable a q j F ha hq hj hF (le_of_eq h.symm)

theorem round_nonpos (p : Int) (q : Nat) (hp : p ≤ 0) : (Double.round p q).mantissa ≤ 0 := by
  unfold Double.round
  split_ifs with h1 h2
  · exact le_refl 0
  · simp
  · exfalso
    have : p ≠ 0 := fun h => h1 (Or.inl h)
    omega

theorem toRat_eq (x : Double) : x.toRat = (x.mantissa : ℚ) * (2 : ℚ) ^ x.exponent := by
  unfold Double.toRat
  rw [dyadic_eq]

/-- The quotient of two doubles is the rounding of their exact quotient. -/
theorem div_spec (x y : Double) (hx : 0 ≤ x.mantissa) (hy : 0 < y.mantissa) :
    ∃ a q : Nat, q ≠ 0 ∧ Double.div x y = Double.round (a : Int) q ∧
      (a : ℚ) / q = x.toRat / y.toRat ∧ (a = 0 ↔ x.mantissa = 0) := by
  refine ⟨x.mantissa.toNat * 2 ^ (x.exponent - y.exponent).toNat,
    y.mantissa.natAbs * 2 ^ (y.exponent - x.exponent).toNat, ?_, ?_, ?_, ?_⟩
  · apply Nat.mul_ne_zero
    · omega
    · exact pow_ne_zero _ (by norm_num)
  · unfold Double.div
    congr 1
    push_cast
    rw [Int.sign_eq_one_of_pos hy, Int.toNat_of_nonneg hx, mul_one]
  · rw [toRat_eq, toRat_eq]
    have hs := two_zpow_split (x.exponent - y.exponent)
    have hneg : -(x.exponent - y.exponent) = y.exponent - x.exponent := by omega
    rw [hneg] at hs
    have hxm : ((x.mantissa.toNat : Nat) : ℚ) = (x.mantissa : ℚ) := by
      have : ((x.mantissa.toNat : Nat) : Int) = x.mantissa := Int.toNat_of_nonneg hx
      exact_mod_cast this
    have hym : ((y.mantissa.natAbs : Nat) : ℚ) = (y.mantissa : ℚ) := by
      rw [Nat.cast_natAbs, abs_of_pos hy]
    have hy0 : (y.mantissa : ℚ) ≠ 0 := by
      have : (0 : ℚ) < (y.mantissa : ℚ) := by exact_mod_cast hy
      exact ne_of_gt this
    have h2 : ∀ k : Int, (2 : ℚ) ^ k ≠ 0 := fun k => zpow_ne_zero k (by norm_num)
    have hn : ∀ k : Nat, (2 : ℚ) ^ k ≠ 0 := fun k => pow_ne_zero k (by norm_num)
    push_cast
    rw [hxm, hym, ← hs]
    have hsplit : (2 : ℚ) ^ (x.exponent - y.exponent) = (2 : ℚ) ^ x.exponent / (2 : ℚ) ^ y.exponent :=
      zpow_sub₀ (by norm_num) _ _
    rw [hsplit]
    field_simp
    ring
  · constructor
    · intro h
      rcases Nat.mul_eq_zero.mp h with h | h
      · omega
      · exact absurd h (pow_ne_zero _ (by norm_num))
    · intro h
      rw [h]
      simp

/-- The difference of two doubles is the rounding of their exact difference. -/
theorem sub_spec (x y : Double) :
    ∃ (P : Int) (Q : Nat), Q ≠ 0 ∧ Double.sub x y = Double.round P Q ∧
      (P : ℚ) / Q = x.toRat - y.toRat := by
  refine ⟨(x.mantissa * 2 ^ (x.exponent - min x.exponent y.exponent).toNat -
      y.mantissa * 2 ^ (y.exponent - min x.exponent y.exponent).toNat) *
      2 ^ (min x.exponent y.exponent).toNat, 2 ^ (-(min x.exponent y.exponent)).toNat,
    pow_ne_zero _ (by norm_num), rfl, ?_⟩
  rw [toRat_eq, toRat_eq]
  generalize hm : min x.exponent y.exponent = e
  have hxe : e ≤ x.exponent := by rw [← hm]; exact min_le_left _ _
  have hye : e ≤ y.exponent := by rw [← hm]; exact min_le_right _ _
  have hs := two_zpow_split e
  have hn : ∀ k : Nat, (2 : ℚ) ^ k ≠ 0 := fun k => pow_ne_zero k (by norm_num)
  have hx : (2 : ℚ) ^ (x.exponent - e).toNat = (2 : ℚ) ^ x.exponent / (2 : ℚ) ^ e := by
    rw [← zpow_natCast, Int.toNat_of_nonneg (by omega), zpow_sub₀ (by norm_num)]
  have hy : (2 : ℚ) ^ (y.exponent - e).toNat = (2 : ℚ) ^ y.exponent / (2 : ℚ) ^ e := by
    rw [← zpow_natCast, Int.toNat_of_nonneg (by omega), zpow_sub₀ (by norm_num)]
  have h2 : (2 : ℚ) ^ e ≠ 0 := zpow_ne_zero e (by norm_num)
  push_cast
  rw [hx, hy, ← hs]
  field_simp

theorem round_zero (q : Nat) : Double.round 0 q = ⟨0, 0⟩ := by
  unfold Double.round
  simp

theorem toRat_zero : (⟨0, 0⟩ : Double).toRat = 0 := by
  rw [toRat_eq]
  simp

theorem toRat_nonneg (x : Double) (h : 0 ≤ x.mantissa) : 0 ≤ x.toRat := by
  rw [toRat_eq]
  have : (0 : ℚ) ≤ (x.mantissa : ℚ) := by exact_mod_cast h
  exact mul_nonneg this (le_of_lt (zpow_pos (by norm_num) _))

theorem mantissa_pos_of_toRat_pos (x : Double) (h : 0 < x.toRat) : 0 < x.mantissa := by
  rw [toRat_eq] at h
  have h2 : (0 : ℚ) < (2 : ℚ) ^ x.exponent := zpow_pos (by norm_num) _
  have : (0 : ℚ) < (x.mantissa : ℚ) := by
    by_contra hc
    have hc' : (x.mantissa : ℚ) ≤ 0 := not_lt.mp hc
    have := mul_nonpos_of_nonpos_of_nonneg hc' (le_of_lt h2)
    linarith
  exact_mod_cast this

/-- The double computation of lines 290-292 for an iteration that took `n`
nanoseconds: the remaining time `16666 - n / 1000` microseconds, as a double. -/
theorem remaining_time (n : Nat) :
    (16666000 ≤ n →
      (Double.sub (Double.ofInt 16666)
        (Double.div (Double.ofInt n) (Double.ofInt 1000))).mantissa ≤ 0) ∧
    (n < 16666000 →
      0 < (Double.sub (Double.ofInt 16666)
        (Double.div (Double.ofInt n) (Double.ofInt 1000))).mantissa ∧
      |(Double.sub (Double.ofInt 16666)
          (Double.div (Double.ofInt n) (Double.ofInt 1000))).toRat -
        (16666 - (n : ℚ) / 1000)| ≤ (2 : ℚ) ^ (-38 : Int)) := by
  have hk : Double.ofInt 1000 = ⟨1000 * 2 ^ 43, -43⟩ := by decide
  have ht : Double.ofInt 16666 = ⟨16666 * 2 ^ 38, -38⟩ := by decide
  have hkr : (Double.ofInt 1000).toRat = 1000 := by
    rw [hk, toRat_eq]
    norm_num
  have htr : (Double.ofInt 16666).toRat = 16666 := by
    rw [ht, toRat_eq]
    norm_num
  have hy0 : 0 ≤ (Double.ofInt n).mantissa := round_mantissa_nonneg n 1
  obtain ⟨a, q, hq, hdiv, hfrac, ha0⟩ :=
    div_spec (Double.ofInt n) (Double.ofInt 1000) hy0 (by rw [hk]; decide)
  obtain ⟨P, Q, hQ, hsub, hPQ⟩ :=
    sub_spec (Double.ofInt 16666) (Double.div (Double.ofInt n) (Double.ofInt 1000))
  rw [hkr] at hfrac
  rw [htr] at hPQ
  have hQ0 : (0 : ℚ) < Q := by exact_mod_cast Nat.pos_of_ne_zero hQ
  rw [hsub]
  rw [hdiv] at hPQ
  constructor
  · intro hn
    have hn0 : n ≠ 0 := by omega
    have hy : (16666000 : ℚ) ≤ (Double.ofInt n).toRat := by
      have := round_ge_of_representable n 1 16666000 0 hn0 (by norm_num) (by norm_num)
        (by norm_num) (by
          have : (16666000 : ℚ) ≤ n := by exact_mod_cast hn
          simpa using this)
      simpa [Double.ofInt] using this
    have hym : 0 < (Double.ofInt n).mantissa :=
      mantissa_pos_of_toRat_pos _ (by linarith)
    have ha : a ≠ 0 := fun h => by
      have := ha0.mp h
      omega
    have hx : (16666 : ℚ) ≤ (Double.round (a : Int) q).toRat := by
      have := round_ge_of_representable a q 16666 0 ha hq (by norm_num) (by norm_num)
        (by
          rw [hfrac]
          rw [le_div_iff₀ (by norm_num : (0 : ℚ) < 1000)]
          norm_num
          linarith)
      simpa using this
    have hP : P ≤ 0 := by
      have h1 : (P : ℚ) / Q ≤ 0 := by rw [hPQ]; linarith
      have h2 : (P : ℚ) ≤ 0 := by
        by_contra hc
        have := div_pos (not_le.mp hc) hQ0
        linarith
      exact_mod_cast h2
    exact round_nonpos P Q hP
  · intro hn
    have hδ : (2 : ℚ) ^ (-39 : Int) + (2 : ℚ) ^ (-39 : Int) = (2 : ℚ) ^ (-38 : Int) := by
      norm_num
    have hδs : (2 : ℚ) ^ (-39 : Int) < 1 / 10000 := by norm_num
    have hnq : (n : ℚ) / 1000 ≤ 16666 - 1 / 1000 := by
      have : (n : ℚ) ≤ 16665999 := by exact_mod_cast (by omega : n ≤ 16665999)
      rw [div_le_iff₀ (by norm_num : (0 : ℚ) < 1000)]
      linarith
    have hnq0 : (0 : ℚ) ≤ (n : ℚ) / 1000 := by positivity
    have hyr : (Double.ofInt n).toRat = n := by
      by_cases hn0 : n = 0
      · subst hn0
        have : Double.ofInt ((0 : Nat) : Int) = ⟨0, 0⟩ := by decide
        rw [this, toRat_zero]
        simp
      · have := round_of_representable n 1 n 0 hn0 (by norm_num)
          (by
            have : n < 16666000 := hn
            have h53 : (16666000 : Nat) < 2 ^ 53 := by norm_num
            omega) (by norm_num) (by simp)
        simpa [Double.ofInt] using this
    rw [hyr] at hfrac
    have hxerr : |(Double.round (a : Int) q).toRat - (n : ℚ) / 1000| ≤ (2 : ℚ) ^ (-39 : Int) ∧
        0 ≤ (Double.round (a : Int) q).toRat := by
      by_cases ha : a = 0
      · subst ha
        have hz : (n : ℚ) / 1000 = 0 := by rw [← hfrac]; simp
        simp only [Nat.cast_zero, round_zero, toRat_zero, hz, sub_self, abs_zero]
        exact ⟨le_of_lt (zpow_pos (by norm_num) _), le_refl 0⟩
      · have herr := round_error a q ha hq
        have hexp := round_exponent_le a q ha hq 14 (by norm_num)
          (by rw [hfrac]; norm_num; linarith)
        rw [hfrac] at herr
        refine ⟨le_trans herr ?_, toRat_nonneg _ (round_mantissa_nonneg a q)⟩
        exact (zpow_le_zpow_iff_right₀ (by norm_num : (1 : ℚ) < 2)).mpr (by omega)
    obtain ⟨hxe, hx0⟩ := hxerr
    have hxe' := abs_le.mp hxe
    have hD1 : (9 : ℚ) / 10000 ≤ (P : ℚ) / Q := by rw [hPQ]; linarith [hxe'.2]
    have hD2 : (P : ℚ) / Q ≤ 16666 := by rw [hPQ]; linarith
    have hPpos : 0 < P := by
      have h1 : (0 : ℚ) < (P : ℚ) / Q := by linarith
      have h2 : (0 : ℚ) < (P : ℚ) := by
        by_contra hc
        have := div_nonpos_of_nonpos_of_nonneg (not_lt.mp hc) (le_of_lt hQ0)
        linarith
      exact_mod_cast h2
    obtain ⟨b, hb⟩ := Int.eq_ofNat_of_zero_le (le_of_lt hPpos)
    subst hb
    have hb0 : b ≠ 0 := by
      intro h
      subst h
      simp at hPpos
    have hPQ' : (b : ℚ) / Q = 16666 - (Double.round (a : Int) q).toRat := by
      rw [← hPQ]
      simp
    have hD1' : (9 : ℚ) / 10000 ≤ (b : ℚ) / Q := by simpa using hD1
    have hD2' : (b : ℚ) / Q ≤ 16666 := by simpa using hD2
    have hunit := unit_le b Q hb0 hQ (by
      have h1 : (2 : ℚ) ^ (-1074 : Int) ≤ (2 : ℚ) ^ (-11 : Int) :=
        (zpow_le_zpow_iff_right₀ (by norm_num : (1 : ℚ) < 2)).mpr (by norm_num)
      have h2 : (2 : ℚ) ^ (-11 : Int) ≤ 9 / 10000 := by norm_num
      linarith)
    have hm := le_round b Q 1 hb0 hQ (by simpa using hunit)
    have herr := round_error b Q hb0 hQ
    have hexp := round_exponent_le b Q hb0 hQ 14 (by norm_num) (by norm_num; linarith)
    have herr' : |(Double.round (b : Int) Q).toRat - (b : ℚ) / Q| ≤ (2 : ℚ) ^ (-39 : Int) :=
      le_trans herr ((zpow_le_zpow_iff_right₀ (by norm_num : (1 : ℚ) < 2)).mpr (by omega))
    refine ⟨by omega, ?_⟩
    rw [hPQ'] at herr'
    have h39 : (2 : ℚ) ^ (-39 : Int) = 1 / 549755813888 := by norm_num
    have h38 : (2 : ℚ) ^ (-38 : Int) = 1 / 274877906944 := by norm_num
    rw [h39] at herr' hxe
    rw [h38]
    have h1 := abs_le.mp herr'
    have h2 := abs_le.mp hxe
    rw [abs_le]
    constructor <;> linarith [h1.1, h1.2, h2.1, h2.2]
/-- The double computation for an iteration that took a whole number `k` of
microseconds below the target: the remaining time is `16666 - k`, without rounding. -/
theorem remaining_time_exact (k : Nat) (hk : k < 16666) :
    0 < (Double.sub (Double.ofInt 16666)
      (Double.div (Double.ofInt ((1000 * k : Nat) : Int)) (Double.ofInt 1000))).mantissa ∧
    (Double.sub (Double.ofInt 16666)
      (Double.div (Double.ofInt ((1000 * k : Nat) : Int)) (Double.ofInt 1000))).toRat =
        16666 - (k : ℚ) := by
  have hk1 : Double.ofInt 1000 = ⟨1000 * 2 ^ 43, -43⟩ := by decide
  have ht : Double.ofInt 16666 = ⟨16666 * 2 ^ 38, -38⟩ := by decide
  have hkr : (Double.ofInt 1000).toRat = 1000 := by
    rw [hk1, toRat_eq]
    norm_num
  have htr : (Double.ofInt 16666).toRat = 16666 := by
    rw [ht, toRat_eq]
    norm_num
  have hy0 : 0 ≤ (Double.ofInt ((1000 * k : Nat) : Int)).mantissa :=
    round_mantissa_nonneg (1000 * k) 1
  obtain ⟨a, q, hq, hdiv, hfrac, ha0⟩ :=
    div_spec (Double.ofInt ((1000 * k : Nat) : Int)) (Double.ofInt 1000) hy0
      (by rw [hk1]; decide)
  obtain ⟨P, Q, hQ, hsub, hPQ⟩ :=
    sub_spec (Double.ofInt 16666)
      (Double.div (Double.ofInt ((1000 * k : Nat) : Int)) (Double.ofInt 1000))
  rw [hkr] at hfrac
  rw [htr] at hPQ
  have hQ0 : (0 : ℚ) < Q := by exact_mod_cast Nat.pos_of_ne_zero hQ
  rw [hsub]
  rw [hdiv] at hPQ
  have hkq : (k : ℚ) < 16666 := by exact_mod_cast hk
  have hyr : (Double.ofInt ((1000 * k : Nat) : Int)).toRat = ((1000 * k : Nat) : ℚ) := by
    by_cases hn0 : 1000 * k = 0
    · rw [hn0]
      have : Double.ofInt ((0 : Nat) : Int) = ⟨0, 0⟩ := by decide
      rw [this, toRat_zero]
      simp
    · have := round_of_representable (1000 * k) 1 (1000 * k) 0 hn0 (by norm_num)
        (by
          have h53 : (16666000 : Nat) < 2 ^ 53 := by norm_num
          omega) (by norm_num) (by simp)
      simpa [Double.ofInt] using this
  rw [hyr] at hfrac
  have hfrac' : (a : ℚ) / q = (k : ℚ) := by
    rw [hfrac]
    push_cast
    field_simp
  have hx : (Double.round (a : Int) q).toRat = (k : ℚ) := by
    by_cases ha : a = 0
    · subst ha
      have hz : (k : ℚ) = 0 := by rw [← hfrac']; simp
      rw [Nat.cast_zero, round_zero, toRat_zero, hz]
    · rw [← hfrac']
      exact round_of_representable a q k 0 ha hq
        (by
          have h53 : (16666 : Nat) < 2 ^ 53 := by norm_num
          omega) (by norm_num) (by rw [hfrac']; simp)
  rw [hx] at hPQ
  have hPpos : 0 < P := by
    have h1 : (0 : ℚ) < (P : ℚ) / Q := by rw [hPQ]; linarith
    have h2 : (0 : ℚ) < (P : ℚ) := by
      by_contra hc
      have := div_nonpos_of_nonpos_of_nonneg (not_lt.mp hc) (le_of_lt hQ0)
      linarith
    exact_mod_cast h2
  obtain ⟨b, hb⟩ := Int.eq_ofNat_of_zero_le (le_of_lt hPpos)
  subst hb
  have hb0 : b ≠ 0 := by
    intro h
    subst h
    simp at hPpos
  have hPQ' : (b : ℚ) / Q = ((16666 - k : Nat) : ℚ) * (2 : ℚ) ^ (0 : Int) := by
    have : ((16666 - k : Nat) : ℚ) = 16666 - (k : ℚ) := by
      rw [Nat.cast_sub (le_of_lt hk)]
      norm_num
    rw [this, zpow_zero, mul_one, ← hPQ]
    simp
  have hw := round_of_representable b Q (16666 - k) 0 hb0 hQ
    (by
      have h53 : (16666 : Nat) < 2 ^ 53 := by norm_num
      omega) (by norm_num) hPQ'
  have hval : (Double.round (b : Int) Q).toRat = 16666 - (k : ℚ) := by
    rw [hw, ← hPQ]
    simp
  exact ⟨mantissa_pos_of_toRat_pos _ (by rw [hval]; linarith), hval⟩

/-! ### The capture loop of `MultiDevice`: pacing -/

theorem frameWait_eq (n : Nat) :
    MultiDevice.frameWait n =
      if 0 < (Double.sub (Double.ofInt 16666)
          (Double.div (Double.ofInt n) (Double.ofInt 1000))).mantissa then
        some ((Double.sub (Double.ofInt 16666)
          (Double.div (Double.ofInt n) (Double.ofInt 1000))).toRat * 1000)
      else none := by
  have hT : ((1000000 / MultiDevice.FRAME_RATE_NUMERATOR : Nat) : Int) = 16666 := by decide
  unfold MultiDevice.frameWait
  dsimp only
  rw [hT]
  split_ifs
  · rw [toRat_eq, dyadic_eq]
    push_cast
    ring_nf
  · rfl

/-- No sleep is requested exactly when the iteration took the target interval or
more. -/
theorem frameWait_none_iff (n : Nat) : MultiDevice.frameWait n = none ↔ 16666 * 1000 ≤ n := by
  rw [frameWait_eq]
  obtain ⟨h1, h2⟩ := remaining_time n
  constructor
  · intro h
    by_contra hc
    have := (h2 (by omega)).1
    rw [if_pos this] at h
    cases h
  · intro h
    rw [if_neg (by have := h1 (by omega); omega)]

/-- The sleep requested is positive and differs from the target interval minus the
time the iteration took by at most `2 ^ (-38)` microseconds. -/
theorem frameWait_error (n : Nat) (wait : ℚ) (h : MultiDevice.frameWait n = some wait) :
    0 < wait ∧ |wait - (16666 * 1000 - (n : ℚ))| ≤ 1000 / 2 ^ 38 := by
  have hn : n < 16666000 := by
    by_contra hc
    have := (frameWait_none_iff n).mpr (by omega)
    rw [this] at h
    cases h
  rw [frameWait_eq] at h
  obtain ⟨hpos, herr⟩ := (remaining_time n).2 hn
  rw [if_pos hpos] at h
  have hw := Option.some.inj h
  have h38 : (2 : ℚ) ^ (-38 : Int) = 1 / 2 ^ 38 := by norm_num
  rw [h38] at herr
  have hpos' : 0 < (Double.sub (Double.ofInt 16666)
      (Double.div (Double.ofInt n) (Double.ofInt 1000))).toRat := by
    rw [toRat_eq]
    have : (0 : ℚ) < ((Double.sub (Double.ofInt 16666)
      (Double.div (Double.ofInt n) (Double.ofInt 1000))).mantissa : ℚ) := by exact_mod_cast hpos
    exact mul_pos this (zpow_pos (by norm_num) _)
  rw [← hw]
  refine ⟨by linarith, ?_⟩
  have he := abs_le.mp herr
  rw [abs_le]
  constructor <;> linarith [he.1, he.2]

/-- After a whole number of microseconds below the target the sleep requested is the
target interval minus that time, without rounding. -/
theorem frameWait_exact (k : Nat) (hk : k < 16666) :
    MultiDevice.frameWait (1000 * k) = some ((16666 - (k : ℚ)) * 1000) := by
  rw [frameWait_eq]
  obtain ⟨hpos, hval⟩ := remaining_time_exact k hk
  rw [if_pos hpos, hval]

theorem anchorStartTime_no_sleep (clock : Nat → Int) (st : LoopState) :
    ∀ ev ∈ (MultiDevice.anchorStartTime clock st).trace, isSleep ev = false := by
  unfold MultiDevice.anchorStartTime
  split_ifs <;> simp [isSleep]

theorem captureVideo_no_sleep (clock : Nat → Int) (w : Bool) (e : FrameEnv) (st : LoopState) :
    ∀ ev ∈ (MultiDevice.captureVideo clock w e st).trace, isSleep ev = false := by
  unfold MultiDevice.captureVideo MultiDevice.writeSample
  cases w <;> cases e.videoRead.sample <;> simp [isSleep]

theorem captureAudio_no_sleep (clock : Nat → Int) (a w : Bool) (e : FrameEnv)
    (st : LoopState) :
    ∀ ev ∈ (MultiDevice.captureAudio clock a w e st).trace, isSleep ev = false := by
  unfold MultiDevice.captureAudio MultiDevice.writeSample
  cases a <;> cases w <;> cases e.audioRead.sample <;> simp [isSleep]

/-- An iteration that runs to its end makes its only sleep request in the pacing step,
which comes last. -/
theorem captureFrame_sleeps_last (clock : Nat → Int) (a w : Bool) (e : FrameEnv)
    (st : LoopState) (hc : (MultiDevice.captureFrame clock a w e st).crashed = false) :
    ∃ pre, (MultiDevice.captureFrame clock a w e st).trace =
        pre ++ MultiDevice.pace e.frameTime ∧
      ∀ ev ∈ pre, isSleep ev = false := by
  have hA := anchorStartTime_no_sleep clock st
  have hV := captureVideo_no_sleep clock w e (MultiDevice.anchorStartTime clock st).state
  have hU := captureAudio_no_sleep clock a w e
    (MultiDevice.captureVideo clock w e (MultiDevice.anchorStartTime clock st).state).state
  unfold MultiDevice.captureFrame at hc ⊢
  dsimp only at hc ⊢
  split_ifs at hc ⊢
  refine ⟨_, rfl, ?_⟩
  intro ev hev
  simp only [List.mem_append] at hev
  rcases hev with (h | h) | h
  · exact hA ev h
  · exact hV ev h
  · exact hU ev h

/-- Claim C13, as amended. In each iteration of the capture loop of the multi-device
program that runs to its end, the only sleep requested is the one at the end of the
iteration. With `T` = 1000000 / 60 = 16666 microseconds and `elapsed` the `frameTime`
of that iteration: no sleep is requested exactly when `elapsed >= T`; a sleep that is
requested is positive and differs from `T - elapsed` by at most `2 ^ (-38)`
microseconds, the rounding of the two double operations; it is `T - elapsed` itself
when `elapsed` is a whole number of microseconds; and the amount is a function of this
iteration's `frameTime` alone. -/
theorem frame_sleep_request (clock : Nat → Int) (pAudioSourceReader pSinkWriter : Bool)
    (e : FrameEnv) (st : LoopState) :
    1000000 / MultiDevice.FRAME_RATE_NUMERATOR = 16666 ∧
    (MultiDevice.frameWait e.frameTime = none ↔ 16666 * 1000 ≤ e.frameTime) ∧
    (∀ wait, MultiDevice.frameWait e.frameTime = some wait →
      0 < wait ∧ |wait - (16666 * 1000 - (e.frameTime : ℚ))| ≤ 1000 / 2 ^ 38) ∧
    (∀ k : Nat, e.frameTime = 1000 * k → k < 16666 →
      MultiDevice.frameWait e.frameTime = some ((16666 - (k : ℚ)) * 1000)) ∧
    MultiDevice.pace e.frameTime =
      (match MultiDevice.frameWait e.frameTime with
       | some wait => [Event.sleep_for wait]
       | none => []) ∧
    ((MultiDevice.captureFrame clock pAudioSourceReader pSinkWriter e st).crashed = false →
      ∃ pre, (MultiDevice.captureFrame clock pAudioSourceReader pSinkWriter e st).trace =
          pre ++ MultiDevice.pace e.frameTime ∧
        ∀ ev ∈ pre, isSleep ev = false) := by
  refine ⟨by decide, frameWait_none_iff e.frameTime, frameWait_error e.frameTime, ?_, rfl,
    captureFrame_sleeps_last clock pAudioSourceReader pSinkWriter e st⟩
  intro k hk hlt
  rw [hk]
  exact frameWait_exact k hlt

theorem frame_sleep_request_witness :
    goodFrame.frameTime = 1000 * 2000 ∧ 2000 < 16666 ∧
    MultiDevice.frameWait goodFrame.frameTime = some ((16666 - ((2000 : Nat) : ℚ)) * 1000) ∧
    MultiDevice.pace goodFrame.frameTime = [Event.sleep_for 14666000] ∧
    ∃ pre, (MultiDevice.captureFrame tickingClock true true goodFrame ⟨0, 0⟩).trace =
        pre ++ MultiDevice.pace goodFrame.frameTime ∧
      ∀ ev ∈ pre, isSleep ev = false :=
  ⟨by decide, by decide,
    (frame_sleep_request tickingClock true true goodFrame ⟨0, 0⟩).2.2.2.1 2000 (by decide)
      (by decide),
    by decide,
    (frame_sleep_request tickingClock true true goodFrame ⟨0, 0⟩).2.2.2.2.2 (by decide)⟩

/-- Claim C13, as stated, fails: after an iteration of 16665001 nanoseconds the sleep
requested is not `T - elapsed` = 999 nanoseconds but the double
8998192055484416 / 2 ^ 53 microseconds, a little less. -/
theorem frame_sleep_request_rounded :
    MultiDevice.frameWait 16665001 = some (dyadic (8998192055484416 * 1000) (-53)) ∧
    MultiDevice.pace 16665001 = [Event.sleep_for (dyadic (8998192055484416 * 1000) (-53))] ∧
    dyadic (8998192055484416 * 1000) (-53) ≠ ((16666 * 1000 - 16665001 : Int) : ℚ) ∧
    dyadic (8998192055484416 * 1000) (-53) < 999 := by
  decide

theorem requestedSleep_append (t1 t2 : List Event) :
    requestedSleep (t1 ++ t2) = requestedSleep t1 + requestedSleep t2 := by
  unfold requestedSleep
  rw [List.filterMap_append, List.sum_append]

theorem requestedSleep_of_no_sleep (t : List Event) (h : ∀ ev ∈ t, isSleep ev = false) :
    requestedSleep t = 0 := by
  induction t with
  | nil => rfl
  | cons ev rest ih =>
      have hev := h ev (by simp)
      have hrest := ih (fun x hx => h x (by simp [hx]))
      unfold requestedSleep at hrest ⊢
      cases ev <;> simp [sleepRequested, isSleep] at hev ⊢ <;> exact hrest

theorem requestedSleep_pace (frameTime : Nat) :
    requestedSleep (MultiDevice.pace frameTime) = (MultiDevice.frameWait frameTime).getD 0 := by
  unfold MultiDevice.pace requestedSleep
  cases MultiDevice.frameWait frameTime <;> simp [sleepRequested]

/-- The time an iteration that runs to its end asks to sleep. -/
theorem requestedSleep_captureFrame (clock : Nat → Int) (a w : Bool) (e : FrameEnv)
    (st : LoopState) (hc : (MultiDevice.captureFrame clock a w e st).crashed = false) :
    requestedSleep (MultiDevice.captureFrame clock a w e st).trace =
      (MultiDevice.frameWait e.frameTime).getD 0 := by
  obtain ⟨pre, hpre, hno⟩ := captureFrame_sleeps_last clock a w e st hc
  rw [hpre, requestedSleep_append, requestedSleep_of_no_sleep pre hno, requestedSleep_pace,
    zero_add]

/-- The work of an iteration and the sleep it requests add up to the target interval,
up to the rounding of the sleep. -/
theorem interval_near_target (n : Nat) (hn : n ≤ 16666 * 1000) :
    |(n : ℚ) + (MultiDevice.frameWait n).getD 0 - 16666000| ≤ 1000 / 2 ^ 38 := by
  cases hw : MultiDevice.frameWait n with
  | none =>
      have := (frameWait_none_iff n).mp hw
      have hn' : n = 16666000 := by omega
      subst hn'
      simp only [Option.getD_none]
      norm_num
  | some wait =>
      obtain ⟨_, herr⟩ := frameWait_error n wait hw
      simp only [Option.getD_some]
      have he := abs_le.mp herr
      rw [abs_le]
      constructor <;> linarith [he.1, he.2]

/-- Every interval of the loop is the target interval, up to the rounding of the
sleep, when the work of each iteration takes at most the target interval. -/
theorem iterationIntervals_near (clock : Nat → Int) (a w : Bool) :
    ∀ (frames : List FrameEnv) (st : LoopState),
      (∀ e ∈ frames, e.frameTime ≤ 16666 * 1000) →
      ∀ d ∈ MultiDevice.iterationIntervals clock a w frames st,
        |d - 16666000| ≤ 1000 / 2 ^ 38 := by
  intro frames
  induction frames with
  | nil =>
      intro st _
      simp [MultiDevice.iterationIntervals]
  | cons e rest ih =>
      intro st hwork
      have ih2 := ih (MultiDevice.captureFrame clock a w e st).state
        (fun e' he' => hwork e' (by simp [he']))
      unfold MultiDevice.iterationIntervals
      dsimp only
      cases hc : (MultiDevice.captureFrame clock a w e st).crashed with
      | true => simp
      | false =>
          have hd := interval_near_target e.frameTime (hwork e (by simp))
          rw [← requestedSleep_captureFrame clock a w e st hc] at hd
          simp only [Bool.false_eq_true, if_false, List.mem_cons]
          rintro d (rfl | hd')
          · exact hd
          · exact ih2 d hd'

/-- A loop in which no iteration stops at a null pointer has one interval per
iteration. -/
theorem iterationIntervals_length (clock : Nat → Int) (a w : Bool) :
    ∀ (frames : List FrameEnv) (st : LoopState),
      (MultiDevice.captureLoop clock a w frames st).crashed = false →
      (MultiDevice.iterationIntervals clock a w frames st).length = frames.length := by
  intro frames
  induction frames with
  | nil =>
      intro st _
      simp [MultiDevice.iterationIntervals]
  | cons e rest ih =>
      intro st hrun
      unfold MultiDevice.captureLoop at hrun
      unfold MultiDevice.iterationIntervals
      dsimp only at hrun ⊢
      cases hc : (MultiDevice.captureFrame clock a w e st).crashed with
      | true => simp [hc] at hrun
      | false =>
          rw [hc] at hrun
          simp only [Bool.false_eq_true, if_false, List.length_cons]
          rw [ih _ (by simpa using hrun)]

/-- The mean of numbers that all lie within `δ` of `c` lies within `δ` of `c`. -/
theorem mean_near (c δ : ℚ) : ∀ l : List ℚ, (∀ d ∈ l, |d - c| ≤ δ) →
    |l.sum - (l.length : ℚ) * c| ≤ (l.length : ℚ) * δ := by
  intro l
  induction l with
  | nil => intro _; simp
  | cons d rest ih =>
      intro h
      have h1 := abs_le.mp (h d (by simp))
      have h2 := abs_le.mp (ih (fun x hx => h x (by simp [hx])))
      rw [List.sum_cons, List.length_cons, abs_le]
      push_cast
      constructor <;> linarith [h1.1, h1.2, h2.1, h2.2]

/-- Claim C14. For the capture loop of the multi-device program at 60 frames per
second: when the work of an iteration takes its `frameTime`, each sleep lasts exactly
the time the iteration requests and the next iteration starts at once, and the work of
every iteration takes at most the target interval, then every interval between
consecutive iteration starts is within `2 ^ (-38)` microseconds of 16666000 ns, and
over any run of `N >= 1` iterations the mean interval differs from 1/60 s by less than
one microsecond. There is one interval per iteration unless an iteration stops the
program at a null pointer, and then the intervals are those of the iterations before
it. -/
theorem mean_frame_interval (clock : Nat → Int) (pAudioSourceReader pSinkWriter : Bool)
    (frames : List FrameEnv) (st : LoopState)
    (hwork : ∀ e ∈ frames, e.frameTime ≤ 16666 * 1000) :
    ((MultiDevice.captureLoop clock pAudioSourceReader pSinkWriter frames st).crashed = false →
      (MultiDevice.iterationIntervals clock pAudioSourceReader pSinkWriter frames st).length =
        frames.length) ∧
    (∀ d ∈ MultiDevice.iterationIntervals clock pAudioSourceReader pSinkWriter frames st,
      |d - 16666000| ≤ 1000 / 2 ^ 38) ∧
    (1 ≤ (MultiDevice.iterationIntervals clock pAudioSourceReader pSinkWriter frames st).length →
      |(MultiDevice.iterationIntervals clock pAudioSourceReader pSinkWriter frames st).sum /
          ((MultiDevice.iterationIntervals clock pAudioSourceReader pSinkWriter frames
            st).length : ℚ) - 1000000000 / 60| < 1000) := by
  have hnear :=
    iterationIntervals_near clock pAudioSourceReader pSinkWriter frames st hwork
  refine ⟨iterationIntervals_length clock pAudioSourceReader pSinkWriter frames st, hnear, ?_⟩
  intro hN
  have hmean := mean_near 16666000 (1000 / 2 ^ 38) _ hnear
  generalize MultiDevice.iterationIntervals clock pAudioSourceReader pSinkWriter frames st = l
    at hN hmean
  have hNq : (1 : ℚ) ≤ (l.length : ℚ) := by exact_mod_cast hN
  have hpos : (0 : ℚ) < (l.length : ℚ) := by linarith
  have hm := abs_le.mp hmean
  rw [abs_lt]
  constructor
  · rw [lt_sub_iff_add_lt, lt_div_iff₀ hpos]
    have : (1000 / 2 ^ 38 : ℚ) < 1 := by norm_num
    nlinarith [hm.1]
  · rw [sub_lt_iff_lt_add, div_lt_iff₀ hpos]
    have : (1000 / 2 ^ 38 : ℚ) < 1 := by norm_num
    nlinarith [hm.2]

theorem mean_frame_interval_witness :
    (∀ e ∈ [goodFrame, audioOnlyFrame, goodFrame], e.frameTime ≤ 16666 * 1000) ∧
    (MultiDevice.iterationIntervals tickingClock true true
      [goodFrame, audioOnlyFrame, goodFrame] ⟨0, 0⟩).length = 3 ∧
    |(MultiDevice.iterationIntervals tickingClock true true
        [goodFrame, audioOnlyFrame, goodFrame] ⟨0, 0⟩).sum /
        ((MultiDevice.iterationIntervals tickingClock true true
          [goodFrame, audioOnlyFrame, goodFrame] ⟨0, 0⟩).length : ℚ) - 1000000000 / 60| < 1000 :=
  ⟨by decide,
    (mean_frame_interval tickingClock true true [goodFrame, audioOnlyFrame, goodFrame] ⟨0, 0⟩
      (by decide)).1 (by decide),
    (mean_frame_interval tickingClock true true [goodFrame, audioOnlyFrame, goodFrame] ⟨0, 0⟩
      (by decide)).2.2 (by decide)⟩

/-! ### `MultiDevice.StartRecording`: the audio source -/

theorem static_cast_int_le (n : Nat) : static_cast_int n ≤ (n : Int) := by
  unfold static_cast_int
  omega

/-- The selection never reads the device list outside its bounds. -/
theorem selectDevice_crashed (k : StreamKind) (devices : List DeviceInfo) (selection : Int) :
    (MultiDevice.SelectDevice k devices selection).crashed = false := by
  unfold MultiDevice.SelectDevice
  split_ifs with h
  · split
    · rfl
    · rename_i hnone
      rw [List.getElem?_eq_none_iff] at hnone
      have := static_cast_int_le devices.length
      omega
  · rfl

theorem selectDevice_trace (k : StreamKind) (devices : List DeviceInfo) (selection : Int) :
    ∀ ev ∈ (MultiDevice.SelectDevice k devices selection).trace, isSourceSetup ev = true := by
  unfold MultiDevice.SelectDevice
  split_ifs
  · split <;> simp [isSourceSetup]
  · simp

theorem enumerateDevices_trace (k : StreamKind) (e : EnumEnv) (devices : List DeviceInfo) :
    ∀ ev ∈ (MultiDevice.EnumerateDevices k e devices).2.2, isSourceSetup ev = true := by
  unfold MultiDevice.EnumerateDevices
  dsimp only
  split_ifs <;> simp [isSourceSetup]

theorem configureConservativeMediaType_trace (e : VideoTypeEnv) :
    ∀ ev ∈ (MultiDevice.ConfigureConservativeMediaType e).trace, isSourceSetup ev = true := by
  unfold MultiDevice.ConfigureConservativeMediaType
  dsimp only
  split_ifs <;> simp [isSourceSetup]

/-- With the video source set up, `StartRecording` makes set-up calls and goes on to
the audio device. -/
theorem startRecording_of_videoSourceSetUp (e : SessionEnv)
    (hv : MultiDevice.videoSourceSetUp e = true) :
    ∃ pre, (∀ ev ∈ pre, isSourceSetup ev = true) ∧
      MultiDevice.StartRecording e =
        ⟨pre ++ (MultiDevice.setUpAudio e).trace, (MultiDevice.setUpAudio e).crashed⟩ := by
  unfold MultiDevice.videoSourceSetUp at hv
  simp only [Bool.and_eq_true, Bool.not_eq_true', Bool.or_eq_false_iff] at hv
  obtain ⟨⟨⟨h1, h2⟩, h3⟩, h4⟩ := hv
  have hsel := selectDevice_crashed StreamKind.video
    (MultiDevice.EnumerateDevices StreamKind.video e.videoEnum []).2.1 e.videoSelection
  refine ⟨(MultiDevice.EnumerateDevices StreamKind.video e.videoEnum []).2.2 ++
    (MultiDevice.SelectDevice StreamKind.video
      (MultiDevice.EnumerateDevices StreamKind.video e.videoEnum []).2.1 e.videoSelection).trace ++
    [Event.MFCreateSourceReaderFromMediaSource StreamKind.video e.videoReader] ++
    (MultiDevice.ConfigureConservativeMediaType e.videoType).trace, ?_, ?_⟩
  · intro ev hev
    simp only [List.mem_append, List.mem_singleton] at hev
    rcases hev with ((h | h) | h) | h
    · exact enumerateDevices_trace _ _ _ ev h
    · exact selectDevice_trace _ _ _ ev h
    · subst h
      rfl
    · exact configureConservativeMediaType_trace _ ev h
  · unfold MultiDevice.StartRecording
    simp [h1, h2, h3, h4, hsel]

/-- Claim C16, as amended. In `StartRecording` of the multi-device program, when the
video source was set up and audio devices are listed but the audio source cannot be
obtained (the selection yields no media source, because it is out of range or the
activation failed, or the audio source reader cannot be created), `StartRecording`
returns after the source set-up: no sink writer is created, `CaptureFrames` is not
invoked and nothing is read or written. -/
theorem startRecording_returns_without_audio_source (e : SessionEnv)
    (hv : MultiDevice.videoSourceSetUp e = true)
    (ha : MultiDevice.audioDevicesListed e = true)
    (hfail : (MultiDevice.SelectDevice StreamKind.audio (MultiDevice.audioDevices e)
        e.audioSelection).mediaSource = false ∨ FAILED e.audioReader = true) :
    (MultiDevice.StartRecording e).crashed = false ∧
    (∀ ev ∈ (MultiDevice.StartRecording e).trace, isSourceSetup ev = true) ∧
    Event.CaptureFrames ∉ (MultiDevice.StartRecording e).trace := by
  obtain ⟨pre, hpre, hrun⟩ := startRecording_of_videoSourceSetUp e hv
  have hsel := selectDevice_crashed StreamKind.audio (MultiDevice.audioDevices e)
    e.audioSelection
  have hselt := selectDevice_trace StreamKind.audio (MultiDevice.audioDevices e)
    e.audioSelection
  have ht1 := enumerateDevices_trace StreamKind.audio e.audioEnum []
  have haudio : (MultiDevice.setUpAudio e).crashed = false ∧
      ∀ ev ∈ (MultiDevice.setUpAudio e).trace, isSourceSetup ev = true := by
    unfold MultiDevice.audioDevicesListed at ha
    unfold MultiDevice.audioDevices at ha hsel hselt hfail
    simp only [Bool.not_eq_true'] at ha
    unfold MultiDevice.setUpAudio
    simp only [ha, Bool.false_eq_true, if_false, hsel]
    rcases hfail with h | h
    · simp only [h, Bool.not_false, if_true]
      refine ⟨trivial, ?_⟩
      intro ev hev
      rcases List.mem_append.mp hev with h' | h'
      · exact ht1 ev h'
      · exact hselt ev h'
    · cases hm : (MultiDevice.SelectDevice StreamKind.audio
          (MultiDevice.EnumerateDevices StreamKind.audio e.audioEnum []).2.1
          e.audioSelection).mediaSource
      · simp only [Bool.not_false, if_true]
        refine ⟨trivial, ?_⟩
        intro ev hev
        rcases List.mem_append.mp hev with h' | h'
        · exact ht1 ev h'
        · exact hselt ev h'
      · simp only [Bool.not_true, Bool.false_eq_true, if_false, h, if_true]
        refine ⟨trivial, ?_⟩
        intro ev hev
        simp only [List.mem_append, List.mem_singleton] at hev
        rcases hev with (h' | h') | h'
        · exact ht1 ev h'
        · exact hselt ev h'
        · subst h'
          rfl
  have hall : ∀ ev ∈ pre ++ (MultiDevice.setUpAudio e).trace, isSourceSetup ev = true := by
    intro ev hev
    rcases List.mem_append.mp hev with h | h
    · exact hpre ev h
    · exact haudio.2 ev h
  rw [hrun]
  refine ⟨haudio.1, hall, ?_⟩
  intro hmem
  have := hall _ hmem
  simp [isSourceSetup] at this

theorem startRecording_returns_without_audio_source_witness :
    (MultiDevice.StartRecording audioSelectionOutOfRange).crashed = false ∧
    (∀ ev ∈ (MultiDevice.StartRecording audioSelectionOutOfRange).trace,
      isSourceSetup ev = true) ∧
    Event.CaptureFrames ∉ (MultiDevice.StartRecording audioSelectionOutOfRange).trace :=
  startRecording_returns_without_audio_source audioSelectionOutOfRange (by decide) (by decide)
    (Or.inl (by decide))

/-- Claim C16, as stated, fails: with audio devices listed, an out-of-range selection,
a failed activation and a failed creation of the audio source reader each make
`StartRecording` return without invoking `CaptureFrames`. -/
theorem startRecording_does_not_degrade :
    (MultiDevice.StartRecording audioSelectionOutOfRange).trace =
      [Event.MFEnumDeviceSources StreamKind.video S_OK,
        Event.ActivateObject StreamKind.video 0 S_OK,
        Event.MFCreateSourceReaderFromMediaSource StreamKind.video S_OK,
        Event.SetCurrentMediaType StreamKind.video S_OK,
        Event.MFEnumDeviceSources StreamKind.audio S_OK] ∧
    (MultiDevice.StartRecording audioActivationFails).trace =
      [Event.MFEnumDeviceSources StreamKind.video S_OK,
        Event.ActivateObject StreamKind.video 0 S_OK,
        Event.MFCreateSourceReaderFromMediaSource StreamKind.video S_OK,
        Event.SetCurrentMediaType StreamKind.video S_OK,
        Event.MFEnumDeviceSources StreamKind.audio S_OK,
        Event.ActivateObject StreamKind.audio 0 E_FAIL] ∧
    (MultiDevice.StartRecording audioReaderFails).trace =
      [Event.MFEnumDeviceSources StreamKind.video S_OK,
        Event.ActivateObject StreamKind.video 0 S_OK,
        Event.MFCreateSourceReaderFromMediaSource StreamKind.video S_OK,
        Event.SetCurrentMediaType StreamKind.video S_OK,
        Event.MFEnumDeviceSources StreamKind.audio S_OK,
        Event.ActivateObject StreamKind.audio 0 S_OK,
        Event.MFCreateSourceReaderFromMediaSource StreamKind.audio E_FAIL] ∧
    Event.CaptureFrames ∉ (MultiDevice.StartRecording audioSelectionOutOfRange).trace ∧
    Event.CaptureFrames ∉ (MultiDevice.StartRecording audioActivationFails).trace ∧
    Event.CaptureFrames ∉ (MultiDevice.StartRecording audioReaderFails).trace := by
  decide

/-! ### The capture loop of `VideoAudio8`: end of stream -/

/-- One stream's read and write: an audio read that reports the end of the stream is
the last capture call made, and a part that did not leave the loop had no such read. -/
theorem captureStream_endOfStream (clock : Nat → Int) (w : Bool) (k : StreamKind)
    (d : Option Int) (r : ReadResult) (hrWrite : HRESULT) (st : LoopState) :
    noneAfter (isEndOfStreamOn StreamKind.audio) isCaptureCall
      (VideoAudio8.captureStream clock w k d r hrWrite st).trace = true ∧
    ((VideoAudio8.captureStream clock w k d r hrWrite st).broke = false →
      ∀ ev ∈ (VideoAudio8.captureStream clock w k d r hrWrite st).trace,
        isEndOfStreamOn StreamKind.audio ev = false) := by
  unfold VideoAudio8.captureStream VideoAudio8.writeSample
  cases w <;> cases hs : r.sample <;> cases hf : FAILED r.hr <;> cases hw : FAILED hrWrite <;>
    by_cases he : r.flags &&& MF_SOURCE_READERF_ENDOFSTREAM = 0 <;>
    simp [noneAfter, isEndOfStreamOn, isCaptureCall, isReadSample, isWriteSample, hs, hf, hw, he]

/-- One iteration, for a kind `p` of call that neither the clock nor the wait is: if in
each stream's part a `p` call is the last capture call and is followed by `break`, the
same holds of the iteration. -/
theorem captureFrame_noneAfter (p : Event → Bool) (clock : Nat → Int) (a w : Bool)
    (e : FrameEnv) (st : LoopState)
    (hclock : ∀ t, p (Event.MFGetSystemTime t) = false)
    (hsleep : ∀ n, p (Event.sleep_for n) = false)
    (hstream : ∀ k d r hrWrite st',
      noneAfter p isCaptureCall (VideoAudio8.captureStream clock w k d r hrWrite st').trace =
        true ∧
      ((VideoAudio8.captureStream clock w k d r hrWrite st').broke = false →
        ∀ ev ∈ (VideoAudio8.captureStream clock w k d r hrWrite st').trace, p ev = false)) :
    noneAfter p isCaptureCall (VideoAudio8.captureFrame clock a w e st).trace = true ∧
    ((VideoAudio8.captureFrame clock a w e st).broke = false →
      ∀ ev ∈ (VideoAudio8.captureFrame clock a w e st).trace, p ev = false) := by
  have hA : ∀ ev ∈ (VideoAudio8.anchorStartTime clock st).trace, p ev = false := by
    unfold VideoAudio8.anchorStartTime
    split_ifs <;> simp [hclock]
  obtain ⟨hV1, hV2⟩ := hstream StreamKind.video (some VideoAudio8.llFrameDuration) e.videoRead
    e.videoWrite (VideoAudio8.anchorStartTime clock st).state
  obtain ⟨hU1, hU2⟩ := hstream StreamKind.audio none e.audioRead e.audioWrite
    (VideoAudio8.captureStream clock w StreamKind.video (some VideoAudio8.llFrameDuration)
      e.videoRead e.videoWrite (VideoAudio8.anchorStartTime clock st).state).state
  unfold VideoAudio8.captureFrame
  dsimp only
  generalize VideoAudio8.anchorStartTime clock st = A at *
  generalize VideoAudio8.captureStream clock w StreamKind.video
    (some VideoAudio8.llFrameDuration) e.videoRead e.videoWrite A.state = V at *
  generalize VideoAudio8.captureStream clock w StreamKind.audio none e.audioRead
    e.audioWrite V.state = U at *
  have hs : ∀ ev ∈ [Event.sleep_for 1000000], p ev = false := by
    simp [hsleep]
  cases hvb : V.broke
  · have hVn := hV2 hvb
    have hAV : ∀ ev ∈ A.trace ++ V.trace, p ev = false := by
      intro ev hev
      rcases List.mem_append.mp hev with h | h
      · exact hA ev h
      · exact hVn ev h
    cases hvc : V.crashed
    · cases a
      · simp only [Bool.or_self, Bool.false_eq_true, if_false]
        have hall : ∀ ev ∈ A.trace ++ V.trace ++ [Event.sleep_for 1000000], p ev = false := by
          intro ev hev
          rcases List.mem_append.mp hev with h | h
          · exact hAV ev h
          · exact hs ev h
        exact ⟨noneAfter_of_none _ _ _ hall, fun _ => hall⟩
      · simp only [Bool.or_self, Bool.false_eq_true, if_false, if_true]
        cases hub : U.broke
        · have hUn := hU2 hub
          have hAVU : ∀ ev ∈ A.trace ++ V.trace ++ U.trace, p ev = false := by
            intro ev hev
            rcases List.mem_append.mp hev with h | h
            · exact hAV ev h
            · exact hUn ev h
          cases huc : U.crashed
          · simp only [Bool.or_self, Bool.false_eq_true, if_false]
            have hall : ∀ ev ∈ A.trace ++ V.trace ++ U.trace ++ [Event.sleep_for 1000000],
                p ev = false := by
              intro ev hev
              rcases List.mem_append.mp hev with h | h
              · exact hAVU ev h
              · exact hs ev h
            exact ⟨noneAfter_of_none _ _ _ hall, fun _ => hall⟩
          · simp only [Bool.or_false, if_true]
            exact ⟨noneAfter_of_none _ _ _ hAVU, fun _ => hAVU⟩
        · simp only [Bool.or_true, if_true]
          refine ⟨?_, by simp⟩
          rw [noneAfter_append_of_none _ _ _ _ hAV]
          exact hU1
    · simp only [Bool.or_false, if_true]
      exact ⟨noneAfter_of_none _ _ _ hAV, fun _ => hAV⟩
  · simp only [Bool.or_true, if_true]
    refine ⟨?_, by simp⟩
    rw [noneAfter_append_of_none _ _ _ _ hA]
    exact hV1

/-- The whole loop, for such a kind `p` of call: no capture call follows a `p` call. -/
theorem captureLoop_noneAfter (p : Event → Bool) (clock : Nat → Int) (a w : Bool)
    (hclock : ∀ t, p (Event.MFGetSystemTime t) = false)
    (hsleep : ∀ n, p (Event.sleep_for n) = false)
    (hstream : ∀ k d r hrWrite st',
      noneAfter p isCaptureCall (VideoAudio8.captureStream clock w k d r hrWrite st').trace =
        true ∧
      ((VideoAudio8.captureStream clock w k d r hrWrite st').broke = false →
        ∀ ev ∈ (VideoAudio8.captureStream clock w k d r hrWrite st').trace, p ev = false)) :
    ∀ (frames : List FrameEnv) (st : LoopState),
      noneAfter p isCaptureCall (VideoAudio8.captureLoop clock a w frames st).trace = true := by
  intro frames
  induction frames with
  | nil =>
      intro st
      rfl
  | cons e rest ih =>
      intro st
      obtain ⟨h1, h2⟩ := captureFrame_noneAfter p clock a w e st hclock hsleep hstream
      unfold VideoAudio8.captureLoop
      dsimp only
      cases hc : (VideoAudio8.captureFrame clock a w e st).crashed
      · cases hb : (VideoAudio8.captureFrame clock a w e st).broke
        · simp only [Bool.false_eq_true, if_false]
          rw [noneAfter_append_of_none _ _ _ _ (h2 hb)]
          exact ih _
        · simpa using h1
      · simpa using h1

/-- Claim C17, as amended. In `CaptureFrames` of `8_Video_Audio_Recording_WMF`, when an
audio `ReadSample` reports the end-of-stream flag, the whole loop ends in that
iteration: the iteration leaves the loop with `break`, and no `ReadSample` or
`WriteSample` call is made afterwards on either stream, so video capture stops as
well. -/
theorem captureFrames_ends_at_audio_endOfStream (clock : Nat → Int)
    (pAudioSourceReader pSinkWriter : Bool) (frames : List FrameEnv) :
    (∀ (e : FrameEnv) (st : LoopState),
      (∃ ev ∈ (VideoAudio8.captureFrame clock pAudioSourceReader pSinkWriter e st).trace,
        isEndOfStreamOn StreamKind.audio ev = true) →
      (VideoAudio8.captureFrame clock pAudioSourceReader pSinkWriter e st).broke = true) ∧
    ∀ pre ev post,
      (VideoAudio8.CaptureFrames clock pAudioSourceReader pSinkWriter frames).trace =
        pre ++ ev :: post →
      isEndOfStreamOn StreamKind.audio ev = true → ∀ x ∈ post, isCaptureCall x = false := by
  have hclock : ∀ t, isEndOfStreamOn StreamKind.audio (Event.MFGetSystemTime t) = false :=
    fun _ => rfl
  have hsleep : ∀ n, isEndOfStreamOn StreamKind.audio (Event.sleep_for n) = false :=
    fun _ => rfl
  have hstream := fun k d r hrWrite st' =>
    captureStream_endOfStream clock pSinkWriter k d r hrWrite st'
  constructor
  · rintro e st ⟨ev, hev, hp⟩
    cases hb : (VideoAudio8.captureFrame clock pAudioSourceReader pSinkWriter e st).broke
    · have := (captureFrame_noneAfter _ clock pAudioSourceReader pSinkWriter e st hclock hsleep
        hstream).2 hb ev hev
      rw [this] at hp
      cases hp
    · rfl
  · rw [← noneAfter_iff]
    unfold VideoAudio8.CaptureFrames
    dsimp only
    have h := captureLoop_noneAfter _ clock pAudioSourceReader pSinkWriter hclock hsleep hstream
      frames ⟨0, 0⟩
    simp [noneAfter, isEndOfStreamOn, h]

theorem captureFrames_ends_at_audio_endOfStream_witness :
    (VideoAudio8.CaptureFrames tickingClock true true [audioEndOfStream, goodFrame]).trace =
      [Event.CaptureFrames,
        Event.MFGetSystemTime 1,
        Event.ReadSample StreamKind.video S_OK 0 true,
        Event.MFGetSystemTime 2,
        Event.WriteSample StreamKind.video 1 (some 666666) S_OK,
        Event.ReadSample StreamKind.audio S_OK 2 false] ∧
    (VideoAudio8.captureFrame tickingClock true true audioEndOfStream ⟨0, 0⟩).broke = true :=
  ⟨by decide,
    (captureFrames_ends_at_audio_endOfStream tickingClock true true []).1 audioEndOfStream
      ⟨0, 0⟩ ⟨Event.ReadSample StreamKind.audio S_OK 2 false, by decide, by decide⟩⟩

/-- Claim C17, as stated, fails: the audio read of the first iteration reports the end of
the stream while the recording flag stays set for a second iteration, and the loop
ends there; the video stream is read once, not twice, and nothing follows the audio
read. -/
theorem captureFrames_video_stops_at_audio_endOfStream :
    (VideoAudio8.CaptureFrames tickingClock true true [audioEndOfStream, goodFrame]).trace.getLast?
      = some (Event.ReadSample StreamKind.audio S_OK 2 false) ∧
    ((VideoAudio8.CaptureFrames tickingClock true true [audioEndOfStream, goodFrame]).trace.filter
      (isReadSampleOn StreamKind.video)).length = 1 := by
  decide

/-! ### The capture loop of `MultiDevice`: end of stream -/

theorem videoReads_pace (frameTime : Nat) :
    (MultiDevice.pace frameTime).filter (isReadSampleOn StreamKind.video) = [] := by
  unfold MultiDevice.pace
  cases MultiDevice.frameWait frameTime <;> simp [isReadSampleOn]

/-- With a sink writer, an iteration runs to its end and reads the video stream exactly
once, whatever the reads report. -/
theorem captureFrame_one_video_read (clock : Nat → Int) (a : Bool) (e : FrameEnv)
    (st : LoopState) :
    (MultiDevice.captureFrame clock a true e st).crashed = false ∧
    ((MultiDevice.captureFrame clock a true e st).trace.filter
      (isReadSampleOn StreamKind.video)).length = 1 := by
  by_cases h0 : st.startTime = 0 <;> cases hv : e.videoRead.sample <;>
    cases ha : e.audioRead.sample <;> cases a <;>
    simp [MultiDevice.captureFrame, MultiDevice.anchorStartTime, MultiDevice.captureVideo,
      MultiDevice.captureAudio, MultiDevice.writeSample, List.filter_append, videoReads_pace,
      isReadSampleOn, h0, hv, ha]

theorem captureLoop_video_reads (clock : Nat → Int) (a : Bool) :
    ∀ (frames : List FrameEnv) (st : LoopState),
      (MultiDevice.captureLoop clock a true frames st).crashed = false ∧
      ((MultiDevice.captureLoop clock a true frames st).trace.filter
        (isReadSampleOn StreamKind.video)).length = frames.length := by
  intro frames
  induction frames with
  | nil =>
      intro st
      simp [MultiDevice.captureLoop]
  | cons e rest ih =>
      intro st
      obtain ⟨h1, h2⟩ := captureFrame_one_video_read clock a e st
      obtain ⟨ih1, ih2⟩ := ih (MultiDevice.captureFrame clock a true e st).state
      unfold MultiDevice.captureLoop
      dsimp only
      rw [h1]
      simp only [Bool.false_eq_true, if_false, List.filter_append, List.length_append, h2, ih2,
        List.length_cons]
      exact ⟨ih1, by omega⟩

/-- In `CaptureFrames` of the multi-device program the end-of-stream flag of a video
`ReadSample` is not examined: with a sink writer, every iteration entered while the
recording flag is set performs its video `ReadSample`, whatever earlier reads
reported. -/
theorem captureFrames_ignores_endOfStream (clock : Nat → Int) (pAudioSourceReader : Bool)
    (frames : List FrameEnv) :
    (MultiDevice.CaptureFrames clock pAudioSourceReader true frames).crashed = false ∧
    ((MultiDevice.CaptureFrames clock pAudioSourceReader true frames).trace.filter
      (isReadSampleOn StreamKind.video)).length = frames.length := by
  obtain ⟨h1, h2⟩ := captureLoop_video_reads clock pAudioSourceReader frames ⟨0, 0⟩
  unfold MultiDevice.CaptureFrames
  dsimp only
  refine ⟨h1, ?_⟩
  rw [List.filter_cons]
  simpa [isReadSampleOn] using h2

/-- Claim C18 (the code departs from the claim). In the multi-device program the video
read of the first iteration reports the end of the stream, and the loop goes on to
read the audio stream, write its sample, and run the second iteration in full: calls
of the capture loop follow the read that reported the end of the stream. -/
theorem captureFrames_reads_after_endOfStream :
    (MultiDevice.CaptureFrames tickingClock true true [videoEndOfStream, goodFrame]).trace =
      [Event.CaptureFrames,
        Event.MFGetSystemTime 1,
        Event.ReadSample StreamKind.video S_OK 2 false,
        Event.ReadSample StreamKind.audio S_OK 0 true,
        Event.MFGetSystemTime 2,
        Event.WriteSample StreamKind.audio 1 none S_OK,
        Event.sleep_for 14666000,
        Event.ReadSample StreamKind.video S_OK 0 true,
        Event.MFGetSystemTime 3,
        Event.WriteSample StreamKind.video 2 (some 166666) S_OK,
        Event.ReadSample StreamKind.audio S_OK 0 true,
        Event.MFGetSystemTime 4,
        Event.WriteSample StreamKind.audio 3 none S_OK,
        Event.sleep_for 14666000] ∧
    noneAfter (isEndOfStreamOn StreamKind.video) isCaptureCall
      (MultiDevice.CaptureFrames tickingClock true true [videoEndOfStream, goodFrame]).trace =
        false := by
  decide

/-! ### `MultiDevice.EnumerateDevices` -/

theorem pushNamedDevices_eq (ppDevices : List EnumeratedDevice) :
    ∀ devices : List DeviceInfo,
      MultiDevice.pushNamedDevices ppDevices devices = devices ++ namedDevices ppDevices := by
  induction ppDevices with
  | nil =>
      intro devices
      simp [MultiDevice.pushNamedDevices, namedDevices]
  | cons d rest ih =>
      intro devices
      unfold MultiDevice.pushNamedDevices
      cases hd : SUCCEEDED d.GetAllocatedString
      · simp only [Bool.false_eq_true, if_false]
        rw [ih]
        simp [namedDevices, hd]
      · simp only [if_true]
        rw [ih]
        simp [namedDevices, hd]

/-- Claim C19. `EnumerateDevices` of the multi-device program returns a failure exactly
when `MFCreateAttributes`, `SetGUID` or `MFEnumDeviceSources` fails, and then leaves
the output list unchanged; otherwise it returns `S_OK` and appends to the output list,
in enumeration order, exactly the enumerated devices whose friendly-name query
succeeded, so that zero devices gives `S_OK` with nothing appended. -/
theorem enumerateDevices_result (k : StreamKind) (e : EnumEnv) (devices : List DeviceInfo) :
    (FAILED (MultiDevice.EnumerateDevices k e devices).1 = true ↔
      (FAILED e.MFCreateAttributes = true ∨ FAILED e.SetGUID = true ∨
        FAILED e.MFEnumDeviceSources = true)) ∧
    (FAILED (MultiDevice.EnumerateDevices k e devices).1 = true →
      (MultiDevice.EnumerateDevices k e devices).2.1 = devices) ∧
    (FAILED (MultiDevice.EnumerateDevices k e devices).1 = false →
      (MultiDevice.EnumerateDevices k e devices).1 = S_OK ∧
      (MultiDevice.EnumerateDevices k e devices).2.1 = devices ++ namedDevices e.ppDevices) ∧
    (FAILED (MultiDevice.EnumerateDevices k e devices).1 = false → e.ppDevices = [] →
      (MultiDevice.EnumerateDevices k e devices).2.1 = devices) := by
  have hok : FAILED S_OK = false := by decide
  unfold MultiDevice.EnumerateDevices
  dsimp only
  split_ifs with h1 h2 h3
  · simp [h1]
  · simp [h1, h2]
  · simp [h1, h2, h3]
  · simp only [hok, Bool.false_eq_true, false_iff, not_or, false_imp_iff, true_and, true_imp_iff,
      pushNamedDevices_eq]
    refine ⟨⟨h1, h2, h3⟩, ?_⟩
    intro hnil
    simp [hnil, namedDevices]

theorem enumerateDevices_result_witness :
    MultiDevice.EnumerateDevices StreamKind.video ⟨S_OK, S_OK, S_OK, [camera, namelessDevice,
        microphone]⟩ [] =
      (S_OK, [⟨⟨0, S_OK⟩, "camera"⟩, ⟨⟨1, S_OK⟩, "microphone"⟩],
        [Event.MFEnumDeviceSources StreamKind.video S_OK]) ∧
    (MultiDevice.EnumerateDevices StreamKind.video ⟨S_OK, S_OK, S_OK, [camera, namelessDevice,
        microphone]⟩ []).2.1 = [] ++ namedDevices [camera, namelessDevice, microphone] ∧
    (MultiDevice.EnumerateDevices StreamKind.video ⟨S_OK, S_OK, S_OK, []⟩ []).2.1 = [] :=
  ⟨by decide,
    ((enumerateDevices_result StreamKind.video ⟨S_OK, S_OK, S_OK, [camera, namelessDevice,
      microphone]⟩ []).2.2.1 (by decide)).2,
    (enumerateDevices_result StreamKind.video ⟨S_OK, S_OK, S_OK, []⟩ []).2.2.2 (by decide) rfl⟩

/-! ### `8_Video_Recording_using_WMF`: frame rates -/

/-- Claim C20 (the code departs from the claim). In `8_Video_Recording_using_WMF`, when
every call succeeds, the frame rate `ConfigureConservativeMediaType` requests from the
capture source is 30/1, not 15/1, while `ConfigureSinkWriter` declares 15/1 for the
output and the input type of the sink writer and `llFrameDuration` is the frame time
of 15 frames per second. -/
theorem requested_frame_rate_differs :
    ((VideoOnly8.ConfigureConservativeMediaType okVideoType).requested.bind
      (fun t => t.frameRate)) = some (30, 1) ∧
    ((VideoOnly8.ConfigureSinkWriter okSinkVideoOnly).mediaTypeOut.bind
      (fun t => t.frameRate)) = some (15, 1) ∧
    ((VideoOnly8.ConfigureSinkWriter okSinkVideoOnly).mediaTypeIn.bind
      (fun t => t.frameRate)) = some (15, 1) ∧
    (VideoOnly8.ConfigureConservativeMediaType okVideoType).llFrameDuration = 666666 ∧
    (666666 : Int) = 10000000 / 15 := by
  decide

/-- Whatever the environment answers, a media type that `ConfigureConservativeMediaType`
of `8_Video_Recording_using_WMF` hands to the source reader never carries the frame
rate 15/1. -/
theorem requested_frame_rate_never_15 (e : VideoTypeEnv) (t : MediaType)
    (h : (VideoOnly8.ConfigureConservativeMediaType e).requested = some t) :
    t.frameRate ≠ some (15, 1) := by
  unfold VideoOnly8.ConfigureConservativeMediaType at h
  dsimp only at h
  split_ifs at h
  simp only [Option.some.injEq] at h
  subst h
  unfold setAttribute
  split_ifs <;> simp [MediaType.empty]

/-! ### `MultiDevice.main` -/

/-- Claim C21, as amended. In the multi-device program, once `CoInitializeEx` has
succeeded, `main` returns 0 whenever it returns: after a session that captured and
finalized as after a session that ended without capturing, and also when
`MFStartup` failed. -/
theorem main_returns_zero (hrCoInitializeEx hrMFStartup : HRESULT) (e : SessionEnv)
    (code : Int) (hco : SUCCEEDED hrCoInitializeEx = true)
    (hret : (MultiDevice.main hrCoInitializeEx hrMFStartup e).exitCode = some code) :
    code = 0 := by
  have hnf : FAILED hrCoInitializeEx = false := by
    rw [FAILED_eq_not_SUCCEEDED, hco]
    rfl
  unfold MultiDevice.main at hret
  rw [hnf] at hret
  simp only [Bool.false_eq_true, if_false] at hret
  split_ifs at hret
  · simp only [Option.some.injEq] at hret
    exact hret.symm
  · simp only [Option.some.injEq] at hret
    exact hret.symm

theorem main_returns_zero_witness :
    (MultiDevice.main S_OK S_OK noCamera).exitCode = some 0 ∧ (0 : Int) = 0 :=
  ⟨by decide, main_returns_zero S_OK S_OK noCamera 0 (by decide) (by decide)⟩

/-- Claim C21, as stated, fails: `main` returns 0 after the session that captured and
finalized, and the same 0 after the sessions that ended without capturing because no
video device was listed, the selection was out of range, or the source reader could
not be created. -/
theorem main_exit_code_same :
    (Event.Finalize S_OK ∈ (MultiDevice.main S_OK S_OK okSession).trace ∧
      (MultiDevice.main S_OK S_OK okSession).trace.any isWriteSample = true ∧
      (MultiDevice.main S_OK S_OK okSession).exitCode = some 0) ∧
    (Event.CaptureFrames ∉ (MultiDevice.main S_OK S_OK noCamera).trace ∧
      (MultiDevice.main S_OK S_OK noCamera).exitCode = some 0) ∧
    (Event.CaptureFrames ∉ (MultiDevice.main S_OK S_OK videoSelectionOutOfRange).trace ∧
      (MultiDevice.main S_OK S_OK videoSelectionOutOfRange).exitCode = some 0) ∧
    (Event.CaptureFrames ∉ (MultiDevice.main S_OK S_OK videoReaderFails).trace ∧
      (MultiDevice.main S_OK S_OK videoReaderFails).exitCode = some 0) := by
  decide

/-! ### The iterations of the multi-device capture loop -/

/-- The calls of the loop are those of its iterations, in order. -/
theorem captureLoop_trace_iterations (clock : Nat → Int) (a w : Bool) :
    ∀ (frames : List FrameEnv) (st : LoopState),
      (MultiDevice.captureLoop clock a w frames st).trace =
        ((MultiDevice.iterations clock a w frames st).map
          (fun p => (MultiDevice.captureFrame clock a w p.1 p.2).trace)).flatten := by
  intro frames
  induction frames with
  | nil =>
      intro st
      rfl
  | cons e rest ih =>
      intro st
      unfold MultiDevice.captureLoop MultiDevice.iterations
      dsimp only
      split_ifs
      · simp
      · simp [ih]

/-- Every call of the loop is a call of one of its iterations. -/
theorem captureLoop_mem (clock : Nat → Int) (a w : Bool) (frames : List FrameEnv)
    (st : LoopState) (ev : Event)
    (hev : ev ∈ (MultiDevice.captureLoop clock a w frames st).trace) :
    ∃ p ∈ MultiDevice.iterations clock a w frames st,
      ev ∈ (MultiDevice.captureFrame clock a w p.1 p.2).trace := by
  rw [captureLoop_trace_iterations] at hev
  simp only [List.mem_flatten, List.mem_map] at hev
  obtain ⟨l, ⟨p, hp, rfl⟩, hl⟩ := hev
  exact ⟨p, hp, hl⟩

/-! ### The capture loop of `MultiDevice`: sample durations -/

theorem captureFrame_video_duration (clock : Nat → Int) (a w : Bool) (e : FrameEnv)
    (st : LoopState) :
    ∀ ev ∈ (MultiDevice.captureFrame clock a w e st).trace, ∀ d,
      sampleDurationOn StreamKind.video ev = some d →
        d = some (MultiDevice.FRAME_DURATION : Int) := by
  have hp : ∀ ev ∈ MultiDevice.pace e.frameTime, ∀ d,
      sampleDurationOn StreamKind.video ev = some d →
        d = some (MultiDevice.FRAME_DURATION : Int) := by
    unfold MultiDevice.pace
    cases MultiDevice.frameWait e.frameTime <;> simp [sampleDurationOn]
  by_cases h0 : st.startTime = 0 <;> cases hv : e.videoRead.sample <;>
    cases ha : e.audioRead.sample <;> cases a <;> cases w <;>
    simp [MultiDevice.captureFrame, MultiDevice.anchorStartTime, MultiDevice.captureVideo,
      MultiDevice.captureAudio, MultiDevice.writeSample, sampleDurationOn, h0, hv, ha] <;>
    exact hp

/-- Claim C23. In the multi-device program `FRAME_DURATION` is
`10000000 / FRAME_RATE_NUMERATOR` = 166666 units of 100 ns, the frame interval of the
60 frames per second target rounded down; every video sample written carries that
duration; and 60 such durations total 9999960 units, 40 units short of one second. -/
theorem video_sample_duration (clock : Nat → Int) (pAudioSourceReader pSinkWriter : Bool)
    (frames : List FrameEnv) :
    MultiDevice.FRAME_DURATION = 10000000 / MultiDevice.FRAME_RATE_NUMERATOR ∧
    MultiDevice.FRAME_RATE_NUMERATOR = 60 ∧
    MultiDevice.FRAME_DURATION = 166666 ∧
    (∀ ev ∈ (MultiDevice.CaptureFrames clock pAudioSourceReader pSinkWriter frames).trace,
      ∀ d, sampleDurationOn StreamKind.video ev = some d →
        d = some (MultiDevice.FRAME_DURATION : Int)) ∧
    60 * MultiDevice.FRAME_DURATION = 9999960 ∧
    60 * MultiDevice.FRAME_DURATION + 40 = 10000000 := by
  refine ⟨rfl, rfl, by decide, ?_, by decide, by decide⟩
  intro ev hev d hd
  unfold MultiDevice.CaptureFrames at hev
  dsimp only at hev
  rcases List.mem_cons.mp hev with h | h
  · subst h
    simp [sampleDurationOn] at hd
  · obtain ⟨p, _, hp⟩ := captureLoop_mem clock pAudioSourceReader pSinkWriter frames ⟨0, 0⟩ ev h
    exact captureFrame_video_duration clock pAudioSourceReader pSinkWriter p.1 p.2 ev hp d hd

theorem video_sample_duration_witness :
    ((MultiDevice.CaptureFrames tickingClock true true [goodFrame, goodFrame]).trace.filterMap
      (sampleDurationOn StreamKind.video)) = [some 166666, some 166666] ∧
    (some (166666 : Int)) = some (MultiDevice.FRAME_DURATION : Int) :=
  ⟨by decide,
    (video_sample_duration tickingClock true true [goodFrame, goodFrame]).2.2.2.1
      (Event.WriteSample StreamKind.video 1 (some 166666) S_OK) (by decide) (some 166666)
      (by decide)⟩

/-! ### The capture loop of `MultiDevice`: one origin for both streams -/

theorem toLONGLONG_sub (clock : Nat → Int)
    (hrange : ∀ k, 0 ≤ clock k ∧ clock k < 2 ^ 63) (hmono : ∀ k, clock k ≤ clock (k + 1))
    (j k : Nat) (hjk : j ≤ k) : toLONGLONG (clock k - clock j) = clock k - clock j := by
  apply toLONGLONG_of_range
  · have := clock_mono clock hmono j k hjk
    omega
  · have h1 := hrange k
    have h2 := hrange j
    omega

theorem stampedFrom_pace (origin : Int) (frameTime : Nat) :
    stampedFrom origin (MultiDevice.pace frameTime) = true := by
  unfold MultiDevice.pace
  cases MultiDevice.frameWait frameTime <;> simp [stampedFrom]

/-- The pacing of an iteration is no call or one sleep request. -/
theorem pace_cases (frameTime : Nat) :
    MultiDevice.pace frameTime = [] ∨
      ∃ wait, MultiDevice.pace frameTime = [Event.sleep_for wait] := by
  unfold MultiDevice.pace
  cases MultiDevice.frameWait frameTime
  · exact Or.inl rfl
  · exact Or.inr ⟨_, rfl⟩

/-- In an iteration every sample written carries the reading taken just before its
write minus the value `startTime` has in that iteration. -/
theorem captureFrame_stamped (clock : Nat → Int) (a w : Bool) (e : FrameEnv)
    (st : LoopState) :
    stampedFrom (MultiDevice.captureFrame clock a w e st).state.startTime
      (MultiDevice.captureFrame clock a w e st).trace = true := by
  rcases pace_cases e.frameTime with hp | ⟨wait, hp⟩ <;>
    by_cases h0 : st.startTime = 0 <;> cases hv : e.videoRead.sample <;>
    cases ha : e.audioRead.sample <;> cases a <;> cases w <;>
    simp [MultiDevice.captureFrame, MultiDevice.anchorStartTime, MultiDevice.captureVideo,
      MultiDevice.captureAudio, MultiDevice.writeSample, stampedFrom, h0, hv, ha, hp]

/-- What `startTime` can be when an iteration begins: still unset, or a reading the
clock has already given. -/
theorem captureFrame_reach (clock : Nat → Int) (a w : Bool) (e : FrameEnv) (st : LoopState)
    (h : st.startTime = 0 ∨ ∃ j, j < st.clockCalls ∧ st.startTime = clock j) :
    (MultiDevice.captureFrame clock a w e st).state.startTime = 0 ∨
      ∃ j, j < (MultiDevice.captureFrame clock a w e st).state.clockCalls ∧
        (MultiDevice.captureFrame clock a w e st).state.startTime = clock j := by
  have hcalls : (if st.startTime = 0 then st.clockCalls + 1 else st.clockCalls) ≤
      (MultiDevice.captureFrame clock a w e st).state.clockCalls := by
    by_cases h0 : st.startTime = 0 <;> cases hv : e.videoRead.sample <;>
      cases ha : e.audioRead.sample <;> cases a <;> cases w <;>
      (simp [MultiDevice.captureFrame, MultiDevice.anchorStartTime, MultiDevice.captureVideo,
        MultiDevice.captureAudio, MultiDevice.writeSample, h0, hv, ha]; try omega)
  rw [captureFrame_startTime]
  by_cases h0 : st.startTime = 0
  · rw [if_pos h0] at hcalls ⊢
    exact Or.inr ⟨st.clockCalls, by omega, rfl⟩
  · rw [if_neg h0] at hcalls ⊢
    rcases h with h | ⟨j, hj, hs⟩
    · exact absurd h h0
    · exact Or.inr ⟨j, by omega, hs⟩

theorem iterations_reach (clock : Nat → Int) (a w : Bool) (frames : List FrameEnv) :
    ∀ st : LoopState,
      (st.startTime = 0 ∨ ∃ j, j < st.clockCalls ∧ st.startTime = clock j) →
      ∀ p ∈ MultiDevice.iterations clock a w frames st,
        p.2.startTime = 0 ∨ ∃ j, j < p.2.clockCalls ∧ p.2.startTime = clock j := by
  induction frames with
  | nil => intro st _ p hp; simp [MultiDevice.iterations] at hp
  | cons e rest ih =>
      intro st hst p hp
      unfold MultiDevice.iterations at hp
      dsimp only at hp
      split_ifs at hp with hc
      · simp at hp
        subst hp
        exact hst
      · rcases List.mem_cons.mp hp with hp | hp
        · subst hp
          exact hst
        · exact ih _ (captureFrame_reach clock a w e st hst) p hp

/-- Once `startTime` holds the first reading and that reading is not 0, every later
iteration begins with it. -/
theorem iterations_origin (clock : Nat → Int) (hnz : clock 0 ≠ 0) (a w : Bool)
    (frames : List FrameEnv) :
    ∀ st : LoopState, (st = ⟨0, 0⟩ ∨ st.startTime = clock 0) →
      ∀ p ∈ MultiDevice.iterations clock a w frames st,
        (MultiDevice.captureFrame clock a w p.1 p.2).state.startTime = clock 0 := by
  induction frames with
  | nil => intro st _ p hp; simp [MultiDevice.iterations] at hp
  | cons e rest ih =>
      intro st hst p hp
      have hf : (MultiDevice.captureFrame clock a w e st).state.startTime = clock 0 := by
        rw [captureFrame_startTime]
        rcases hst with h | h
        · subst h
          simp
        · rw [if_neg (by rw [h]; exact hnz)]
          exact h
      unfold MultiDevice.iterations at hp
      dsimp only at hp
      split_ifs at hp with hc
      · simp at hp
        subst hp
        exact hf
      · rcases List.mem_cons.mp hp with hp | hp
        · subst hp
          exact hf
        · exact ih _ (Or.inr hf) p hp

/-- With a clock that never runs backwards, the audio sample of an iteration is not
stamped earlier than its video sample. -/
theorem captureFrame_audio_after_video (clock : Nat → Int)
    (hrange : ∀ k, 0 ≤ clock k ∧ clock k < 2 ^ 63) (hmono : ∀ k, clock k ≤ clock (k + 1))
    (a w : Bool) (e : FrameEnv) (st : LoopState)
    (h : st.startTime = 0 ∨ ∃ j, j < st.clockCalls ∧ st.startTime = clock j) :
    ∀ tv ∈ sampleTimes StreamKind.video (MultiDevice.captureFrame clock a w e st).trace,
      ∀ ta ∈ sampleTimes StreamKind.audio (MultiDevice.captureFrame clock a w e st).trace,
        tv ≤ ta := by
  obtain ⟨s, c⟩ := st
  have hm := hmono (c + 1)
  have hm0 := hmono c
  by_cases h0 : s = 0
  · subst h0
    have h1 := toLONGLONG_sub clock hrange hmono c (c + 1) (by omega)
    have h2 := toLONGLONG_sub clock hrange hmono c (c + 2) (by omega)
    have h3 := toLONGLONG_sub clock hrange hmono c (c + 1 + 1) (by omega)
    have hm2 : clock (c + 1) ≤ clock (c + 2) := hmono (c + 1)
    rcases pace_cases e.frameTime with hp | ⟨wait, hp⟩ <;>
      cases hv : e.videoRead.sample <;> cases ha : e.audioRead.sample <;> cases a <;>
      cases w <;>
      simp [MultiDevice.captureFrame, MultiDevice.anchorStartTime, MultiDevice.captureVideo,
        MultiDevice.captureAudio, MultiDevice.writeSample, sampleTimes,
        sampleTimeOn, hv, ha, hp] <;> omega
  · rcases h with h | ⟨j, hj, hs⟩
    · exact absurd h h0
    · simp only at hj hs
      have h1 := toLONGLONG_sub clock hrange hmono j c (by omega)
      have h2 := toLONGLONG_sub clock hrange hmono j (c + 1) (by omega)
      rw [← hs] at h1 h2
      rcases pace_cases e.frameTime with hp | ⟨wait, hp⟩ <;>
        cases hv : e.videoRead.sample <;> cases ha : e.audioRead.sample <;> cases a <;>
        cases w <;>
        simp [MultiDevice.captureFrame, MultiDevice.anchorStartTime,
          MultiDevice.captureVideo, MultiDevice.captureAudio, MultiDevice.writeSample,
          sampleTimes, sampleTimeOn, hv, ha, hp, h0] <;> omega

/-- Claim C22, as amended. In the multi-device capture loop, with clock readings that
never decrease and a first reading that is not 0: in every iteration `startTime` is the
first reading of the session, each sample written, video or audio, carries the clock
reading taken just before its write minus that first reading, and the audio sample of
an iteration is stamped no earlier than the video sample of the same iteration. -/
theorem sample_times_share_origin (clock : Nat → Int)
    (hrange : ∀ k, 0 ≤ clock k ∧ clock k < 2 ^ 63) (hmono : ∀ k, clock k ≤ clock (k + 1))
    (hnz : clock 0 ≠ 0)
    (pAudioSourceReader pSinkWriter : Bool) (frames : List FrameEnv) :
    ∀ p ∈ MultiDevice.iterations clock pAudioSourceReader pSinkWriter frames ⟨0, 0⟩,
      (MultiDevice.captureFrame clock pAudioSourceReader pSinkWriter p.1
          p.2).state.startTime = clock 0 ∧
        stampedFrom (clock 0)
          (MultiDevice.captureFrame clock pAudioSourceReader pSinkWriter p.1 p.2).trace = true ∧
        ∀ tv ∈ sampleTimes StreamKind.video
            (MultiDevice.captureFrame clock pAudioSourceReader pSinkWriter p.1 p.2).trace,
          ∀ ta ∈ sampleTimes StreamKind.audio
              (MultiDevice.captureFrame clock pAudioSourceReader pSinkWriter p.1 p.2).trace,
            tv ≤ ta := by
  intro p hp
  have horigin := iterations_origin clock hnz _ _ frames ⟨0, 0⟩ (Or.inl rfl) p hp
  refine ⟨horigin, ?_, ?_⟩
  · rw [← horigin]
    exact captureFrame_stamped clock _ _ p.1 p.2
  · exact captureFrame_audio_after_video clock hrange hmono _ _ p.1 p.2
      (iterations_reach clock _ _ frames ⟨0, 0⟩ (Or.inl rfl) p hp)

theorem sample_times_share_origin_witness :
    (∀ k, 0 ≤ tickingClock k ∧ tickingClock k < 2 ^ 63) ∧
    (∀ k, tickingClock k ≤ tickingClock (k + 1)) ∧
    tickingClock 0 ≠ 0 ∧
    MultiDevice.iterations tickingClock true true [goodFrame, goodFrame] ⟨0, 0⟩ =
      [(goodFrame, ⟨0, 0⟩), (goodFrame, ⟨1, 3⟩)] ∧
    (MultiDevice.captureFrame tickingClock true true goodFrame ⟨1, 3⟩).trace =
      [Event.ReadSample StreamKind.video S_OK 0 true, Event.MFGetSystemTime 4,
        Event.WriteSample StreamKind.video 3 (some MultiDevice.FRAME_DURATION) S_OK,
        Event.ReadSample StreamKind.audio S_OK 0 true, Event.MFGetSystemTime 5,
        Event.WriteSample StreamKind.audio 4 none S_OK, Event.sleep_for 14666000] ∧
    ∀ p ∈ MultiDevice.iterations tickingClock true true [goodFrame, goodFrame] ⟨0, 0⟩,
      (MultiDevice.captureFrame tickingClock true true p.1 p.2).state.startTime =
          tickingClock 0 ∧
        stampedFrom (tickingClock 0)
          (MultiDevice.captureFrame tickingClock true true p.1 p.2).trace = true ∧
        ∀ tv ∈ sampleTimes StreamKind.video
            (MultiDevice.captureFrame tickingClock true true p.1 p.2).trace,
          ∀ ta ∈ sampleTimes StreamKind.audio
              (MultiDevice.captureFrame tickingClock true true p.1 p.2).trace,
            tv ≤ ta :=
  ⟨fun k => by unfold tickingClock; constructor <;> omega,
    fun k => by unfold tickingClock; omega, by decide, by rfl, by decide,
    sample_times_share_origin tickingClock
      (fun k => by unfold tickingClock; constructor <;> omega)
      (fun k => by unfold tickingClock; omega) (by decide) true true [goodFrame, goodFrame]⟩

/-- Claim C22, as stated, fails when the first reading is zero: the first iteration
stamps its samples from the origin 0 and the second from the origin 3, so that no one
origin accounts for the sample times of both, and the video samples written at the
readings 1 and 4 both carry the time 1. -/
theorem sample_times_origin_moves :
    (MultiDevice.iterations clockFromZero true true [goodFrame, goodFrame] ⟨0, 0⟩).map
      (fun p => (MultiDevice.captureFrame clockFromZero true true p.1 p.2).state.startTime) =
        [0, 3] ∧
    (MultiDevice.iterations clockFromZero true true [goodFrame, goodFrame] ⟨0, 0⟩).map
      (fun p => stampedFrom 0 (MultiDevice.captureFrame clockFromZero true true p.1 p.2).trace) =
        [true, false] ∧
    (MultiDevice.iterations clockFromZero true true [goodFrame, goodFrame] ⟨0, 0⟩).map
      (fun p => stampedFrom 3 (MultiDevice.captureFrame clockFromZero true true p.1 p.2).trace) =
        [false, true] ∧
    (MultiDevice.CaptureFrames clockFromZero true true [goodFrame, goodFrame]).trace =
      [Event.CaptureFrames,
        Event.MFGetSystemTime 0,
        Event.ReadSample StreamKind.video S_OK 0 true,
        Event.MFGetSystemTime 1,
        Event.WriteSample StreamKind.video 1 (some 166666) S_OK,
        Event.ReadSample StreamKind.audio S_OK 0 true,
        Event.MFGetSystemTime 2,
        Event.WriteSample StreamKind.audio 2 none S_OK,
        Event.sleep_for 14666000,
        Event.MFGetSystemTime 3,
        Event.ReadSample StreamKind.video S_OK 0 true,
        Event.MFGetSystemTime 4,
        Event.WriteSample StreamKind.video 1 (some 166666) S_OK,
        Event.ReadSample StreamKind.audio S_OK 0 true,
        Event.MFGetSystemTime 5,
        Event.WriteSample StreamKind.audio 2 none S_OK,
        Event.sleep_for 14666000] := by
  decide

/-! ### The capture loop of `MultiDevice`: the calls of one iteration -/

theorem filter_pace (p : Event → Bool) (hp : ∀ n, p (Event.sleep_for n) = false)
    (frameTime : Nat) : (MultiDevice.pace frameTime).filter p = [] := by
  unfold MultiDevice.pace
  cases MultiDevice.frameWait frameTime <;> simp [hp]

/-- Calls appended to a trace that satisfy neither predicate do not change what
`noneAfter` says. -/
theorem noneAfter_append_inert (p q : Event → Bool) (t1 t2 : List Event)
    (h : ∀ ev ∈ t2, p ev = false ∧ q ev = false) :
    noneAfter p q (t1 ++ t2) = noneAfter p q t1 := by
  induction t1 with
  | nil =>
      rw [List.nil_append]
      rw [noneAfter_of_none p q t2 (fun ev hev => (h ev hev).1)]
      rfl
  | cons a rest ih =>
      have hq : t2.all (fun x => !q x) = true := by
        rw [List.all_eq_true]
        intro x hx
        simp [(h x hx).2]
      simp [noneAfter, ih, List.all_append, hq]

theorem noneAfter_pace (p q : Event → Bool) (hp : ∀ n, p (Event.sleep_for n) = false)
    (hq : ∀ n, q (Event.sleep_for n) = false) (t : List Event) (frameTime : Nat) :
    noneAfter p q (t ++ MultiDevice.pace frameTime) = noneAfter p q t := by
  apply noneAfter_append_inert
  unfold MultiDevice.pace
  cases MultiDevice.frameWait frameTime <;> simp [hp, hq]

theorem captureFrame_one_audio_read (clock : Nat → Int) (a : Bool) (e : FrameEnv)
    (st : LoopState) :
    ((MultiDevice.captureFrame clock a true e st).trace.filter
        (isReadSampleOn StreamKind.audio)).length = (if a then 1 else 0) := by
  have hp := filter_pace (isReadSampleOn StreamKind.audio) (fun _ => rfl) e.frameTime
  by_cases h0 : st.startTime = 0 <;> cases hv : e.videoRead.sample <;>
    cases ha : e.audioRead.sample <;> cases a <;>
    simp [MultiDevice.captureFrame, MultiDevice.anchorStartTime, MultiDevice.captureVideo,
      MultiDevice.captureAudio, MultiDevice.writeSample, List.filter_append, hp,
      isReadSampleOn, h0, hv, ha]

theorem captureFrame_video_writes (clock : Nat → Int) (a : Bool) (e : FrameEnv)
    (st : LoopState) :
    ((MultiDevice.captureFrame clock a true e st).trace.filter
        (isWriteSampleOn StreamKind.video)).length = (if e.videoRead.sample then 1 else 0) := by
  have hp := filter_pace (isWriteSampleOn StreamKind.video) (fun _ => rfl) e.frameTime
  by_cases h0 : st.startTime = 0 <;> cases hv : e.videoRead.sample <;>
    cases ha : e.audioRead.sample <;> cases a <;>
    simp [MultiDevice.captureFrame, MultiDevice.anchorStartTime, MultiDevice.captureVideo,
      MultiDevice.captureAudio, MultiDevice.writeSample, List.filter_append, hp,
      isWriteSampleOn, h0, hv, ha]

theorem captureFrame_audio_writes (clock : Nat → Int) (a : Bool) (e : FrameEnv)
    (st : LoopState) :
    ((MultiDevice.captureFrame clock a true e st).trace.filter
        (isWriteSampleOn StreamKind.audio)).length =
      (if a && e.audioRead.sample then 1 else 0) := by
  have hp := filter_pace (isWriteSampleOn StreamKind.audio) (fun _ => rfl) e.frameTime
  by_cases h0 : st.startTime = 0 <;> cases hv : e.videoRead.sample <;>
    cases ha : e.audioRead.sample <;> cases a <;>
    simp [MultiDevice.captureFrame, MultiDevice.anchorStartTime, MultiDevice.captureVideo,
      MultiDevice.captureAudio, MultiDevice.writeSample, List.filter_append, hp,
      isWriteSampleOn, h0, hv, ha]

/-- With a sink writer an iteration runs through its three steps and the pacing. -/
theorem captureFrame_trace_with_writer (clock : Nat → Int) (a : Bool) (e : FrameEnv)
    (st : LoopState) :
    (MultiDevice.captureFrame clock a true e st).trace =
      ((MultiDevice.anchorStartTime clock st).trace ++
        (MultiDevice.captureVideo clock true e (MultiDevice.anchorStartTime clock st).state).trace ++
        (MultiDevice.captureAudio clock a true e
          (MultiDevice.captureVideo clock true e
            (MultiDevice.anchorStartTime clock st).state).state).trace) ++
        MultiDevice.pace e.frameTime := by
  by_cases h0 : st.startTime = 0 <;> cases hv : e.videoRead.sample <;>
    cases ha : e.audioRead.sample <;> cases a <;>
    simp [MultiDevice.captureFrame, MultiDevice.anchorStartTime, MultiDevice.captureVideo,
      MultiDevice.captureAudio, MultiDevice.writeSample, h0, hv, ha]

theorem captureFrame_audio_read_last (clock : Nat → Int) (a : Bool) (e : FrameEnv)
    (st : LoopState) :
    noneAfter (isReadSampleOn StreamKind.audio)
        (fun ev => isReadSampleOn StreamKind.video ev || isWriteSampleOn StreamKind.video ev)
        (MultiDevice.captureFrame clock a true e st).trace = true := by
  rw [captureFrame_trace_with_writer, noneAfter_pace _ _ (fun _ => rfl) (fun _ => rfl)]
  by_cases h0 : st.startTime = 0 <;> cases hv : e.videoRead.sample <;>
    cases ha : e.audioRead.sample <;> cases a <;>
    simp [MultiDevice.anchorStartTime, MultiDevice.captureVideo,
      MultiDevice.captureAudio, MultiDevice.writeSample, noneAfter,
      isReadSampleOn, isWriteSampleOn, h0, hv, ha]

theorem captureFrame_no_break (clock : Nat → Int) (a w : Bool) (e : FrameEnv)
    (st : LoopState) : (MultiDevice.captureFrame clock a w e st).broke = false := by
  unfold MultiDevice.captureFrame
  dsimp only
  split_ifs <;> rfl

/-- An iteration of the multi-device capture loop whose sink writer exists makes exactly
one `ReadSample` call on the video reader and, exactly when an audio reader is present,
exactly one on the audio reader, which no video read or write follows; it writes at
most one sample per stream, one exactly when the read on that stream gave a sample;
and whatever the reads gave, the iteration does not leave the loop, which goes on with
the next iteration. -/
theorem iteration_reads_and_writes (clock : Nat → Int) (pAudioSourceReader : Bool)
    (e : FrameEnv) (st : LoopState) :
    ((MultiDevice.captureFrame clock pAudioSourceReader true e st).trace.filter
        (isReadSampleOn StreamKind.video)).length = 1 ∧
    ((MultiDevice.captureFrame clock pAudioSourceReader true e st).trace.filter
        (isReadSampleOn StreamKind.audio)).length = (if pAudioSourceReader then 1 else 0) ∧
    noneAfter (isReadSampleOn StreamKind.audio)
        (fun ev => isReadSampleOn StreamKind.video ev || isWriteSampleOn StreamKind.video ev)
        (MultiDevice.captureFrame clock pAudioSourceReader true e st).trace = true ∧
    ((MultiDevice.captureFrame clock pAudioSourceReader true e st).trace.filter
        (isWriteSampleOn StreamKind.video)).length =
      (if e.videoRead.sample then 1 else 0) ∧
    ((MultiDevice.captureFrame clock pAudioSourceReader true e st).trace.filter
        (isWriteSampleOn StreamKind.audio)).length =
      (if pAudioSourceReader && e.audioRead.sample then 1 else 0) ∧
    (MultiDevice.captureFrame clock pAudioSourceReader true e st).crashed = false ∧
    (MultiDevice.captureFrame clock pAudioSourceReader true e st).broke = false ∧
    ∀ rest : List FrameEnv,
      (MultiDevice.captureLoop clock pAudioSourceReader true (e :: rest) st).trace =
        (MultiDevice.captureFrame clock pAudioSourceReader true e st).trace ++
          (MultiDevice.captureLoop clock pAudioSourceReader true rest
            (MultiDevice.captureFrame clock pAudioSourceReader true e st).state).trace := by
  have hc := (captureFrame_one_video_read clock pAudioSourceReader e st).1
  refine ⟨(captureFrame_one_video_read clock pAudioSourceReader e st).2,
    captureFrame_one_audio_read clock pAudioSourceReader e st,
    captureFrame_audio_read_last clock pAudioSourceReader e st,
    captureFrame_video_writes clock pAudioSourceReader e st,
    captureFrame_audio_writes clock pAudioSourceReader e st, hc,
    captureFrame_no_break clock pAudioSourceReader true e st, ?_⟩
  intro rest
  rw [MultiDevice.captureLoop]
  simp [hc]

/-- Claim C24 (the code departs from the claim). In the session `noSinkWriter` the
creation of the sink writer fails and `ConfigureSinkWriter` returns that failure, which
`StartRecording` does not read: the capture loop starts with a null sink writer, and
its first iteration, whose video read gives a sample, ends in the call through that
null pointer. The iteration makes no `ReadSample` call on the audio reader, although
an audio reader is present, and the loop does not go on. -/
theorem iteration_stops_at_null_writer :
    (MultiDevice.StartRecording noSinkWriter).trace =
      [Event.MFEnumDeviceSources StreamKind.video S_OK,
        Event.ActivateObject StreamKind.video 0 S_OK,
        Event.MFCreateSourceReaderFromMediaSource StreamKind.video S_OK,
        Event.SetCurrentMediaType StreamKind.video S_OK,
        Event.MFEnumDeviceSources StreamKind.audio S_OK,
        Event.ActivateObject StreamKind.audio 0 S_OK,
        Event.MFCreateSourceReaderFromMediaSource StreamKind.audio S_OK,
        Event.SetCurrentMediaType StreamKind.audio S_OK,
        Event.MFCreateSinkWriterFromURL E_FAIL,
        Event.CaptureFrames,
        Event.MFGetSystemTime 1,
        Event.ReadSample StreamKind.video S_OK 0 true,
        Event.MFGetSystemTime 2,
        Event.nullDereference] ∧
    (MultiDevice.StartRecording noSinkWriter).crashed = true ∧
    (MultiDevice.captureFrame tickingClock true false goodFrame ⟨0, 0⟩).trace =
      [Event.MFGetSystemTime 1,
        Event.ReadSample StreamKind.video S_OK 0 true,
        Event.MFGetSystemTime 2,
        Event.nullDereference] ∧
    (MultiDevice.captureFrame tickingClock true false goodFrame ⟨0, 0⟩).crashed = true ∧
    ((MultiDevice.captureFrame tickingClock true false goodFrame ⟨0, 0⟩).trace.filter
      (isReadSampleOn StreamKind.audio)).length = 0 ∧
    ((MultiDevice.CaptureFrames tickingClock true false [goodFrame, goodFrame]).trace.filter
      (isReadSampleOn StreamKind.video)).length = 1 := by
  decide

/-! ### `MultiDevice.SelectDevice` -/

theorem static_cast_int_of_lt (n : Nat) (h : n < 2 ^ 31) : static_cast_int n = (n : Int) := by
  unfold static_cast_int
  omega

/-- Claim C26. `SelectDevice` never reads the device list outside its bounds, whatever
the list and the integer entered. It calls `ActivateObject` only on an entry whose index
is the integer entered and lies inside the list; on an empty list it returns null and
makes no call. When the size of the list fits an `int`, it activates
`devices[selection]` exactly when `0 ≤ selection < devices.size()`, and otherwise
returns null and makes no call. -/
theorem selectDevice_within_bounds (k : StreamKind) (devices : List DeviceInfo)
    (selection : Int) :
    (MultiDevice.SelectDevice k devices selection).crashed = false ∧
    ((MultiDevice.SelectDevice k devices selection).trace ≠ [] →
      0 ≤ selection ∧ selection < (devices.length : Int)) ∧
    (devices = [] →
      (MultiDevice.SelectDevice k devices selection).mediaSource = false ∧
      (MultiDevice.SelectDevice k devices selection).trace = []) ∧
    (devices.length < 2 ^ 31 →
      ((0 ≤ selection ∧ selection < (devices.length : Int)) →
        ∃ info, devices[selection.toNat]? = some info ∧
          (MultiDevice.SelectDevice k devices selection).trace =
            [Event.ActivateObject k selection.toNat info.device.ActivateObject] ∧
          (MultiDevice.SelectDevice k devices selection).mediaSource =
            SUCCEEDED info.device.ActivateObject) ∧
      (¬ (0 ≤ selection ∧ selection < (devices.length : Int)) →
        (MultiDevice.SelectDevice k devices selection).mediaSource = false ∧
        (MultiDevice.SelectDevice k devices selection).trace = [])) := by
  have hle := static_cast_int_le devices.length
  refine ⟨?_, ?_, ?_, ?_⟩
  · unfold MultiDevice.SelectDevice
    split_ifs with h
    · split
      · rfl
      · rename_i hnone
        rw [List.getElem?_eq_none_iff] at hnone
        omega
    · rfl
  · unfold MultiDevice.SelectDevice
    split_ifs with h
    · intro _
      exact ⟨h.1, by omega⟩
    · intro hne
      exact absurd rfl hne
  · intro hnil
    subst hnil
    unfold MultiDevice.SelectDevice
    rw [if_neg]
    · exact ⟨rfl, rfl⟩
    · simp [static_cast_int]
  · intro hlen
    have hcast := static_cast_int_of_lt devices.length hlen
    constructor
    · intro hin
      have hlt : selection.toNat < devices.length := by omega
      refine ⟨devices[selection.toNat], List.getElem?_eq_getElem hlt, ?_, ?_⟩
      · unfold MultiDevice.SelectDevice
        rw [if_pos (by rw [hcast]; exact hin), List.getElem?_eq_getElem hlt]
      · unfold MultiDevice.SelectDevice
        rw [if_pos (by rw [hcast]; exact hin), List.getElem?_eq_getElem hlt]
    · intro hout
      unfold MultiDevice.SelectDevice
      rw [if_neg (by rw [hcast]; exact hout)]
      exact ⟨rfl, rfl⟩

theorem selectDevice_within_bounds_witness :
    listedDevices.length < 2 ^ 31 ∧
    (0 : Int) ≤ 1 ∧ (1 : Int) < (listedDevices.length : Int) ∧
    ¬ ((0 : Int) ≤ 2 ∧ (2 : Int) < (listedDevices.length : Int)) ∧
    (MultiDevice.SelectDevice StreamKind.audio listedDevices 1).trace =
      [Event.ActivateObject StreamKind.audio 1 S_OK] ∧
    (MultiDevice.SelectDevice StreamKind.audio listedDevices 2).trace = [] ∧
    (MultiDevice.SelectDevice StreamKind.audio listedDevices
      (-1)).mediaSource = false := by
  have h := selectDevice_within_bounds StreamKind.audio listedDevices 1
  have h2 := selectDevice_within_bounds StreamKind.audio listedDevices 2
  have h3 := selectDevice_within_bounds StreamKind.audio listedDevices (-1)
  refine ⟨by decide, by decide, by decide, by decide, ?_, ?_, ?_⟩
  · obtain ⟨info, hinfo, ht, _⟩ := (h.2.2.2 (by decide)).1 ⟨by decide, by decide⟩
    rw [ht]
    have hm : listedDevices[(1 : Int).toNat]? = some ⟨microphone.device, "microphone"⟩ := rfl
    rw [hm] at hinfo
    rw [← Option.some.inj hinfo]
    rfl
  · exact ((h2.2.2.2 (by decide)).2 (by decide)).2
  · exact ((h3.2.2.2 (by decide)).2 (by decide)).1

/-! ### `8_Video_Recording_using_WMF`: sample times -/

theorem videoOnly_captureLoop_samples (d : Int) (hd : 0 ≤ d) (w : Bool) :
    ∀ (frames : List FrameEnv) (t0 : Int), 0 ≤ t0 →
      t0 + (frames.length : Int) * d < 2 ^ 63 →
      writtenSamples (VideoOnly8.captureLoop d w frames t0).trace =
        (List.range (writtenSamples (VideoOnly8.captureLoop d w frames t0).trace).length).map
          (fun (k : Nat) => (t0 + (k : Int) * d, some d)) := by
  intro frames
  induction frames with
  | nil =>
      intro t0 _ _
      simp [VideoOnly8.captureLoop, writtenSamples]
  | cons e rest ih =>
      intro t0 h0 hlen
      have hlen' : t0 + d + (rest.length : Int) * d < 2 ^ 63 := by
        simp only [List.length_cons, Nat.cast_add, Nat.cast_one] at hlen
        linarith
      have hrestnn : 0 ≤ (rest.length : Int) * d := mul_nonneg (by omega) hd
      have hrest : t0 + (rest.length : Int) * d < 2 ^ 63 := by linarith
      have hwrap : toLONGLONG (t0 + d) = t0 + d :=
        toLONGLONG_of_range _ (by omega) (by linarith)
      rw [VideoOnly8.captureLoop]
      dsimp only
      split_ifs with h1 h2 h3 h4 h5
      · simp [writtenSamples, writtenSample]
      · simp [writtenSamples, writtenSample]
      · simp [writtenSamples, writtenSample, List.range_succ]
      · rw [hwrap]
        have := ih (t0 + d) (by omega) hlen'
        simp only [writtenSamples, List.filterMap_cons, writtenSample, List.length_cons]
          at this ⊢
        generalize List.filterMap writtenSample
          (VideoOnly8.captureLoop d w rest (t0 + d)).trace = X at this ⊢
        rw [List.range_succ_eq_map]
        rw [List.map_cons, List.map_map]
        refine congrArg₂ List.cons (by simp) ?_
        rw [this]
        simp only [List.length_map, List.length_range]
        apply List.map_congr_left
        intro k _
        simp only [Function.comp, Nat.cast_succ]
        congr 1
        ring
      · simp [writtenSamples, writtenSample]
      · have := ih t0 h0 hrest
        simp only [writtenSamples, List.filterMap_cons, writtenSample] at this ⊢
        exact this

/-- Claim C25. In the video-only program, once `ConfigureConservativeMediaType` has
assigned `llFrameDuration`, the k-th `WriteSample` call of `CaptureFrames`
(k = 0, 1, 2, ...) carries the sample time `k * 666666` and the duration 666666,
whatever the reads and writes answer, as long as the sample times stay inside a
`LONGLONG`. -/
theorem written_sample_times (e : VideoTypeEnv) (pSinkWriter : Bool) (frames : List FrameEnv)
    (hset : (VideoOnly8.ConfigureConservativeMediaType e).requested ≠ none)
    (hlen : (frames.length : Int) * 666666 < 2 ^ 63) :
    (VideoOnly8.ConfigureConservativeMediaType e).llFrameDuration = 666666 ∧
    writtenSamples (VideoOnly8.CaptureFrames
        (VideoOnly8.ConfigureConservativeMediaType e).llFrameDuration pSinkWriter frames).trace =
      (List.range (writtenSamples (VideoOnly8.CaptureFrames
          (VideoOnly8.ConfigureConservativeMediaType e).llFrameDuration pSinkWriter
          frames).trace).length).map
        (fun (k : Nat) => ((k : Int) * 666666, some 666666)) := by
  have hd : (VideoOnly8.ConfigureConservativeMediaType e).llFrameDuration = 666666 := by
    unfold VideoOnly8.ConfigureConservativeMediaType at hset ⊢
    dsimp only at hset ⊢
    split_ifs at hset ⊢ with h1 h2
    · exact absurd rfl hset
    · exact absurd rfl hset
    · rfl
  refine ⟨hd, ?_⟩
  rw [hd]
  unfold VideoOnly8.CaptureFrames
  have := videoOnly_captureLoop_samples 666666 (by norm_num) pSinkWriter frames 0 (le_refl 0)
    (by linarith)
  simpa using this

theorem written_sample_times_witness :
    (VideoOnly8.ConfigureConservativeMediaType okVideoType).requested ≠ none ∧
    (([goodFrame, emptyFrame, goodFrame, goodFrame].length : Nat) : Int) * 666666 < 2 ^ 63 ∧
    writtenSamples (VideoOnly8.CaptureFrames
        (VideoOnly8.ConfigureConservativeMediaType okVideoType).llFrameDuration true
        [goodFrame, emptyFrame, goodFrame, goodFrame]).trace =
      [(0, some 666666), (666666, some 666666), (1333332, some 666666)] := by
  have h := written_sample_times okVideoType true [goodFrame, emptyFrame, goodFrame, goodFrame]
    (by decide) (by decide)
  refine ⟨by decide, by decide, ?_⟩
  rw [h.2]
  decide

/-! ### `Record.cpp`: the recording flag -/

/-- Claim C27. `start_recording` called while `is_recording` is true, and
`stop_recording` called while it is false, return with both globals unchanged and
without any call on the pipeline; a `start_recording` whose change to `PLAYING` fails
leaves `is_recording` false, and `eos_received` as it was. -/
theorem recording_guards (e : Record.KeyStep) (eos_received : Bool) :
    Record.start_recording e ⟨true, eos_received⟩ = (⟨true, eos_received⟩, []) ∧
    Record.stop_recording e ⟨false, eos_received⟩ = some (⟨false, eos_received⟩, []) ∧
    (Record.start_recording { e with toPlaying := Record.GstStateChangeReturn.FAILURE }
        ⟨false, eos_received⟩).1 = ⟨false, eos_received⟩ ∧
    (Record.start_recording { e with toPlaying := Record.GstStateChangeReturn.FAILURE }
        ⟨false, eos_received⟩).2 =
      [Record.Call.gst_element_set_state Record.GstState.NULL e.toNull,
        Record.Call.g_object_set_location e.filename,
        Record.Call.gst_element_set_state Record.GstState.PLAYING
          Record.GstStateChangeReturn.FAILURE] := by
  refine ⟨?_, ?_, ?_, ?_⟩ <;> simp [Record.start_recording, Record.stop_recording]

theorem stop_recording_flag (e : Record.KeyStep) (g : Record.Globals)
    (r : Record.Globals × List Record.Call) (h : Record.stop_recording e g = some r) :
    r.1.is_recording = false := by
  unfold Record.stop_recording at h
  split_ifs at h with hrec
  · cases hw : Record.awaitEos e.waits g with
    | none => rw [hw] at h; cases h
    | some p =>
        rw [hw] at h
        obtain ⟨g', t⟩ := p
        simp only [Option.some.injEq] at h
        rw [← h]
  · simp only [Option.some.injEq] at h
    rw [← h]
    simpa using hrec

theorem after_flag (t : List Record.Call) (o : Option (Record.Globals × List Record.Call))
    (r : Record.Globals × List Record.Call) (h : Record.after t o = some r) :
    ∃ r', o = some r' ∧ r.1 = r'.1 := by
  cases o with
  | none => cases h
  | some p =>
      obtain ⟨g, t'⟩ := p
      simp only [Record.after, Option.some.injEq] at h
      exact ⟨(g, t'), rfl, by rw [← h]⟩

/-- Claim C28. Whatever keys are read, whatever the state changes answer and whatever
messages arrive, from any values of the globals: when the key loop of `main` is left on
`c` (which supposes that every `stop_recording` call returned), `is_recording` is
false. -/
theorem key_loop_leaves_not_recording (steps : List Record.KeyStep) (g : Record.Globals)
    (r : Record.Globals × List Record.Call) (h : Record.keyLoop steps g = some r) :
    r.1.is_recording = false := by
  induction steps generalizing g r with
  | nil => cases h
  | cons e rest ih =>
      unfold Record.keyLoop at h
      split_ifs at h with ha hb hc hrec
      · obtain ⟨r', hr', heq⟩ := after_flag _ _ _ h
        rw [heq]
        exact ih _ _ hr'
      · cases hs : Record.stop_recording e g with
        | none => rw [hs] at h; cases h
        | some s =>
            rw [hs] at h
            obtain ⟨r', hr', heq⟩ := after_flag _ _ _ h
            rw [heq]
            exact ih _ _ hr'
      · exact stop_recording_flag e g r h
      · simp only [Option.some.injEq] at h
        rw [← h]
        simpa using hrec
      · obtain ⟨r', hr', heq⟩ := after_flag _ _ _ h
        rw [heq]
        exact ih _ _ hr'

theorem key_loop_leaves_not_recording_witness :
    Record.keyLoop [quietPass 'a', quietPass 'x', quietPass 'c'] ⟨false, false⟩ =
      some recordThenLeave ∧
    recordThenLeave.1.is_recording = false :=
  ⟨by decide,
    key_loop_leaves_not_recording [quietPass 'a', quietPass 'x', quietPass 'c'] ⟨false, false⟩
      recordThenLeave (by decide)⟩

/-! ### `12_Youtube_livestream_first_code`: the bytes handed to the encoder -/

theorem youtube_pace_written (frameTime : Nat) :
    (Youtube.pace frameTime).filterMap Youtube.written = [] ∧
    (Youtube.pace frameTime).filter Youtube.isReadSample = [] := by
  unfold Youtube.pace
  dsimp only
  split_ifs <;> simp [Youtube.written, Youtube.isReadSample]

theorem youtube_captureFrame (p : Bool) (e : Youtube.FrameEnv) (startTime : Int)
    (hbuf : e.read.sample = true → e.buffer ≠ none) :
    (Youtube.captureFrame p e startTime).crashed = false ∧
    ((Youtube.captureFrame p e startTime).trace.filter Youtube.isReadSample).length = 1 ∧
    (Youtube.captureFrame p e startTime).trace.filterMap Youtube.written =
      if p then Youtube.samplesObtained [e] else [] := by
  obtain ⟨h1, h2⟩ := youtube_pace_written e.frameTime
  cases hs : e.read.sample with
  | false =>
      by_cases h0 : startTime = 0 <;> cases p <;>
        simp [Youtube.captureFrame, Youtube.samplesObtained, Youtube.written,
          Youtube.isReadSample, List.filter_append, List.filterMap_append, hs, h0, h1, h2]
  | true =>
      cases hb : e.buffer with
      | none => exact absurd hb (hbuf hs)
      | some b =>
          by_cases h0 : startTime = 0 <;> cases p <;>
            simp [Youtube.captureFrame, Youtube.writeToEncoder, Youtube.samplesObtained,
              Youtube.written, Youtube.isReadSample, List.filter_append,
              List.filterMap_append, hs, hb, h0, h1, h2]

theorem youtube_samplesObtained_cons (e : Youtube.FrameEnv) (rest : List Youtube.FrameEnv) :
    Youtube.samplesObtained (e :: rest) =
      Youtube.samplesObtained [e] ++ Youtube.samplesObtained rest := by
  unfold Youtube.samplesObtained
  cases hs : e.read.sample <;> cases hb : e.buffer <;>
    simp [List.filter_cons, List.filterMap_cons, hs, hb]

theorem youtube_samplesObtained_length (frames : List Youtube.FrameEnv)
    (hbuf : ∀ e ∈ frames, e.read.sample = true → e.buffer ≠ none) :
    (Youtube.samplesObtained frames).length =
      (frames.filter (fun e => e.read.sample)).length := by
  induction frames with
  | nil => rfl
  | cons e rest ih =>
      have ih := ih (fun e' he' => hbuf e' (by simp [he']))
      rw [youtube_samplesObtained_cons, List.length_append, ih]
      have hb := hbuf e (by simp)
      cases hs : e.read.sample with
      | false => simp [Youtube.samplesObtained, List.filter_cons, hs]
      | true =>
          cases hbb : e.buffer with
          | none => exact absurd hbb (hb hs)
          | some b =>
              simp [Youtube.samplesObtained, List.filter_cons, hs, hbb]
              omega

theorem youtube_captureLoop (p : Bool) :
    ∀ (frames : List Youtube.FrameEnv) (startTime : Int),
      (∀ e ∈ frames, e.read.sample = true → e.buffer ≠ none) →
      (Youtube.captureLoop p frames startTime).2 = false ∧
      ((Youtube.captureLoop p frames startTime).1.filter Youtube.isReadSample).length =
        frames.length ∧
      (Youtube.captureLoop p frames startTime).1.filterMap Youtube.written =
        if p then Youtube.samplesObtained frames else [] := by
  intro frames
  induction frames with
  | nil =>
      intro startTime _
      cases p <;> simp [Youtube.captureLoop, Youtube.samplesObtained]
  | cons e rest ih =>
      intro startTime hbuf
      obtain ⟨hc, hr, hw⟩ := youtube_captureFrame p e startTime (hbuf e (by simp))
      obtain ⟨ihc, ihr, ihw⟩ := ih (Youtube.captureFrame p e startTime).startTime
        (fun e' he' => hbuf e' (by simp [he']))
      rw [Youtube.captureLoop]
      simp only [hc, Bool.false_eq_true, if_false, List.filter_append, List.length_append,
        List.filterMap_append, hr, ihr, hw, ihw, ihc, List.length_cons]
      refine ⟨trivial, by omega, ?_⟩
      rw [youtube_samplesObtained_cons e rest]
      cases p <;> simp

/-- In the streaming program, as long as every sample obtained has a contiguous buffer:
when the encoder process was started, the `fwrite` calls of `CaptureFrames` are, in
read order and one for each sample obtained, the data of the sample's buffer with the
byte count `currentLength`; when the process did not start, there is no `fwrite` call;
in both cases every iteration reads once. -/
theorem encoder_writes (started : Bool) (frames : List Youtube.FrameEnv)
    (hbuf : ∀ e ∈ frames, e.read.sample = true → e.buffer ≠ none) :
    (Youtube.CaptureFrames started frames).2 = false ∧
    ((Youtube.CaptureFrames started frames).1.filter Youtube.isReadSample).length =
      frames.length ∧
    (Youtube.CaptureFrames started frames).1.filterMap Youtube.written =
      (if started then Youtube.samplesObtained frames else []) ∧
    (Youtube.samplesObtained frames).length =
      (frames.filter (fun e => e.read.sample)).length := by
  obtain ⟨hc, hr, hw⟩ := youtube_captureLoop started frames 0 hbuf
  refine ⟨?_, ?_, ?_, ?_⟩
  · simp [Youtube.CaptureFrames, hc]
  · cases started <;>
      simp [Youtube.CaptureFrames, hc, hr, List.filter_append, Youtube.isReadSample]
  · cases started <;>
      simp [Youtube.CaptureFrames, hc, List.filterMap_append, Youtube.written] <;>
      simpa using hw
  · exact youtube_samplesObtained_length frames hbuf

theorem encoder_writes_witness :
    (∀ e ∈ [frameOf [16, 128, 128], noSampleFrame, frameOf [17, 128]],
      e.read.sample = true → e.buffer ≠ none) ∧
    (Youtube.CaptureFrames true
        [frameOf [16, 128, 128], noSampleFrame, frameOf [17, 128]]).1.filterMap
        Youtube.written = [([16, 128, 128], 3), ([17, 128], 2)] ∧
    (Youtube.CaptureFrames false
        [frameOf [16, 128, 128], noSampleFrame, frameOf [17, 128]]).1.filterMap
        Youtube.written = [] := by
  have hbuf : ∀ e ∈ [frameOf [16, 128, 128], noSampleFrame, frameOf [17, 128]],
      e.read.sample = true → e.buffer ≠ none := by
    intro e he
    simp only [List.mem_cons, List.mem_singleton, List.not_mem_nil, or_false] at he
    rcases he with h | h | h <;> subst h <;> simp [frameOf, noSampleFrame]
  have h1 := encoder_writes true [frameOf [16, 128, 128], noSampleFrame, frameOf [17, 128]]
    hbuf
  have h2 := encoder_writes false [frameOf [16, 128, 128], noSampleFrame, frameOf [17, 128]]
    hbuf
  refine ⟨hbuf, ?_, ?_⟩
  · rw [h1.2.2.1]
    decide
  · rw [h2.2.2.1]
    rfl

/-- Claim C29 (the code departs from the claim). In the streaming program the result of
`ConvertToContiguousBuffer` is not checked: in a run of three iterations whose second
sample gets no contiguous buffer, the run ends in the `Lock` call through the null
buffer pointer. With the encoder started, the first sample is handed to `fwrite`, the
second is never written, and the third iteration never reads; with the encoder not
started the loop stops reading at the same place, although the recording flag is still
set. -/
theorem encoder_write_stops_at_null_buffer :
    (Youtube.CaptureFrames true [frameOf [16, 128, 128], noBufferFrame, frameOf [17, 128]]).1 =
      [Youtube.Call.popen Youtube.command true,
        Youtube.Call.MFGetSystemTime 1,
        Youtube.Call.ReadSample S_OK 0 true,
        Youtube.Call.ConvertToContiguousBuffer true,
        Youtube.Call.Lock S_OK,
        Youtube.Call.fwrite [16, 128, 128] 3,
        Youtube.Call.fflush,
        Youtube.Call.Unlock,
        Youtube.Call.sleep_for 14666000,
        Youtube.Call.ReadSample S_OK 0 true,
        Youtube.Call.ConvertToContiguousBuffer false,
        Youtube.Call.nullDereference] ∧
    (Youtube.CaptureFrames true [frameOf [16, 128, 128], noBufferFrame, frameOf [17, 128]]).2 =
      true ∧
    (Youtube.CaptureFrames true
        [frameOf [16, 128, 128], noBufferFrame, frameOf [17, 128]]).1.filterMap
        Youtube.written = [([16, 128, 128], 3)] ∧
    ((Youtube.CaptureFrames true
        [frameOf [16, 128, 128], noBufferFrame, frameOf [17, 128]]).1.filter
        Youtube.isReadSample).length = 2 ∧
    (Youtube.CaptureFrames false [noBufferFrame, frameOf [17, 128]]).1 =
      [Youtube.Call.popen Youtube.command false,
        Youtube.Call.MFGetSystemTime 1,
        Youtube.Call.ReadSample S_OK 0 true,
        Youtube.Call.ConvertToContiguousBuffer false,
        Youtube.Call.nullDereference] ∧
    (Youtube.CaptureFrames false [noBufferFrame, frameOf [17, 128]]).2 = true := by
  refine ⟨rfl, rfl, rfl, rfl, rfl, rfl⟩

/-! ### `12_Youtube_livestream_first_code`: the format announced to the encoder -/

theorem youtube_requested_format (e : VideoTypeEnv) (t : MediaType)
    (h : (Youtube.ConfigureConservativeMediaType e).requested = some t) :
    t.subtype = some VideoFormat.NV12 ∧
    t.frameSize = some (Youtube.FRAME_WIDTH, Youtube.FRAME_HEIGHT) ∧
    t.frameRate = some (Youtube.FRAME_RATE_NUMERATOR, Youtube.FRAME_RATE_DENOMINATOR) := by
  unfold Youtube.ConfigureConservativeMediaType at h
  dsimp only at h
  split_ifs at h with h1 h2 h3 h4 h5 h6
  simp only [Option.some.injEq] at h
  rw [FAILED_eq_not_SUCCEEDED] at h2 h3 h4 h5 h6
  simp only [Bool.not_eq_true', Bool.not_eq_false] at h2 h3 h4 h5 h6
  subst h
  simp [setAttribute, h2, h3, h4, h5, h6, MediaType.empty]

/-- Claim C30. In the streaming program the options of the raw-video input in the
command line of `StartFFmpegProcess` are `-pix_fmt nv12 -s 640x480 -r 60`, and they
name the capture format `ConfigureConservativeMediaType` requests: the pixel format is
the subtype NV12, the size is `FRAME_WIDTH` by `FRAME_HEIGHT`, and the rate is
`FRAME_RATE_NUMERATOR / FRAME_RATE_DENOMINATOR`, which is a whole number. -/
theorem encoder_input_format (e : VideoTypeEnv) (t : MediaType)
    (h : (Youtube.ConfigureConservativeMediaType e).requested = some t) :
    Youtube.firstInputOptions Youtube.command =
      ["ffmpeg".toList, "-y".toList, "-f".toList, "rawvideo".toList, "-pix_fmt".toList,
        "nv12".toList, "-s".toList, "640x480".toList, "-r".toList, "60".toList] ∧
    (Youtube.optionValue "-pix_fmt" (Youtube.firstInputOptions Youtube.command)).bind
        Youtube.pixelFormat = t.subtype ∧
    (Youtube.optionValue "-s" (Youtube.firstInputOptions Youtube.command)).bind
        Youtube.frameSize = t.frameSize ∧
    (Youtube.optionValue "-r" (Youtube.firstInputOptions Youtube.command)).bind
        Youtube.decimal = t.frameRate.map (fun r => r.1 / r.2) ∧
    t.frameRate.map (fun r => r.1 % r.2) = some 0 := by
  obtain ⟨h1, h2, h3⟩ := youtube_requested_format e t h
  rw [h1, h2, h3]
  refine ⟨by decide, by decide, by decide, by decide, by decide⟩

theorem encoder_input_format_witness :
    (Youtube.ConfigureConservativeMediaType okVideoType).requested = some streamedFormat ∧
    (Youtube.optionValue "-pix_fmt" (Youtube.firstInputOptions Youtube.command)).bind
        Youtube.pixelFormat = streamedFormat.subtype ∧
    (Youtube.optionValue "-s" (Youtube.firstInputOptions Youtube.command)).bind
        Youtube.frameSize = streamedFormat.frameSize ∧
    (Youtube.optionValue "-r" (Youtube.firstInputOptions Youtube.command)).bind
        Youtube.decimal = streamedFormat.frameRate.map (fun r => r.1 / r.2) :=
  ⟨by decide,
    (encoder_input_format okVideoType streamedFormat (by decide)).2.1,
    (encoder_input_format okVideoType streamedFormat (by decide)).2.2.1,
    (encoder_input_format okVideoType streamedFormat (by decide)).2.2.2.1⟩

end WebCam
